import Mathlib

/-!
# Ranktable plugin of the model-serving controller

A shallow embedding of `pkg/model-serving-controller/plugins/ranktable` and
of the discovery plugin of `pkg/model-serving-controller/plugins`:

* `BuildRanktableTemplateData` (template.go), the rank assignment aggregator;
* `GetRanktableTemplate`, `ParsePodRanktable`, `RenderRanktable`,
  `GenerateRanktableConfigMapName` and `EnsureRanktableConfigMap` (template.go);
* the hooks `OnPodCreate`, `OnPodReady` and `OnRoleDelete` of `RanktablePlugin`
  (plugin.go);
* the hooks `OnPodCreate` and `OnPodReady` of `PodDiscoveryPlugin`
  (pod_discovery.go), with the retry loop of `wait.PollImmediate`.

Conventions of the embedding.

* A Go string is a Lean `String`; Go compares strings byte-wise, which on
  well-formed UTF-8 is the lexicographic order of the code points, the order
  `stringLess` computes.
* A Go slice whose nil-ness is observable is a `GoSlice`: `none` is the nil
  slice, `some l` a non-nil slice with elements `l`.
* A Go map is an association list with one entry per key; only lookups and
  the sorted key list are ever read from it, so the iteration order of the map
  does not show.
* `int` counters (64 bit) count elements of lists held in memory and are
  natural numbers; `int32` arithmetic is done on `Int` and wrapped explicitly.
* Library calls whose code is not part of the repository (`sort.Slice`,
  `time.Now`, template execution and YAML decoding, `utils.PodRoleName`, the
  encoding of a string by `json.Marshal`) are parameters; `wait.PollImmediate`
  is modelled with the number of tries its timeout allows as a parameter.
-/

set_option linter.dupNamespace false

namespace Ranktable

/-! ## Go primitives -/

/-- Go's `a < b` on strings. -/
def stringLess (a b : String) : Bool := decide (a.toList < b.toList)

/-- The function `strconv.Itoa` on a non-negative `int`. -/
def itoa (n : Nat) : String := Nat.repr n

/-- A Go slice with observable nil-ness: `none` is `nil`. -/
abbrev GoSlice (α : Type) := Option (List α)

/-- The elements a `range` loop over the slice visits. -/
def GoSlice.elems {α : Type} : GoSlice α → List α
  | none => []
  | some l => l

/-- Conversion `int32(x)` of an integer: wrap into `[-2^31, 2^31)`. -/
def toInt32 (x : Int) : Int := (x + 2147483648) % 4294967296 - 2147483648

/-! ## types.go -/

/-- The constant `RanktableStatusInitializing`. -/
def RanktableStatusInitializing : String := "Initializing"

/-- The constant `RanktableStatusCompleted`. -/
def RanktableStatusCompleted : String := "Completed"

/-- The constant `RoleLevelRanktable`. -/
def RoleLevelRanktable : String := "role"

/-- The constant `GroupLevelRanktable`. -/
def GroupLevelRanktable : String := "group"

/-- Device information without rank id. -/
structure DeviceInfo where
  DeviceId : String
  DeviceIp : String
deriving DecidableEq, Repr

/-- The ranktable information of a single pod. -/
structure PodRanktableData where
  PodName : String
  ServerId : String
  Devices : List DeviceInfo
deriving DecidableEq, Repr

/-- Device information with rank id. -/
structure DeviceWithRank where
  DeviceId : String
  DeviceIp : String
  RankId : String
deriving DecidableEq, Repr

/-- Server information in the ranktable. -/
structure ServerInfo where
  ServerId : String
  Devices : List DeviceWithRank
deriving DecidableEq, Repr

/-- The data used to generate a role or group ranktable. -/
structure RanktableTemplateData where
  Status : String
  ServerCount : Nat
  TotalDevices : Nat
  Timestamp : String
  Servers : GoSlice ServerInfo
deriving DecidableEq, Repr

/-- The complete ranktable template configuration (`Level` is a
`RanktableLevel`, a string type). -/
structure RanktableTemplate where
  InferenceEngine : String
  Level : String
  PodParserTemplate : String
  RanktableTemplate : String
  MountPath : String
  Filename : String
  PodAnnotationName : String
deriving DecidableEq, Repr

/-! ## template.go: BuildRanktableTemplateData -/

/-- The map update `serverMap[k] = append(serverMap[k], ds...)`. -/
def appendAt (m : List (String × List DeviceInfo)) (k : String) (ds : List DeviceInfo) :
    List (String × List DeviceInfo) :=
  match m with
  | [] => [(k, ds)]
  | (k', v) :: rest => if k' = k then (k', v ++ ds) :: rest else (k', v) :: appendAt rest k ds

/-- The map read `serverMap[k]`, the nil slice for an absent key. -/
def mapGet (m : List (String × List DeviceInfo)) (k : String) : List DeviceInfo :=
  match m with
  | [] => []
  | (k', v) :: rest => if k' = k then v else mapGet rest k

/-- The first loop of `BuildRanktableTemplateData`: group devices by server id. -/
def groupByServer (podRanktables : List PodRanktableData) : List (String × List DeviceInfo) :=
  podRanktables.foldl (fun serverMap podData => appendAt serverMap podData.ServerId podData.Devices) []

/-- One pass of the inner loop of an insertion sort: `x` is put in front of the
first element it is less than. -/
def insertLess {α : Type} (less : α → α → Bool) (x : α) : List α → List α
  | [] => [x]
  | y :: ys => if less x y then x :: y :: ys else y :: insertLess less x ys

/-- Insertion sort, elements taken from left to right. -/
def insertionSortLess {α : Type} (less : α → α → Bool) (l : List α) : List α :=
  l.foldl (fun acc x => insertLess less x acc) []

/-- The call `sort.Strings(serverIds)`. The keys of a map are distinct, so the
ascending arrangement is unique and every sorting algorithm returns it. -/
def sortStrings (serverIds : List String) : List String :=
  insertionSortLess stringLess serverIds

/-- The comparison closure handed to `sort.Slice`:
`devices[i].DeviceId < devices[j].DeviceId`. -/
def deviceLess (a b : DeviceInfo) : Bool := stringLess a.DeviceId b.DeviceId

/-- The call `sort.Slice(devices, less)` with its documented contract: the
result is a rearrangement of the slice in which no element is less than an
earlier one. The sort is not guaranteed to be stable. -/
structure SliceSorter where
  sort : List DeviceInfo → List DeviceInfo
  perm : ∀ l, (sort l).Perm l
  sorted : ∀ l, (sort l).Pairwise (fun a b => deviceLess b a = false)

/-- The insertion sort that `sort.Slice` runs on a slice of at most 12
elements, with the proof that it meets the contract. It leaves elements that
compare equal in their order of arrival. -/
def goInsertionSort : SliceSorter where
  sort := insertionSortLess deviceLess
  perm := fun l => by
    have hins : ∀ (x : DeviceInfo) (acc : List DeviceInfo),
        (insertLess deviceLess x acc).Perm (x :: acc) := by
      intro x acc
      induction acc with
      | nil => exact List.Perm.refl _
      | cons y ys ih =>
        unfold insertLess
        split
        · exact List.Perm.refl _
        · exact (List.Perm.cons y ih).trans (List.Perm.swap x y ys)
    have hfold : ∀ (l acc : List DeviceInfo),
        (l.foldl (fun acc x => insertLess deviceLess x acc) acc).Perm (acc ++ l) := by
      intro l
      induction l with
      | nil => intro acc; simp
      | cons x xs ih =>
        intro acc
        refine (ih (insertLess deviceLess x acc)).trans ?_
        refine (List.Perm.append_right xs (hins x acc)).trans ?_
        simpa using (@List.perm_middle _ x acc xs).symm
    simpa [insertionSortLess] using hfold l []
  sorted := fun l => by
    have hle : ∀ a b : DeviceInfo, deviceLess b a = false ↔ a.DeviceId ≤ b.DeviceId := by
      intro a b
      rw [← not_lt, String.lt_iff_toList_lt]
      simp [deviceLess, stringLess]
    have hmem : ∀ (x z : DeviceInfo) (acc : List DeviceInfo),
        z ∈ insertLess deviceLess x acc → z = x ∨ z ∈ acc := by
      intro x z acc
      induction acc with
      | nil => intro h; simpa [insertLess] using h
      | cons y ys ih =>
        unfold insertLess
        split
        · intro h; simpa using h
        · intro h
          rcases List.mem_cons.1 h with h | h
          · exact Or.inr (h ▸ List.mem_cons_self _ _)
          · rcases ih h with h | h
            · exact Or.inl h
            · exact Or.inr (List.mem_cons_of_mem _ h)
    have hins : ∀ (x : DeviceInfo) (acc : List DeviceInfo),
        acc.Pairwise (fun a b => deviceLess b a = false) →
        (insertLess deviceLess x acc).Pairwise (fun a b => deviceLess b a = false) := by
      intro x acc
      induction acc with
      | nil => intro _; simp [insertLess]
      | cons y ys ih =>
        intro h
        rw [List.pairwise_cons] at h
        unfold insertLess
        split
        · rename_i hlt
          have hxy : x.DeviceId < y.DeviceId := by
            rw [String.lt_iff_toList_lt]
            simpa [deviceLess, stringLess] using hlt
          refine List.Pairwise.cons ?_ (List.Pairwise.cons h.1 h.2)
          intro z hz
          rcases List.mem_cons.1 hz with hz | hz
          · rw [hz]; exact (hle x y).2 (le_of_lt hxy)
          · exact (hle x z).2 (le_trans (le_of_lt hxy) ((hle y z).1 (h.1 z hz)))
        · rename_i hlt
          refine List.Pairwise.cons ?_ (ih h.2)
          intro z hz
          rcases hmem x z ys hz with hz | hz
          · rw [hz]; simpa using hlt
          · exact h.1 z hz
    have hfold : ∀ (l acc : List DeviceInfo),
        acc.Pairwise (fun a b => deviceLess b a = false) →
        (l.foldl (fun acc x => insertLess deviceLess x acc) acc).Pairwise
          (fun a b => deviceLess b a = false) := by
      intro l
      induction l with
      | nil => intro acc h; simpa using h
      | cons x xs ih => intro acc h; exact ih _ (hins x acc h)
    exact hfold l [] List.Pairwise.nil

/-- The inner loop of `BuildRanktableTemplateData`: one `DeviceWithRank` per
device, both counters incremented once per device. Returns the ranked devices
and the final values of `globalRankId` and `totalDevices`. -/
def assignRanks : List DeviceInfo → Nat → Nat → List DeviceWithRank × Nat × Nat
  | [], globalRankId, totalDevices => ([], globalRankId, totalDevices)
  | dev :: rest, globalRankId, totalDevices =>
    let r := assignRanks rest (globalRankId + 1) (totalDevices + 1)
    ({ DeviceId := dev.DeviceId, DeviceIp := dev.DeviceIp, RankId := itoa globalRankId } :: r.1,
      r.2.1, r.2.2)

/-- The variables the outer loop of `BuildRanktableTemplateData` updates. -/
structure BuildState where
  servers : List ServerInfo
  globalRankId : Nat
  totalDevices : Nat
deriving DecidableEq, Repr

/-- The outer loop of `BuildRanktableTemplateData` over the sorted server ids. -/
def buildServers (S : SliceSorter) (serverMap : List (String × List DeviceInfo)) :
    List String → BuildState → BuildState
  | [], st => st
  | serverId :: rest, st =>
    let devices := S.sort (mapGet serverMap serverId)
    let r := assignRanks devices st.globalRankId st.totalDevices
    buildServers S serverMap rest
      { servers := st.servers ++ [{ ServerId := serverId, Devices := r.1 }],
        globalRankId := r.2.1,
        totalDevices := r.2.2 }

/-- The method `TemplateManager.BuildRanktableTemplateData`. `S` is the
library sort applied to the devices of a server and `now` is the formatted
result of `time.Now()`. -/
def BuildRanktableTemplateData (S : SliceSorter) (now : String) (status : String)
    (podRanktables : GoSlice PodRanktableData) : RanktableTemplateData :=
  let serverMap := groupByServer podRanktables.elems
  let serverIds := sortStrings (serverMap.map Prod.fst)
  let st := buildServers S serverMap serverIds { servers := [], globalRankId := 0, totalDevices := 0 }
  { Status := status,
    ServerCount := st.servers.length,
    TotalDevices := st.totalDevices,
    Timestamp := now,
    Servers := some st.servers }

/-- The number of devices the server map holds for the servers `ids`. -/
def deviceCount (serverMap : List (String × List DeviceInfo)) (ids : List String) : Nat :=
  (ids.map (fun id => (mapGet serverMap id).length)).sum

/-- The value of a decimal digit character. -/
def digitVal (c : Char) : Nat := c.toNat - 48

/-- Reading a decimal numeral from the left, starting from `acc`. -/
def readDecimal (acc : Nat) (l : List Char) : Nat :=
  l.foldl (fun a c => 10 * a + digitVal c) acc

/-- The device a ranked device was made from. -/
def DeviceWithRank.info (d : DeviceWithRank) : DeviceInfo :=
  { DeviceId := d.DeviceId, DeviceIp := d.DeviceIp }

/-- Within one server id a device id names one device: two devices reported
under the same server id and the same device id are equal. -/
def DeviceKeysConsistent (pods : List PodRanktableData) : Prop :=
  ∀ p ∈ pods, ∀ q ∈ pods, p.ServerId = q.ServerId →
    ∀ a ∈ p.Devices, ∀ b ∈ q.Devices, a.DeviceId = b.DeviceId → a = b

instance (pods : List PodRanktableData) : Decidable (DeviceKeysConsistent pods) := by
  unfold DeviceKeysConsistent; infer_instance

/-! ## plugin.go: the readiness check of OnPodReady -/

/-- The constant `corev1.PodRunning`. -/
def PodRunning : String := "Running"

/-- The fields of a `corev1.Pod` that `OnPodReady` reads. `DeletionTimestamp`
is a pointer, `none` when the pod is not being deleted; `Annotations` is a map,
`none` on an absent key. -/
structure Pod where
  Name : String
  DeletionTimestamp : Option String
  Phase : String
  Annotations : String → Option String

/-- The fields of a role of the workload that `OnPodReady` reads;
`WorkerReplicas` is an `int32`. -/
structure Role where
  Name : String
  WorkerReplicas : Int
deriving DecidableEq, Repr

/-- The variables the pod loop of `OnPodReady` updates. -/
structure ReadyState where
  allReady : Bool
  podRanktables : GoSlice PodRanktableData
  activePods : Nat
deriving DecidableEq, Repr

/-- The body of the pod loop of `OnPodReady`. `parsePod` is
`TemplateManager.ParsePodRanktable`, whose template execution and YAML decoding
are library code. -/
def OnPodReady.podStep (parsePod : String → String → Except String PodRanktableData)
    (template : RanktableTemplate) (st : ReadyState) (pod : Pod) : ReadyState :=
  if pod.DeletionTimestamp.isSome then st
  else
    let st := { st with activePods := st.activePods + 1 }
    if pod.Phase ≠ PodRunning then { st with allReady := false }
    else
      match pod.Annotations template.PodAnnotationName with
      | none => { st with allReady := false }
      | some ann =>
        match parsePod template.PodParserTemplate ann with
        | .error _ => { st with allReady := false }
        | .ok data => { st with podRanktables := some (st.podRanktables.elems ++ [data]) }

/-- The pod loop of `OnPodReady` from the initial values `allReady = true`,
`podRanktables = nil`, `activePods = 0`. -/
def OnPodReady.podLoop (parsePod : String → String → Except String PodRanktableData)
    (template : RanktableTemplate) (pods : List Pod) : ReadyState :=
  pods.foldl (OnPodReady.podStep parsePod template)
    { allReady := true, podRanktables := none, activePods := 0 }

/-- The role loop of `OnPodReady`: `(roleReplicas, found)` after the loop,
`roleReplicas = 1 + r.WorkerReplicas` in `int32` for the first role named
`roleName`. -/
def OnPodReady.findRoleReplicas (roles : List Role) (roleName : String) : Int × Bool :=
  match roles with
  | [] => (0, false)
  | r :: rest =>
    if r.Name = roleName then (toInt32 (1 + r.WorkerReplicas), true)
    else OnPodReady.findRoleReplicas rest roleName

/-- What the pod loop appends for a pod that is not being deleted: the parsed
contribution of a Running pod that carries the annotation, nothing otherwise. -/
def OnPodReady.contribution (parsePod : String → String → Except String PodRanktableData)
    (template : RanktableTemplate) (pod : Pod) : Option PodRanktableData :=
  if pod.Phase ≠ PodRunning then none
  else
    match pod.Annotations template.PodAnnotationName with
    | none => none
    | some ann =>
      match parsePod template.PodParserTemplate ann with
      | .error _ => none
      | .ok data => some data

/-- The readiness check of `OnPodReady` (plugin.go, "Check readiness and
collect data" up to the call of the aggregator): the status and the
contribution list handed to `BuildRanktableTemplateData`. -/
def OnPodReady.checkReadiness (parsePod : String → String → Except String PodRanktableData)
    (template : RanktableTemplate) (roles : List Role) (roleName : String) (pods : List Pod) :
    String × GoSlice PodRanktableData :=
  let st := OnPodReady.podLoop parsePod template pods
  if !st.allReady || st.podRanktables.elems.length == 0 then
    (RanktableStatusInitializing, none)
  else if template.Level = RoleLevelRanktable then
    let r := OnPodReady.findRoleReplicas roles roleName
    if r.2 && decide (toInt32 st.activePods < r.1) then (RanktableStatusInitializing, none)
    else (RanktableStatusCompleted, st.podRanktables)
  else (RanktableStatusCompleted, st.podRanktables)

/-! ## Kubernetes objects and the store -/

/-- A Go `map[string]string`: `none` is the nil map, otherwise the list holds
one entry per key. -/
structure GoMap where
  entries : Option (List (String × String))
deriving DecidableEq, Repr

/-- The map literal with the single entry `k: v`. -/
def GoMap.single (k v : String) : GoMap := { entries := some [(k, v)] }

/-- The test `m != nil`. -/
def GoMap.notNil (m : GoMap) : Bool := m.entries.isSome

/-- The number of entries `len(m)`. -/
def GoMap.len (m : GoMap) : Nat :=
  match m.entries with
  | none => 0
  | some l => l.length

/-- The two-valued map read `v, ok := m[k]`. -/
def GoMap.lookup (m : GoMap) (k : String) : Option String :=
  match m.entries with
  | none => none
  | some l => (l.find? (fun e => e.1 = k)).map (fun e => e.2)

/-- The map read `m[k]`: the empty string for an absent key. -/
def GoMap.read (m : GoMap) (k : String) : String :=
  match m.lookup k with
  | none => ""
  | some v => v

/-- The assignment `l[k] = v` on the entries of a map. -/
def setEntry (l : List (String × String)) (k v : String) : List (String × String) :=
  match l with
  | [] => [(k, v)]
  | e :: rest => if e.1 = k then (k, v) :: rest else e :: setEntry rest k v

/-- The map assignment `m[k] = v` on a map that is not nil. -/
def GoMap.set (m : GoMap) (k v : String) : GoMap :=
  match m.entries with
  | none => { entries := some [(k, v)] }
  | some l => { entries := some (setEntry l k v) }

/-- The type `metav1.OwnerReference`. -/
structure OwnerReference where
  APIVersion : String
  Kind : String
  Name : String
  UID : String
  Controller : Bool
  BlockOwnerDeletion : Bool
deriving DecidableEq, Repr

/-- The fields of a `corev1.ConfigMap` the package reads or writes, and the
resource version the store compares on update (0 on an object never stored). -/
structure ConfigMap where
  Name : String
  Namespace : String
  OwnerReferences : List OwnerReference
  Labels : GoMap
  ResourceVersion : Nat
  Data : GoMap
deriving DecidableEq, Repr

/-- The errors of the store that the package tells apart
(`apierrors.IsNotFound`) or that the callers are expected to retry on. -/
inductive ApiError where
  | notFound
  | alreadyExists
  | conflict
  | other (reason : String)
deriving DecidableEq, Repr

/-- A call issued to `client.CoreV1().ConfigMaps(ns)`. -/
inductive ApiCall where
  | get (ns name : String)
  | create (ns : String) (cm : ConfigMap)
  | update (ns : String) (cm : ConfigMap)
deriving DecidableEq, Repr

/-- Whether a call is a write. -/
def ApiCall.isWrite : ApiCall → Bool
  | .get _ _ => false
  | .create _ _ => true
  | .update _ _ => true

/-- The ConfigMap calls of `kubernetes.Interface` over a store state `σ`: each
call returns its result and the state it leaves, whether it succeeds or not. -/
structure Client (σ : Type) where
  get : σ → String → String → Except ApiError ConfigMap × σ
  create : σ → String → ConfigMap → Except ApiError ConfigMap × σ
  update : σ → String → ConfigMap → Except ApiError ConfigMap × σ

/-- What a store keeps of a ConfigMap under its namespace and name. -/
structure StoredConfigMap where
  OwnerReferences : List OwnerReference
  Labels : GoMap
  ResourceVersion : Nat
  Data : GoMap
deriving DecidableEq, Repr

/-- The object a store returns for what it keeps under `ns` and `name`. -/
def StoredConfigMap.toConfigMap (o : StoredConfigMap) (ns name : String) : ConfigMap :=
  { Name := name, Namespace := ns, OwnerReferences := o.OwnerReferences, Labels := o.Labels,
    ResourceVersion := o.ResourceVersion, Data := o.Data }

/-- What a store keeps of an object written to it, under the resource version `rv`. -/
def ConfigMap.stored (cm : ConfigMap) (rv : Nat) : StoredConfigMap :=
  { OwnerReferences := cm.OwnerReferences, Labels := cm.Labels, ResourceVersion := rv,
    Data := cm.Data }

/-- The ConfigMaps of a store, or of a lister cache, by namespace and name. -/
abbrev Store := String → String → Option StoredConfigMap

/-- The store without any object. -/
def Store.empty : Store := fun _ _ => none

/-- The store with `o` kept under `ns` and `name`. -/
def Store.put (s : Store) (ns name : String) (o : StoredConfigMap) : Store :=
  fun ns' name' => if ns' = ns ∧ name' = name then some o else s ns' name'

/-- The store in which every call succeeds or fails as the state decides, with
optimistic concurrency: get finds the object or reports NotFound; create
stores a new object or reports AlreadyExists; update replaces an object whose
resource version is the one sent, and reports Conflict on another version and
NotFound on an absent object. -/
def apiServer : Client Store where
  get := fun s ns name =>
    match s ns name with
    | some o => (.ok (o.toConfigMap ns name), s)
    | none => (.error .notFound, s)
  create := fun s ns cm =>
    match s ns cm.Name with
    | some _ => (.error .alreadyExists, s)
    | none => (.ok ((cm.stored 1).toConfigMap ns cm.Name), s.put ns cm.Name (cm.stored 1))
  update := fun s ns cm =>
    match s ns cm.Name with
    | none => (.error .notFound, s)
    | some old =>
      if cm.ResourceVersion ≠ old.ResourceVersion then (.error .conflict, s)
      else
        (.ok ((cm.stored (old.ResourceVersion + 1)).toConfigMap ns cm.Name),
          s.put ns cm.Name (cm.stored (old.ResourceVersion + 1)))

/-! ## template.go: EnsureRanktableConfigMap -/

/-- What a call of `EnsureRanktableConfigMap` returns and leaves: the error
(`none` is nil; the wrapping message is left out, the cause is kept as `%w`
does), the state of the store, and the calls issued in order. -/
structure EnsureResult (σ : Type) where
  err : Option ApiError
  store : σ
  calls : List ApiCall

/-- The test "Check if update is needed" of `EnsureRanktableConfigMap`:
`existingCM.Data != nil && existingCM.Data[filename] == content &&
len(existingCM.Data) == 1`. -/
def upToDate (existingCM : ConfigMap) (filename content : String) : Bool :=
  existingCM.Data.notNil && decide (existingCM.Data.read filename = content) &&
    decide (existingCM.Data.len = 1)

/-- The object `cm` that `EnsureRanktableConfigMap` builds from its arguments. -/
def EnsureRanktableConfigMap.cm (ns name : String) (ownerReferences : List OwnerReference)
    (labels : GoMap) (filename content : String) : ConfigMap :=
  { Name := name, Namespace := ns, OwnerReferences := ownerReferences, Labels := labels,
    ResourceVersion := 0, Data := GoMap.single filename content }

/-- The method `TemplateManager.EnsureRanktableConfigMap`. -/
def EnsureRanktableConfigMap {σ : Type} (K : Client σ) (s : σ) (ns name : String)
    (ownerReferences : List OwnerReference) (labels : GoMap) (filename content : String) :
    EnsureResult σ :=
  let cm := EnsureRanktableConfigMap.cm ns name ownerReferences labels filename content
  match K.get s ns name with
  | (.error e, s1) =>
    if e = .notFound then
      match K.create s1 ns cm with
      | (.error e2, s2) => { err := some e2, store := s2, calls := [.get ns name, .create ns cm] }
      | (.ok _, s2) => { err := none, store := s2, calls := [.get ns name, .create ns cm] }
    else { err := some e, store := s1, calls := [.get ns name] }
  | (.ok existingCM, s1) =>
    if upToDate existingCM filename content then
      { err := none, store := s1, calls := [.get ns name] }
    else
      match K.update s1 ns { existingCM with Data := cm.Data } with
      | (.error e2, s2) =>
        { err := some e2, store := s2,
          calls := [.get ns name, .update ns { existingCM with Data := cm.Data }] }
      | (.ok _, s2) =>
        { err := none, store := s2,
          calls := [.get ns name, .update ns { existingCM with Data := cm.Data }] }

/-- What a call of `EnsureRanktableConfigMap` has decided after its get: the
write it will issue, or that it is finished. -/
inductive EnsurePhase where
  | create (cm : ConfigMap)
  | update (cm : ConfigMap)
  | done (err : Option ApiError)
deriving DecidableEq, Repr

/-- The first store call of `EnsureRanktableConfigMap`, the get, and the
decision taken on its result. -/
def EnsureRanktableConfigMap.readStep {σ : Type} (K : Client σ) (s : σ) (ns name : String)
    (ownerReferences : List OwnerReference) (labels : GoMap) (filename content : String) :
    EnsurePhase × σ :=
  let cm := EnsureRanktableConfigMap.cm ns name ownerReferences labels filename content
  match K.get s ns name with
  | (.error e, s1) => if e = .notFound then (.create cm, s1) else (.done (some e), s1)
  | (.ok existingCM, s1) =>
    if upToDate existingCM filename content then (.done none, s1)
    else (.update { existingCM with Data := cm.Data }, s1)

/-- The second store call of `EnsureRanktableConfigMap`, the write decided on,
if any. -/
def EnsureRanktableConfigMap.writeStep {σ : Type} (K : Client σ) (s : σ) (ns : String)
    (phase : EnsurePhase) : Option ApiError × σ :=
  match phase with
  | .create cm =>
    match K.create s ns cm with
    | (.error e, s2) => (some e, s2)
    | (.ok _, s2) => (none, s2)
  | .update cm =>
    match K.update s ns cm with
    | (.error e, s2) => (some e, s2)
    | (.ok _, s2) => (none, s2)
  | .done err => (err, s)

/-- A client over the store `apiServer` reads from whose writes are all refused
with the error `e`, as happens to a caller that lost a race or lacks the
permission. -/
def refusingClient (e : ApiError) : Client Store where
  get := apiServer.get
  create := fun s _ _ => (.error e, s)
  update := fun s _ _ => (.error e, s)

/-! ## Concurrent calls of EnsureRanktableConfigMap -/

/-- The arguments of a call of `EnsureRanktableConfigMap`. -/
structure EnsureArgs where
  ns : String
  name : String
  ownerReferences : List OwnerReference
  labels : GoMap
  filename : String
  content : String
deriving DecidableEq, Repr

/-- A call of `EnsureRanktableConfigMap` in flight: before its get, between its
get and the write it decided on, or returned. -/
inductive CallState where
  | start
  | decided (phase : EnsurePhase)
  | returned (err : Option ApiError)
deriving DecidableEq, Repr

/-- The write a phase issues, with its outcome `err`. -/
def EnsurePhase.event (phase : EnsurePhase) (ns : String) (err : Option ApiError) :
    List (ApiCall × Option ApiError) :=
  match phase with
  | .create cm => [(.create ns cm, err)]
  | .update cm => [(.update ns cm, err)]
  | .done _ => []

/-- One store call of a call in flight: the get, after which the call has
returned or decided on a write, or the write, after which it has returned.
Store calls are atomic; between the two the call holds what the get returned.
The third component is the write issued, with its outcome. -/
def CallState.step {σ : Type} (K : Client σ) (a : EnsureArgs) (c : CallState) (s : σ) :
    CallState × σ × List (ApiCall × Option ApiError) :=
  match c with
  | .start =>
    match EnsureRanktableConfigMap.readStep K s a.ns a.name a.ownerReferences a.labels
        a.filename a.content with
    | (.done err, s1) => (.returned err, s1, [])
    | (phase, s1) => (.decided phase, s1, [])
  | .decided phase =>
    (.returned (EnsureRanktableConfigMap.writeStep K s a.ns phase).1,
      (EnsureRanktableConfigMap.writeStep K s a.ns phase).2,
      phase.event a.ns (EnsureRanktableConfigMap.writeStep K s a.ns phase).1)
  | .returned err => (.returned err, s, [])

/-- Two calls in flight on one store, and the writes issued so far. -/
structure RaceState (σ : Type) where
  store : σ
  first : CallState
  second : CallState
  writes : List (ApiCall × Option ApiError)

/-- The two calls run under a schedule: `true` lets the first call do its next
store call, `false` the second. -/
def race {σ : Type} (K : Client σ) (a b : EnsureArgs) : List Bool → RaceState σ → RaceState σ
  | [], st => st
  | true :: rest, st =>
    race K a b rest
      { store := (st.first.step K a st.store).2.1,
        first := (st.first.step K a st.store).1,
        second := st.second,
        writes := st.writes ++ (st.first.step K a st.store).2.2 }
  | false :: rest, st =>
    race K a b rest
      { store := (st.second.step K b st.store).2.1,
        first := st.first,
        second := (st.second.step K b st.store).1,
        writes := st.writes ++ (st.second.step K b st.store).2.2 }

/-- The creates among the writes that succeeded. -/
def successfulCreates (writes : List (ApiCall × Option ApiError)) : List ApiCall :=
  (writes.filter (fun w =>
    match w with
    | (.create _ _, none) => true
    | _ => false)).map (fun w => w.1)

/-- Two calls started together on the store `s` and run under a schedule. -/
def raceFromStart {σ : Type} (K : Client σ) (a b : EnsureArgs) (sched : List Bool) (s : σ) :
    RaceState σ :=
  race K a b sched { store := s, first := .start, second := .start, writes := [] }

/-- A call of `EnsureRanktableConfigMap` with the arguments `a`. -/
def EnsureArgs.call {σ : Type} (K : Client σ) (s : σ) (a : EnsureArgs) : EnsureResult σ :=
  EnsureRanktableConfigMap K s a.ns a.name a.ownerReferences a.labels a.filename a.content

/-! ## template.go: GetRanktableTemplate -/

/-- The constant `RanktableLevelAnnotation`. -/
def RanktableLevelAnnotation : String := "kthena.io/ranktable-level"

/-- The constant `PodRanktableAnnotation`. -/
def PodRanktableAnnotation : String := "ascend.com/ranktable"

/-- The constant `RanktableTemplateDefaultNamespace`. -/
def RanktableTemplateDefaultNamespace : String := "default"

/-- The constant `RanktableConfigMapSuffix`. -/
def RanktableConfigMapSuffix : String := "ranktable"

/-- The type `TemplateManager`. -/
structure TemplateManager where
  templateNamespace : String
deriving DecidableEq, Repr

/-- The function `NewTemplateManager`; `podNamespace` is the value of the
environment variable `POD_NAMESPACE`, empty when it is not set. -/
def NewTemplateManager (podNamespace : String) : TemplateManager :=
  if podNamespace ≠ "" then { templateNamespace := podNamespace }
  else { templateNamespace := RanktableTemplateDefaultNamespace }

/-- The method `TemplateManager.GetRanktableTemplate`. The lister reads a
cache: `Get` fails exactly on a name that is absent from the namespace. -/
def GetRanktableTemplate (tm : TemplateManager) (lister : Store) (templateName : String) :
    Except String RanktableTemplate :=
  match lister tm.templateNamespace templateName with
  | none =>
    .error ("failed to get ranktable template " ++ templateName ++ " in namespace " ++
      tm.templateNamespace)
  | some roleTemplateCM =>
    let podParserTemplateName := roleTemplateCM.Data.read "pod-parser-template"
    if podParserTemplateName = "" then
      .error ("pod-parser-template not specified in ranktable template " ++ templateName)
    else
      match lister tm.templateNamespace podParserTemplateName with
      | none =>
        .error ("failed to get pod parser template " ++ podParserTemplateName ++
          " in namespace " ++ tm.templateNamespace)
      | some podParserCM =>
        let level := roleTemplateCM.Data.read "ranktable-level"
        if level ≠ RoleLevelRanktable ∧ level ≠ GroupLevelRanktable then
          .error ("invalid ranktable level: " ++ level)
        else
          .ok
            { InferenceEngine := roleTemplateCM.Data.read "inference-engine",
              Level := level,
              PodParserTemplate := podParserCM.Data.read "parser-template",
              RanktableTemplate := roleTemplateCM.Data.read "ranktable-template",
              MountPath := roleTemplateCM.Data.read "mount-path",
              Filename := roleTemplateCM.Data.read "filename",
              PodAnnotationName :=
                if podParserCM.Data.read "annotation-name" = "" then PodRanktableAnnotation
                else podParserCM.Data.read "annotation-name" }

/-! ## Template, JSON and YAML libraries -/

/-- The value a template is executed on: the annotation payload of a pod
(`ParsePodRanktable`) or the aggregation document (`RenderRanktable`). -/
inductive TemplateData where
  | ofPayload (payload : String)
  | document (data : RanktableTemplateData)
deriving DecidableEq, Repr

/-- The parser template of the tests "invalid JSON annotation" and "empty
annotation": one action that pipes the payload through `fromJson` into a
variable, with both trim markers. -/
def fromJsonTemplate : String := "\x7b\x7b- $data := . | fromJson -\x7d\x7d"

/-- The libraries `text/template`, `encoding/json` and `sigs.k8s.io/yaml` as the
package calls them, with the documented behaviour the proofs rely on.

* `templateParse name funcs text` is the error of
  `template.New(name).Funcs(funcs).Parse(text)`, `funcs` being the names of the
  helper functions in the function map.
* `templateExecute name funcs text data` is the output or the error of
  `Execute` on the template so parsed.
* `jsonUnmarshal input` is the error of `json.Unmarshal` into an empty
  interface, `jsonValid input` tells whether the input is syntactically valid
  JSON. The decoder accepts only valid input; the empty input and the text
  `invalid json` are not valid.
* `yamlUnmarshal input` is the record or the error of `yaml.Unmarshal` into a
  zero `PodRanktableData`; the empty document leaves the record zero.
* The empty template parses and writes nothing. The template
  `fromJsonTemplate` parses when `fromJson` is in the function map, and its
  execution fails when `fromJson`, which is `json.Unmarshal` of the payload,
  returns an error. -/
structure Libs where
  templateParse : String → List String → String → Option String
  templateExecute : String → List String → String → TemplateData → Except String String
  jsonUnmarshal : String → Option String
  jsonValid : String → Bool
  yamlUnmarshal : String → Except String PodRanktableData
  json_sound : ∀ input, jsonUnmarshal input = none → jsonValid input = true
  json_empty : jsonValid "" = false
  json_invalid : jsonValid "invalid json" = false
  yaml_empty : yamlUnmarshal "" = .ok { PodName := "", ServerId := "", Devices := [] }
  template_empty : ∀ name funcs data,
    templateParse name funcs "" = none ∧ templateExecute name funcs "" data = .ok ""
  template_fromJson : ∀ name funcs payload, "fromJson" ∈ funcs →
    templateParse name funcs fromJsonTemplate = none ∧
    (jsonUnmarshal payload ≠ none →
      ∃ e, templateExecute name funcs fromJsonTemplate (.ofPayload payload) = .error e)

/-- Whether a template text holds the opening delimiter of an action. -/
def hasAction : List Char → Bool
  | a :: b :: rest => (a = Char.ofNat 123 && b = Char.ofNat 123) || hasAction (b :: rest)
  | _ => false

/-- The smallest libraries that meet the contract of `Libs`: a template engine
that knows the texts without action, which it copies, and `fromJsonTemplate`;
a JSON decoder that knows the text `null`; a YAML decoder that knows the empty
document. On the inputs they know they behave as the Go libraries do. -/
def basicLibs : Libs where
  templateParse := fun _ funcs text =>
    if text = fromJsonTemplate then
      if "fromJson" ∈ funcs then none else some "function fromJson not defined"
    else if hasAction text.toList then some "action not supported" else none
  templateExecute := fun _ _ text data =>
    if text = fromJsonTemplate then
      match data with
      | .ofPayload payload =>
        if payload = "null" then .ok "" else .error "error calling fromJson"
      | .document _ => .error "error calling fromJson"
    else .ok text
  jsonUnmarshal := fun input => if input = "null" then none else some "invalid character"
  jsonValid := fun input => decide (input = "null")
  yamlUnmarshal := fun input =>
    if input = "" then .ok { PodName := "", ServerId := "", Devices := [] }
    else .error "document not supported"
  json_sound := by
    intro input h
    by_cases hi : input = "null"
    · simp [hi]
    · simp [hi] at h
  json_empty := by decide
  json_invalid := by decide
  yaml_empty := by simp
  template_empty := by
    intro name funcs data
    have h : ("" : String) ≠ fromJsonTemplate := by decide
    constructor
    · show (if "" = fromJsonTemplate then _ else _) = none
      rw [if_neg h]; rfl
    · show (if "" = fromJsonTemplate then _ else _) = Except.ok ""
      rw [if_neg h]
  template_fromJson := by
    intro name funcs payload hf
    constructor
    · simp [hf]
    · intro hp
      by_cases hn : payload = "null"
      · simp [hn] at hp
      · exact ⟨"error calling fromJson", by simp [hn]⟩

/-! ## template.go: ParsePodRanktable and RenderRanktable -/

/-- The names in the function map `ParsePodRanktable` gives to parser templates. -/
def parserFuncs : List String := ["fromJson", "quote"]

/-- The names in the function map `RenderRanktable` gives to ranktable templates. -/
def renderFuncs : List String := ["quote", "toJson"]

/-- The method `TemplateManager.ParsePodRanktable`: `.error` is a nil
contribution with an error, `.ok` a contribution with a nil error. -/
def ParsePodRanktable (L : Libs) (parserTemplate annotation : String) :
    Except String PodRanktableData :=
  match L.templateParse "pod-parser" parserFuncs parserTemplate with
  | some e => .error ("failed to parse pod parser template: " ++ e)
  | none =>
    match L.templateExecute "pod-parser" parserFuncs parserTemplate (.ofPayload annotation) with
    | .error e => .error ("failed to execute pod parser template: " ++ e)
    | .ok buf =>
      match L.yamlUnmarshal buf with
      | .error e => .error ("failed to unmarshal pod ranktable data: " ++ e)
      | .ok podData => .ok podData

/-- The method `TemplateManager.RenderRanktable`: the string returned and the
error, `none` for nil. -/
def RenderRanktable (L : Libs) (ranktableTemplate : String) (data : RanktableTemplateData) :
    String × Option String :=
  match L.templateParse "ranktable" renderFuncs ranktableTemplate with
  | some e => ("", some ("failed to parse ranktable template: " ++ e))
  | none =>
    match L.templateExecute "ranktable" renderFuncs ranktableTemplate (.document data) with
    | .error e => ("", some ("failed to execute ranktable template: " ++ e))
    | .ok buf =>
      match L.jsonUnmarshal buf with
      | some e => ("", some ("generated ranktable is not valid JSON: " ++ e))
      | none => (buf, none)

/-! ## plugin.go: the hook OnPodReady -/

/-- The constants of the package `workloadv1alpha1` the plugin uses: label
keys and the group and version of the workload. -/
structure WorkloadConsts where
  ModelServingNameLabelKey : String
  GroupNameLabelKey : String
  RoleLabelKey : String
  RoleIDKey : String
  SchemeGroupVersion : String
deriving DecidableEq, Repr

/-- The fields of a `ModelServing` the plugin reads; `Roles` is
`Spec.Template.Roles`. -/
structure ModelServing where
  Name : String
  Namespace : String
  UID : String
  Annotations : String → Option String
  Roles : List Role

/-- The type `RanktableConfig`. -/
structure RanktableConfig where
  Template : String
deriving DecidableEq, Repr

/-- The type `RanktablePlugin`. -/
structure RanktablePlugin where
  templateManager : TemplateManager
  cfg : RanktableConfig
deriving DecidableEq, Repr

/-- The fields of a `plugins.HookRequest` that `OnPodReady` reads. The pod
lister returns the pods of a namespace that match a label set, or an error;
the client is passed to the hook apart, with the state of the store. -/
structure HookRequest where
  ModelServing : ModelServing
  ServingGroup : String
  RoleName : String
  RoleID : String
  ConfigMapLister : Store
  PodLister : String → GoMap → Except String (List Pod)

/-- The errors a hook returns, by the step that failed. -/
inductive HookError where
  | template (msg : String)
  | list (msg : String)
  | render (msg : String)
  | store (e : ApiError)
deriving DecidableEq, Repr

/-- What a hook returns and leaves: its error (`none` is nil), the state of
the store and the calls issued to it. -/
structure HookResult (σ : Type) where
  err : Option HookError
  store : σ
  calls : List ApiCall

/-- The function `GenerateRanktableConfigMapName`. -/
def GenerateRanktableConfigMapName (msName roleOrGroupName : String) : String :=
  msName ++ "-" ++ roleOrGroupName ++ "-" ++ RanktableConfigMapSuffix

/-- The level override of the hooks: the annotation
`kthena.io/ranktable-level` of the workload replaces the level of the template
when its value is one of the two levels. -/
def overrideLevel (template : RanktableTemplate) (annotations : String → Option String) :
    RanktableTemplate :=
  match annotations RanktableLevelAnnotation with
  | some levelOverride =>
    if levelOverride = RoleLevelRanktable ∨ levelOverride = GroupLevelRanktable then
      { template with Level := levelOverride }
    else template
  | none => template

/-- The label set `OnPodReady` lists the pods of the scope with. -/
def OnPodReady.labelSet (C : WorkloadConsts) (template : RanktableTemplate)
    (req : HookRequest) : GoMap :=
  if template.Level = RoleLevelRanktable then
    ((GoMap.single C.ModelServingNameLabelKey req.ModelServing.Name).set C.GroupNameLabelKey
      req.ServingGroup).set C.RoleIDKey req.RoleID
  else
    (GoMap.single C.ModelServingNameLabelKey req.ModelServing.Name).set C.GroupNameLabelKey
      req.ServingGroup

/-- The name of the ConfigMap `OnPodReady` upserts. -/
def OnPodReady.cmName (template : RanktableTemplate) (req : HookRequest) : String :=
  if template.Level = RoleLevelRanktable then
    GenerateRanktableConfigMapName req.ModelServing.Name (req.ServingGroup ++ "-" ++ req.RoleID)
  else GenerateRanktableConfigMapName req.ModelServing.Name req.ServingGroup

/-- The labels of the ConfigMap `OnPodReady` upserts. -/
def OnPodReady.cmLabels (C : WorkloadConsts) (template : RanktableTemplate)
    (req : HookRequest) : GoMap :=
  if template.Level = RoleLevelRanktable then
    (((((GoMap.single C.ModelServingNameLabelKey req.ModelServing.Name).set
      "app.kubernetes.io/component" "ranktable").set C.RoleLabelKey req.RoleName).set
      C.RoleIDKey req.RoleID).set C.GroupNameLabelKey req.ServingGroup).set
      "ranktable-level" RoleLevelRanktable
  else
    (((GoMap.single C.ModelServingNameLabelKey req.ModelServing.Name).set
      "app.kubernetes.io/component" "ranktable").set C.GroupNameLabelKey req.ServingGroup).set
      "ranktable-level" GroupLevelRanktable

/-- The owner reference `metav1.NewControllerRef(ms, ...WithKind("ModelServing"))`. -/
def controllerRef (C : WorkloadConsts) (ms : ModelServing) : OwnerReference :=
  { APIVersion := C.SchemeGroupVersion, Kind := "ModelServing", Name := ms.Name, UID := ms.UID,
    Controller := true, BlockOwnerDeletion := true }

/-- The document `OnPodReady` hands to the renderer for the pods listed. -/
def OnPodReady.templateData (S : SliceSorter) (now : String)
    (parsePod : String → String → Except String PodRanktableData)
    (template : RanktableTemplate) (roles : List Role) (roleName : String) (pods : List Pod) :
    RanktableTemplateData :=
  BuildRanktableTemplateData S now
    (OnPodReady.checkReadiness parsePod template roles roleName pods).1
    (OnPodReady.checkReadiness parsePod template roles roleName pods).2

/-- The last step of `OnPodReady`, "Update ConfigMap": the upsert of the
rendered content under the name, owner and labels of the scope. -/
def OnPodReady.upsert {σ : Type} (C : WorkloadConsts) (K : Client σ) (req : HookRequest) (s : σ)
    (template : RanktableTemplate) (ranktableJSON : String) : EnsureResult σ :=
  EnsureRanktableConfigMap K s req.ModelServing.Namespace (OnPodReady.cmName template req)
    [controllerRef C req.ModelServing] (OnPodReady.cmLabels C template req) template.Filename
    ranktableJSON

/-- The method `RanktablePlugin.OnPodReady`, run on the store state `s`. -/
def RanktablePlugin.OnPodReady {σ : Type} (p : RanktablePlugin) (S : SliceSorter) (now : String)
    (L : Libs) (C : WorkloadConsts) (K : Client σ) (req : HookRequest) (s : σ) : HookResult σ :=
  match GetRanktableTemplate p.templateManager req.ConfigMapLister p.cfg.Template with
  | .error e =>
    { err := some (.template ("failed to get ranktable template: " ++ e)), store := s, calls := [] }
  | .ok resolved =>
    let template := overrideLevel resolved req.ModelServing.Annotations
    match req.PodLister req.ModelServing.Namespace (OnPodReady.labelSet C template req) with
    | .error e => { err := some (.list e), store := s, calls := [] }
    | .ok pods =>
      let templateData := OnPodReady.templateData S now (ParsePodRanktable L) template
        req.ModelServing.Roles req.RoleName pods
      match RenderRanktable L template.RanktableTemplate templateData with
      | (_, some e) =>
        { err := some (.render ("failed to render ranktable: " ++ e)), store := s, calls := [] }
      | (ranktableJSON, none) =>
        let r := OnPodReady.upsert C K req s template ranktableJSON
        { err := r.err.map HookError.store, store := r.store, calls := r.calls }

/-! ## Pod specification -/

/-- The fields of a `corev1.VolumeMount` the plugins set. -/
structure VolumeMount where
  Name : String
  MountPath : String
  ReadOnly : Bool
deriving DecidableEq, Repr

/-- The type `corev1.ConfigMapVolumeSource`: the name of the ConfigMap
referenced and the pointer `Optional`, `none` when it is nil. -/
structure ConfigMapVolumeSource where
  Name : String
  Optional : Option Bool
deriving DecidableEq, Repr

/-- The fields of a `corev1.Volume` the plugins set: its name and its source
when that is a ConfigMap, `none` for a volume of another source. -/
structure Volume where
  Name : String
  ConfigMap : Option ConfigMapVolumeSource
deriving DecidableEq, Repr

/-- The fields of a `corev1.Container` the plugins read or write. -/
structure Container where
  Name : String
  VolumeMounts : List VolumeMount
deriving DecidableEq, Repr

/-- The fields of `req.Pod.Spec` the plugins read or write. The hook
`OnPodCreate` is called with the pod to create and changes it in place; the
model passes the specification in and returns the one the hook leaves. Slices
are values here: two containers never share the array of their mounts. -/
structure PodSpec where
  Volumes : List Volume
  InitContainers : List Container
  Containers : List Container
deriving DecidableEq, Repr

/-- The loop `for i := range containers` of the hooks `OnPodCreate`:
`containers[i].VolumeMounts = append(containers[i].VolumeMounts, mount)`. -/
def mountAll (mount : VolumeMount) (containers : List Container) : List Container :=
  containers.map (fun c => { c with VolumeMounts := c.VolumeMounts ++ [mount] })

/-- The name of the ConfigMap a call is about. -/
def ApiCall.name : ApiCall → String
  | .get _ name => name
  | .create _ cm => cm.Name
  | .update _ cm => cm.Name

/-! ## plugin.go: the hook OnPodCreate -/

/-- The name of the ConfigMap `OnPodCreate` ensures and mounts. -/
def OnPodCreate.cmName (template : RanktableTemplate) (req : HookRequest) : String :=
  if template.Level = RoleLevelRanktable then
    GenerateRanktableConfigMapName req.ModelServing.Name (req.ServingGroup ++ "-" ++ req.RoleID)
  else GenerateRanktableConfigMapName req.ModelServing.Name req.ServingGroup

/-- The labels of the ConfigMap `OnPodCreate` ensures. -/
def OnPodCreate.cmLabels (C : WorkloadConsts) (template : RanktableTemplate)
    (req : HookRequest) : GoMap :=
  if template.Level = RoleLevelRanktable then
    (((((GoMap.single C.ModelServingNameLabelKey req.ModelServing.Name).set
      "app.kubernetes.io/component" "ranktable").set C.RoleLabelKey req.RoleName).set
      C.RoleIDKey req.RoleID).set C.GroupNameLabelKey req.ServingGroup).set
      "ranktable-level" RoleLevelRanktable
  else
    (((GoMap.single C.ModelServingNameLabelKey req.ModelServing.Name).set
      "app.kubernetes.io/component" "ranktable").set C.GroupNameLabelKey req.ServingGroup).set
      "ranktable-level" GroupLevelRanktable

/-- The step "Inject Mount" of `OnPodCreate`: the volume `ranktable` that
references the ConfigMap, and its mount in every container and every init
container. -/
def OnPodCreate.inject (cmName : String) (template : RanktableTemplate) (pod : PodSpec) :
    PodSpec :=
  { Volumes := pod.Volumes ++
      [{ Name := "ranktable", ConfigMap := some { Name := cmName, Optional := none } }],
    InitContainers :=
      mountAll { Name := "ranktable", MountPath := template.MountPath, ReadOnly := true }
        pod.InitContainers,
    Containers :=
      mountAll { Name := "ranktable", MountPath := template.MountPath, ReadOnly := true }
        pod.Containers }

/-- What `OnPodCreate` returns and leaves: its error (`none` is nil), the state
of the store, the calls issued to it and the specification of the pod. -/
structure PodCreateResult (σ : Type) where
  err : Option HookError
  store : σ
  calls : List ApiCall
  pod : PodSpec

/-- The method `RanktablePlugin.OnPodCreate`, run on the store state `s` for
the pod specification `pod`. -/
def RanktablePlugin.OnPodCreate {σ : Type} (p : RanktablePlugin) (S : SliceSorter) (now : String)
    (L : Libs) (C : WorkloadConsts) (K : Client σ) (req : HookRequest) (pod : PodSpec) (s : σ) :
    PodCreateResult σ :=
  match GetRanktableTemplate p.templateManager req.ConfigMapLister p.cfg.Template with
  | .error e =>
    { err := some (.template ("failed to get ranktable template: " ++ e)), store := s,
      calls := [], pod := pod }
  | .ok resolved =>
    let template := overrideLevel resolved req.ModelServing.Annotations
    let cmName := OnPodCreate.cmName template req
    let cmLabels := OnPodCreate.cmLabels C template req
    let ownerRef := controllerRef C req.ModelServing
    let templateData := BuildRanktableTemplateData S now RanktableStatusInitializing none
    match RenderRanktable L template.RanktableTemplate templateData with
    | (_, some e) =>
      { err := some (.render ("failed to render initial ranktable: " ++ e)), store := s,
        calls := [], pod := pod }
    | (ranktableJSON, none) =>
      let r := EnsureRanktableConfigMap K s req.ModelServing.Namespace cmName [ownerRef] cmLabels
        template.Filename ranktableJSON
      match r.err with
      | some e => { err := some (.store e), store := r.store, calls := r.calls, pod := pod }
      | none =>
        { err := none, store := r.store, calls := r.calls,
          pod := OnPodCreate.inject cmName template pod }

/-! ## plugin.go: the hook OnRoleDelete -/

/-- The call `client.CoreV1().ConfigMaps(ns).Delete(ctx, name, opts)` over a
store state `σ`: its error (`none` is nil) and the state it leaves. -/
abbrev DeleteCall (σ : Type) := σ → String → String → Option ApiError × σ

/-- The store without the object under `ns` and `name`. -/
def Store.remove (s : Store) (ns name : String) : Store :=
  fun ns' name' => if ns' = ns ∧ name' = name then none else s ns' name'

/-- The delete of the store `apiServer`: it removes the object, or reports
NotFound on an absent one. -/
def apiServerDelete : DeleteCall Store := fun s ns name =>
  match s ns name with
  | none => (some .notFound, s)
  | some _ => (none, s.remove ns name)

/-- What `OnRoleDelete` returns and leaves: its error (`none` is nil; the
wrapping message is left out), the state of the store and the deletes issued,
by namespace and name. -/
structure RoleDeleteResult (σ : Type) where
  err : Option HookError
  store : σ
  deletes : List (String × String)

/-- The method `RanktablePlugin.OnRoleDelete`, run on the store state `s`. -/
def RanktablePlugin.OnRoleDelete {σ : Type} (p : RanktablePlugin) (delete : DeleteCall σ)
    (req : HookRequest) (s : σ) : RoleDeleteResult σ :=
  match GetRanktableTemplate p.templateManager req.ConfigMapLister p.cfg.Template with
  | .error e =>
    { err := some (.template ("failed to get ranktable template: " ++ e)), store := s,
      deletes := [] }
  | .ok resolved =>
    let template := overrideLevel resolved req.ModelServing.Annotations
    if template.Level = RoleLevelRanktable then
      let cmName := GenerateRanktableConfigMapName req.ModelServing.Name
        (req.ServingGroup ++ "-" ++ req.RoleID)
      match delete s req.ModelServing.Namespace cmName with
      | (some e, s1) =>
        if e ≠ .notFound then
          { err := some (.store e), store := s1,
            deletes := [(req.ModelServing.Namespace, cmName)] }
        else { err := none, store := s1, deletes := [(req.ModelServing.Namespace, cmName)] }
      | (none, s1) =>
        { err := none, store := s1, deletes := [(req.ModelServing.Namespace, cmName)] }
    else { err := none, store := s, deletes := [] }

/-! ## pod_discovery.go -/

/-- The constant `PodDiscoveryPluginName`. -/
def PodDiscoveryPluginName : String := "pod-discovery"

/-- The constant `ConfigMapNameSuffix`. -/
def ConfigMapNameSuffix : String := "-discovery"

/-- The constant `DiscoveryVolumeName`. -/
def DiscoveryVolumeName : String := "pod-discovery-volume"

/-- The constant `DiscoveryMountPath`. -/
def DiscoveryMountPath : String := "/etc/pod-discovery"

/-- The constant `DiscoveryFileName`. -/
def DiscoveryFileName : String := "ips.json"

/-- The method `PodDiscoveryPlugin.OnPodCreate`: the error returned (`none` is
nil) and the specification of the pod it leaves. -/
def PodDiscoveryPlugin.OnPodCreate (req : HookRequest) (pod : PodSpec) :
    Option HookError × PodSpec :=
  let cmName := req.ServingGroup ++ ConfigMapNameSuffix
  (none,
    { Volumes := pod.Volumes ++
        [{ Name := DiscoveryVolumeName,
           ConfigMap := some { Name := cmName, Optional := some true } }],
      InitContainers :=
        mountAll { Name := DiscoveryVolumeName, MountPath := DiscoveryMountPath,
                   ReadOnly := true } pod.InitContainers,
      Containers :=
        mountAll { Name := DiscoveryVolumeName, MountPath := DiscoveryMountPath,
                   ReadOnly := true } pod.Containers })

/-- The type `corev1.PodStatus`, the fields the discovery plugin reads. -/
structure corev1.PodStatus where
  Phase : String
  PodIP : String
deriving DecidableEq, Repr

/-- The fields of a `corev1.Pod` the discovery plugin and the pod listing of
the store read. -/
structure corev1.Pod where
  Name : String
  Labels : GoMap
  Status : corev1.PodStatus
deriving DecidableEq, Repr

/-- The calls of `kubernetes.Interface` the discovery plugin issues over a
store state `σ`: the pod listing `CoreV1().Pods(ns).List` with a label
selector, and the ConfigMap calls. -/
structure KubeClient (σ : Type) where
  listPods : σ → String → String → Except ApiError (List corev1.Pod) × σ
  configMaps : Client σ

/-- A call the discovery plugin issues. -/
inductive DiscoveryCall where
  | list (ns selector : String)
  | configMap (call : ApiCall)
deriving DecidableEq, Repr

/-- The map update `roleIPs[roleName] = append(roleIPs[roleName], ip)`. -/
def appendIP (m : List (String × List String)) (k ip : String) : List (String × List String) :=
  match m with
  | [] => [(k, [ip])]
  | (k', v) :: rest => if k' = k then (k', v ++ [ip]) :: rest else (k', v) :: appendIP rest k ip

/-- The map read `roleIPs[k]`, the nil slice for an absent key. -/
def ipsOf (m : List (String × List String)) (k : String) : List String :=
  match m with
  | [] => []
  | (k', v) :: rest => if k' = k then v else ipsOf rest k

/-- The step "Group IPs by Role" of `OnPodReady`; `podRoleName` is the
function `utils.PodRoleName`. -/
def groupIPsByRole (podRoleName : corev1.Pod → String) (pods : List corev1.Pod) :
    List (String × List String) :=
  pods.foldl (fun roleIPs pod =>
    if pod.Status.PodIP = "" then roleIPs
    else if pod.Status.Phase ≠ PodRunning then roleIPs
    else if podRoleName pod = "" then roleIPs
    else appendIP roleIPs (podRoleName pod) pod.Status.PodIP) []

/-- The loop "Sort IPs for deterministic output": `sort.Strings` on every list
of the map. -/
def sortIPs (roleIPs : List (String × List String)) : List (String × List String) :=
  roleIPs.map (fun e => (e.1, sortStrings e.2))

/-- The encoding of a `[]string` that is not nil by `json.Marshal`; `enc` is
the encoding of a string. -/
def marshalStrings (enc : String → String) (l : List String) : String :=
  "[" ++ ",".intercalate (l.map enc) ++ "]"

/-- The encoding of a `map[string][]string` by `json.Marshal`: an object whose
members come in the sorted order of the keys; `enc` is the encoding of a
string. -/
def marshalRoleIPs (enc : String → String) (roleIPs : List (String × List String)) : String :=
  "\x7b" ++ ",".intercalate ((sortStrings (roleIPs.map Prod.fst)).map
    (fun k => enc k ++ ":" ++ marshalStrings enc (ipsOf roleIPs k))) ++ "\x7d"

/-- The value `jsonString` an attempt of `OnPodReady` computes from the pods
listed. -/
def PodDiscoveryPlugin.content (enc : String → String) (podRoleName : corev1.Pod → String)
    (pods : List corev1.Pod) : String :=
  marshalRoleIPs enc (sortIPs (groupIPsByRole podRoleName pods))

/-- What the condition function of the retry loop returns and leaves: the
pair `(done, err)`, the state of the store and the calls issued. -/
structure AttemptResult (σ : Type) where
  done : Bool
  err : Option ApiError
  store : σ
  calls : List DiscoveryCall

/-- The object `newCM` an attempt creates. -/
def PodDiscoveryPlugin.newCM (C : WorkloadConsts) (req : HookRequest) (jsonString : String) :
    ConfigMap :=
  { Name := req.ServingGroup ++ ConfigMapNameSuffix,
    Namespace := req.ModelServing.Namespace,
    OwnerReferences := [controllerRef C req.ModelServing],
    Labels := (GoMap.single C.GroupNameLabelKey req.ServingGroup).set
      "app.kubernetes.io/managed-by" "model-serving-controller",
    ResourceVersion := 0,
    Data := GoMap.single DiscoveryFileName jsonString }

/-- The data of the object read, a new map when it is nil. -/
def PodDiscoveryPlugin.dataOf (cm : ConfigMap) : GoMap :=
  if cm.Data.notNil then cm.Data else { entries := some [] }

/-- The condition function `OnPodReady` hands to `wait.PollImmediate`: one
attempt, which lists the pods, computes the content, gets the ConfigMap and
creates or updates it. -/
def PodDiscoveryPlugin.attempt {σ : Type} (enc : String → String)
    (podRoleName : corev1.Pod → String) (C : WorkloadConsts) (K : KubeClient σ)
    (req : HookRequest) (s : σ) : AttemptResult σ :=
  let ns := req.ModelServing.Namespace
  let cmName := req.ServingGroup ++ ConfigMapNameSuffix
  let selector := C.GroupNameLabelKey ++ "=" ++ req.ServingGroup
  match K.listPods s ns selector with
  | (.error e, s1) =>
    { done := false, err := some e, store := s1, calls := [.list ns selector] }
  | (.ok pods, s1) =>
    let jsonString := PodDiscoveryPlugin.content enc podRoleName pods
    match K.configMaps.get s1 ns cmName with
    | (.error e, s2) =>
      if e = .notFound then
        match K.configMaps.create s2 ns (PodDiscoveryPlugin.newCM C req jsonString) with
        | (.error e2, s3) =>
          if e2 = .alreadyExists then
            { done := false, err := none, store := s3,
              calls := [.list ns selector, .configMap (.get ns cmName),
                .configMap (.create ns (PodDiscoveryPlugin.newCM C req jsonString))] }
          else
            { done := false, err := some e2, store := s3,
              calls := [.list ns selector, .configMap (.get ns cmName),
                .configMap (.create ns (PodDiscoveryPlugin.newCM C req jsonString))] }
        | (.ok _, s3) =>
          { done := true, err := none, store := s3,
            calls := [.list ns selector, .configMap (.get ns cmName),
              .configMap (.create ns (PodDiscoveryPlugin.newCM C req jsonString))] }
      else
        { done := false, err := some e, store := s2,
          calls := [.list ns selector, .configMap (.get ns cmName)] }
    | (.ok cm, s2) =>
      if (PodDiscoveryPlugin.dataOf cm).read DiscoveryFileName = jsonString then
        { done := true, err := none, store := s2,
          calls := [.list ns selector, .configMap (.get ns cmName)] }
      else
        match K.configMaps.update s2 ns
            { cm with Data := (PodDiscoveryPlugin.dataOf cm).set DiscoveryFileName jsonString } with
        | (.error e2, s3) =>
          if e2 = .conflict then
            { done := false, err := none, store := s3,
              calls := [.list ns selector, .configMap (.get ns cmName),
                .configMap (.update ns { cm with Data :=
                  (PodDiscoveryPlugin.dataOf cm).set DiscoveryFileName jsonString })] }
          else
            { done := false, err := some e2, store := s3,
              calls := [.list ns selector, .configMap (.get ns cmName),
                .configMap (.update ns { cm with Data :=
                  (PodDiscoveryPlugin.dataOf cm).set DiscoveryFileName jsonString })] }
        | (.ok _, s3) =>
          { done := true, err := none, store := s3,
            calls := [.list ns selector, .configMap (.get ns cmName),
              .configMap (.update ns { cm with Data :=
                (PodDiscoveryPlugin.dataOf cm).set DiscoveryFileName jsonString })] }

/-- The errors `OnPodReady` of the discovery plugin returns: the error of a
call of the store, or `wait.ErrWaitTimeout`. -/
inductive DiscoveryError where
  | api (e : ApiError)
  | timeout
deriving DecidableEq, Repr

/-- What the retry loop returns and leaves: its error (`none` is nil), the
state of the store, the calls issued and the number of attempts made. -/
structure PollResult (σ : Type) where
  err : Option DiscoveryError
  store : σ
  calls : List DiscoveryCall
  attempts : Nat

/-- The function `wait.PollImmediate(interval, timeout, condition)`. The
condition is tried at once, and again after every interval, until it reports
done or an error; when the timeout expires first the result is
`wait.ErrWaitTimeout`. The first argument is the number of further tries the
timeout leaves room for after a try that asked for another one. -/
def PollImmediate {σ : Type} (condition : σ → AttemptResult σ) : Nat → σ → PollResult σ
  | 0, s =>
    match (condition s).err with
    | some e =>
      { err := some (.api e), store := (condition s).store, calls := (condition s).calls,
        attempts := 1 }
    | none =>
      if (condition s).done then
        { err := none, store := (condition s).store, calls := (condition s).calls,
          attempts := 1 }
      else
        { err := some .timeout, store := (condition s).store, calls := (condition s).calls,
          attempts := 1 }
  | n + 1, s =>
    match (condition s).err with
    | some e =>
      { err := some (.api e), store := (condition s).store, calls := (condition s).calls,
        attempts := 1 }
    | none =>
      if (condition s).done then
        { err := none, store := (condition s).store, calls := (condition s).calls,
          attempts := 1 }
      else
        { err := (PollImmediate condition n (condition s).store).err,
          store := (PollImmediate condition n (condition s).store).store,
          calls := (condition s).calls ++ (PollImmediate condition n (condition s).store).calls,
          attempts := (PollImmediate condition n (condition s).store).attempts + 1 }

/-- The method `PodDiscoveryPlugin.OnPodReady`, run on the store state `s`;
`K` is `req.KubeClient`, `none` when it is nil, and `retries` the number of
further tries the timeout of five seconds leaves room for. -/
def PodDiscoveryPlugin.OnPodReady {σ : Type} (enc : String → String)
    (podRoleName : corev1.Pod → String) (C : WorkloadConsts) (K : Option (KubeClient σ))
    (retries : Nat) (req : HookRequest) (s : σ) : PollResult σ :=
  match K with
  | none => { err := none, store := s, calls := [], attempts := 0 }
  | some client =>
    PollImmediate (PodDiscoveryPlugin.attempt enc podRoleName C client req) retries s

/-! ## The clients of the tests -/

/-- The encoding by `json.Marshal` of a string that needs no escape, such as a
role name or an address: the string between double quotes. -/
def quotePlain (s : String) : String := "\"" ++ s ++ "\""

/-- The role of a pod as its label `key` gives it, the empty string without
the label. -/
def roleLabel (key : String) (pod : corev1.Pod) : String := pod.Labels.read key

/-- The objects of a fake clientset: the pods by namespace and the
ConfigMaps. -/
structure Cluster where
  pods : String → List corev1.Pod
  configMaps : Store

/-- Whether a pod carries a label `key=value` that reads as the selector. -/
def matchesSelector (selector : String) (pod : corev1.Pod) : Bool :=
  match pod.Labels.entries with
  | none => false
  | some l => l.any (fun e => e.1 ++ "=" ++ e.2 = selector)

/-- The client of `fake.NewSimpleClientset` on the calls the discovery plugin
issues with a selector of one equality: the listing returns the pods of the
namespace that carry the label, the ConfigMap calls are those of `apiServer`. -/
def fakeClientset : KubeClient Cluster where
  listPods := fun s ns selector => (.ok ((s.pods ns).filter (matchesSelector selector)), s)
  configMaps :=
    { get := fun s ns name =>
        ((apiServer.get s.configMaps ns name).1,
          { s with configMaps := (apiServer.get s.configMaps ns name).2 }),
      create := fun s ns cm =>
        ((apiServer.create s.configMaps ns cm).1,
          { s with configMaps := (apiServer.create s.configMaps ns cm).2 }),
      update := fun s ns cm =>
        ((apiServer.update s.configMaps ns cm).1,
          { s with configMaps := (apiServer.update s.configMaps ns cm).2 }) }

/-- The reactor of `TestPodDiscoveryPluginRetry` put in front of a client: the
first update of the ConfigMap `cmName` is refused with Conflict, every other
call goes to the client. The second component of the state is
`conflictCount`. -/
def conflictOnce {σ : Type} (cmName : String) (K : KubeClient σ) : KubeClient (σ × Nat) where
  listPods := fun s ns selector =>
    ((K.listPods s.1 ns selector).1, ((K.listPods s.1 ns selector).2, s.2))
  configMaps :=
    { get := fun s ns name =>
        ((K.configMaps.get s.1 ns name).1, ((K.configMaps.get s.1 ns name).2, s.2)),
      create := fun s ns cm =>
        ((K.configMaps.create s.1 ns cm).1, ((K.configMaps.create s.1 ns cm).2, s.2)),
      update := fun s ns cm =>
        if cm.Name = cmName ∧ s.2 = 0 then (.error .conflict, (s.1, s.2 + 1))
        else ((K.configMaps.update s.1 ns cm).1, ((K.configMaps.update s.1 ns cm).2, s.2)) }

/-- The label keys and the group version of the examples. -/
def testConsts : WorkloadConsts :=
  { ModelServingNameLabelKey := "modelserving.volcano.sh/name",
    GroupNameLabelKey := "modelserving.volcano.sh/group-name",
    RoleLabelKey := "modelserving.volcano.sh/role",
    RoleIDKey := "modelserving.volcano.sh/role-id",
    SchemeGroupVersion := "workload.serving.volcano.sh/v1alpha1" }

/-- The pods of `TestPodDiscoveryPluginOnPodReady`. -/
def testPods : List corev1.Pod :=
  [{ Name := "pod-1",
     Labels := { entries := some [("modelserving.volcano.sh/group-name", "group-1"),
       ("modelserving.volcano.sh/role", "worker")] },
     Status := { Phase := "Running", PodIP := "10.0.0.1" } },
   { Name := "pod-2",
     Labels := { entries := some [("modelserving.volcano.sh/group-name", "group-1"),
       ("modelserving.volcano.sh/role", "worker")] },
     Status := { Phase := "Running", PodIP := "10.0.0.2" } },
   { Name := "pod-3",
     Labels := { entries := some [("modelserving.volcano.sh/group-name", "group-1"),
       ("modelserving.volcano.sh/role", "master")] },
     Status := { Phase := "Running", PodIP := "10.0.0.3" } },
   { Name := "pod-4",
     Labels := { entries := some [("modelserving.volcano.sh/group-name", "group-1"),
       ("modelserving.volcano.sh/role", "worker")] },
     Status := { Phase := "Pending", PodIP := "" } },
   { Name := "pod-other",
     Labels := { entries := some [("modelserving.volcano.sh/group-name", "other-group"),
       ("modelserving.volcano.sh/role", "worker")] },
     Status := { Phase := "Running", PodIP := "10.0.0.100" } }]

/-- A request of the workload `ms` for the serving group `servingGroup`, with
no role and an empty lister cache. -/
def testRequest (ms : ModelServing) (servingGroup : String) : HookRequest :=
  { ModelServing := ms, ServingGroup := servingGroup, RoleName := "", RoleID := "",
    ConfigMapLister := Store.empty, PodLister := fun _ _ => .ok [] }

/-- The plugin of the examples: templates are read in the namespace
`kthena-system`, the template is `test-template`. -/
def testPlugin : RanktablePlugin :=
  { templateManager := NewTemplateManager "kthena-system", cfg := { Template := "test-template" } }

/-- The lister cache of the examples: the parser document `test-parser` with
an empty parser template, and the template document `test-template` with the
level and the ranktable template given. -/
def testTemplates (level ranktableTemplate : String) : Store :=
  (Store.empty.put "kthena-system" "test-parser"
    { OwnerReferences := [], Labels := { entries := none }, ResourceVersion := 1,
      Data := { entries := some [("parser-template", "")] } }).put
    "kthena-system" "test-template"
    { OwnerReferences := [], Labels := { entries := none }, ResourceVersion := 1,
      Data := { entries := some [("ranktable-level", level),
        ("pod-parser-template", "test-parser"), ("ranktable-template", ranktableTemplate),
        ("mount-path", "/etc/ranktable"), ("filename", "ranktable.json")] } }

/-- The request of the examples: workload `llama` in the namespace `default`,
with the annotations given, serving group `llama-0`, role `prefill`, role
instance `prefill-0`, and no pod listed. -/
def testHookRequest (annotations : String → Option String) (lister : Store) : HookRequest :=
  { ModelServing :=
      { Name := "llama", Namespace := "default", UID := "uid-1", Annotations := annotations,
        Roles := [⟨"prefill", 1⟩] },
    ServingGroup := "llama-0", RoleName := "prefill", RoleID := "prefill-0",
    ConfigMapLister := lister, PodLister := fun _ _ => .ok [] }

/-- The pod of the examples: one init container and one container, no
volume. -/
def testPodSpec : PodSpec :=
  { Volumes := [], InitContainers := [{ Name := "init-c1", VolumeMounts := [] }],
    Containers := [{ Name := "c1", VolumeMounts := [] }] }

/-- The request of the example of a rejected annotation: the workload `ms`
with the role `worker`, the parser template of the tests in the lister cache,
and one Running pod whose annotation is `invalid json`. -/
def testRejectedRequest : HookRequest :=
  { ModelServing :=
      { Name := "ms", Namespace := "default", UID := "uid-1", Annotations := fun _ => none,
        Roles := [⟨"worker", 0⟩] },
    ServingGroup := "ms-0", RoleName := "worker", RoleID := "worker-0",
    ConfigMapLister :=
      (Store.empty.put "kthena-system" "test-parser"
        { OwnerReferences := [], Labels := { entries := none }, ResourceVersion := 1,
          Data := { entries := some [("parser-template", fromJsonTemplate)] } }).put
        "kthena-system" "test-template"
        { OwnerReferences := [], Labels := { entries := none }, ResourceVersion := 1,
          Data := { entries := some [("ranktable-level", "role"),
            ("pod-parser-template", "test-parser"), ("ranktable-template", "null"),
            ("mount-path", "/etc/ranktable"), ("filename", "ranktable.json")] } },
    PodLister := fun _ _ => .ok [⟨"pod-0", none, "Running", fun _ => some "invalid json"⟩] }

/-! ## Order facts -/

theorem stringLess_iff (a b : String) : stringLess a b = true ↔ a < b := by
  simp [stringLess, String.lt_iff_toList_lt]

theorem stringLess_false_iff (a b : String) : stringLess b a = false ↔ a ≤ b := by
  rw [← not_lt, ← stringLess_iff]; simp

theorem deviceLess_false_iff (a b : DeviceInfo) : deviceLess b a = false ↔ a.DeviceId ≤ b.DeviceId := by
  unfold deviceLess; exact stringLess_false_iff _ _

theorem insertLess_perm {α : Type} (less : α → α → Bool) (x : α) (l : List α) :
    (insertLess less x l).Perm (x :: l) := by
  induction l with
  | nil => simp [insertLess]
  | cons y ys ih =>
    unfold insertLess
    split
    · exact List.Perm.refl _
    · exact (List.Perm.cons y ih).trans (List.Perm.swap x y ys)

theorem foldl_insertLess_perm {α : Type} (less : α → α → Bool) (l acc : List α) :
    (l.foldl (fun acc x => insertLess less x acc) acc).Perm (acc ++ l) := by
  induction l generalizing acc with
  | nil => simp
  | cons x xs ih =>
    simp only [List.foldl_cons]
    refine (ih _).trans ?_
    have h1 : (insertLess less x acc ++ xs).Perm ((x :: acc) ++ xs) :=
      List.Perm.append_right xs (insertLess_perm less x acc)
    refine h1.trans ?_
    simpa using (@List.perm_middle _ x acc xs).symm

theorem insertionSortLess_perm {α : Type} (less : α → α → Bool) (l : List α) :
    (insertionSortLess less l).Perm l := by
  simpa [insertionSortLess] using foldl_insertLess_perm less l []

/-- Inserting into a list sorted by a string key keeps it sorted. -/
theorem insertLess_sorted {α : Type} (key : α → String) (x : α) (l : List α)
    (h : l.Pairwise (fun a b => key a ≤ key b)) :
    (insertLess (fun a b => stringLess (key a) (key b)) x l).Pairwise (fun a b => key a ≤ key b) := by
  induction l with
  | nil => simp [insertLess]
  | cons y ys ih =>
    unfold insertLess
    rw [List.pairwise_cons] at h
    split
    · rename_i hlt
      rw [stringLess_iff] at hlt
      refine List.Pairwise.cons ?_ (List.Pairwise.cons h.1 h.2)
      intro z hz
      rcases List.mem_cons.1 hz with rfl | hz
      · exact le_of_lt hlt
      · exact le_trans (le_of_lt hlt) (h.1 z hz)
    · rename_i hlt
      have hge : key y ≤ key x := by
        rw [← stringLess_false_iff]; simpa using hlt
      refine List.Pairwise.cons ?_ (ih h.2)
      intro z hz
      rcases List.mem_cons.1 ((insertLess_perm _ x ys).subset hz) with rfl | hz
      · exact hge
      · exact h.1 z hz

theorem insertionSortLess_sorted {α : Type} (key : α → String) (l : List α) :
    (insertionSortLess (fun a b => stringLess (key a) (key b)) l).Pairwise
      (fun a b => key a ≤ key b) := by
  unfold insertionSortLess
  suffices h : ∀ acc : List α, acc.Pairwise (fun a b => key a ≤ key b) →
      (l.foldl (fun acc x => insertLess (fun a b => stringLess (key a) (key b)) x acc) acc).Pairwise
        (fun a b => key a ≤ key b) from h [] List.Pairwise.nil
  induction l with
  | nil => intro acc h; simpa using h
  | cons x xs ih => intro acc h; exact ih _ (insertLess_sorted key x acc h)

/-! ## The server map -/

theorem mapGet_appendAt (m : List (String × List DeviceInfo)) (k : String) (ds : List DeviceInfo)
    (k' : String) :
    mapGet (appendAt m k ds) k' = if k = k' then mapGet m k' ++ ds else mapGet m k' := by
  induction m with
  | nil => by_cases h : k = k' <;> simp [appendAt, mapGet, h]
  | cons e rest ih =>
    obtain ⟨k0, v⟩ := e
    by_cases h0 : k0 = k
    · subst h0
      by_cases h : k0 = k' <;> simp [appendAt, mapGet, h]
    · by_cases h1 : k0 = k'
      · subst h1
        have : ¬ k = k0 := fun h => h0 h.symm
        simp [appendAt, mapGet, h0, this]
      · simp [appendAt, mapGet, h0, h1, ih]

theorem keys_appendAt (m : List (String × List DeviceInfo)) (k : String) (ds : List DeviceInfo) :
    (appendAt m k ds).map Prod.fst =
      if k ∈ m.map Prod.fst then m.map Prod.fst else m.map Prod.fst ++ [k] := by
  induction m with
  | nil => simp [appendAt]
  | cons e rest ih =>
    obtain ⟨k0, v⟩ := e
    by_cases h0 : k0 = k
    · subst h0; simp [appendAt]
    · have h0' : ¬ k = k0 := fun h => h0 h.symm
      simp only [appendAt, h0, if_false, List.map_cons, ih, List.mem_cons, h0', false_or]
      split <;> simp

theorem mapGet_foldl (pods : List PodRanktableData) (m : List (String × List DeviceInfo))
    (k : String) :
    mapGet (pods.foldl (fun serverMap podData =>
        appendAt serverMap podData.ServerId podData.Devices) m) k =
      mapGet m k ++ (pods.filter (fun p => p.ServerId = k)).flatMap (fun p => p.Devices) := by
  induction pods generalizing m with
  | nil => simp
  | cons p ps ih =>
    simp only [List.foldl_cons, ih, mapGet_appendAt]
    by_cases h : p.ServerId = k <;> simp [h, List.filter_cons]

theorem keys_foldl_nodup (pods : List PodRanktableData) (m : List (String × List DeviceInfo))
    (hm : (m.map Prod.fst).Nodup) :
    ((pods.foldl (fun serverMap podData =>
        appendAt serverMap podData.ServerId podData.Devices) m).map Prod.fst).Nodup := by
  induction pods generalizing m with
  | nil => simpa using hm
  | cons p ps ih =>
    simp only [List.foldl_cons]
    apply ih
    rw [keys_appendAt]
    split
    · exact hm
    · rename_i hk
      exact List.Nodup.append hm (List.nodup_singleton _) (by simpa using hk)

theorem keys_foldl_mem (pods : List PodRanktableData) (m : List (String × List DeviceInfo))
    (k : String) :
    k ∈ (pods.foldl (fun serverMap podData =>
        appendAt serverMap podData.ServerId podData.Devices) m).map Prod.fst ↔
      k ∈ m.map Prod.fst ∨ k ∈ pods.map (fun p => p.ServerId) := by
  induction pods generalizing m with
  | nil => simp
  | cons p ps ih =>
    simp only [List.foldl_cons, ih, keys_appendAt, List.map_cons, List.mem_cons]
    split
    · rename_i hk
      constructor
      · rintro (h | h)
        · exact Or.inl h
        · exact Or.inr (Or.inr h)
      · rintro (h | rfl | h)
        · exact Or.inl h
        · exact Or.inl hk
        · exact Or.inr h
    · simp only [List.mem_append, List.mem_singleton]
      tauto

theorem mapGet_groupByServer (pods : List PodRanktableData) (k : String) :
    mapGet (groupByServer pods) k =
      (pods.filter (fun p => p.ServerId = k)).flatMap (fun p => p.Devices) := by
  simp [groupByServer, mapGet_foldl, mapGet]

theorem keys_groupByServer_nodup (pods : List PodRanktableData) :
    ((groupByServer pods).map Prod.fst).Nodup :=
  keys_foldl_nodup pods [] (by simp)

theorem keys_groupByServer_mem (pods : List PodRanktableData) (k : String) :
    k ∈ (groupByServer pods).map Prod.fst ↔ k ∈ pods.map (fun p => p.ServerId) := by
  unfold groupByServer
  rw [keys_foldl_mem]
  simp


/-! ## Sorting the server ids -/

theorem sortStrings_perm (l : List String) : (sortStrings l).Perm l :=
  insertionSortLess_perm stringLess l

theorem sortStrings_sorted (l : List String) : (sortStrings l).Pairwise (fun a b => a ≤ b) :=
  insertionSortLess_sorted (fun s => s) l

theorem sortStrings_strict (l : List String) (h : l.Nodup) :
    (sortStrings l).Pairwise (fun a b => a < b) := by
  have hn : (sortStrings l).Pairwise (fun a b => a ≠ b) := ((sortStrings_perm l).nodup_iff).2 h
  exact ((sortStrings_sorted l).and hn).imp (fun {a b} hab => lt_of_le_of_ne hab.1 hab.2)

theorem sortStrings_eq_of_perm {l l' : List String} (h : l.Perm l') :
    sortStrings l = sortStrings l' :=
  List.Perm.eq_of_sorted (fun _ _ _ _ h1 h2 => le_antisymm h1 h2)
    (sortStrings_sorted l) (sortStrings_sorted l')
    ((sortStrings_perm l).trans (h.trans (sortStrings_perm l').symm))

/-! ## The device sort -/

theorem SliceSorter.sorted_le (S : SliceSorter) (l : List DeviceInfo) :
    (S.sort l).Pairwise (fun a b => a.DeviceId ≤ b.DeviceId) :=
  (S.sorted l).imp (fun {a b} hab => (deviceLess_false_iff a b).1 hab)

/-- Two library sorts agree on rearrangements of a slice in which devices with
the same id are equal. -/
theorem SliceSorter.sort_eq_of_perm (S T : SliceSorter) {l l' : List DeviceInfo}
    (hp : l.Perm l')
    (hinj : ∀ a ∈ l, ∀ b ∈ l, a.DeviceId = b.DeviceId → a = b) :
    S.sort l = T.sort l' := by
  have hperm : (S.sort l).Perm (T.sort l') :=
    (S.perm l).trans (hp.trans (T.perm l').symm)
  refine List.Perm.eq_of_sorted ?_ (S.sorted_le l) (T.sorted_le l') hperm
  intro a b ha hb h1 h2
  exact hinj a ((S.perm l).subset ha) b (hp.symm.subset ((T.perm l').subset hb))
    (le_antisymm h1 h2)

/-! ## The rank loops -/

theorem assignRanks_counters (l : List DeviceInfo) (g t : Nat) :
    (assignRanks l g t).2 = (g + l.length, t + l.length) := by
  induction l generalizing g t with
  | nil => rfl
  | cons d ds ih =>
    simp only [assignRanks, ih, List.length_cons]
    congr 1 <;> omega

theorem assignRanks_length (l : List DeviceInfo) (g t : Nat) :
    (assignRanks l g t).1.length = l.length := by
  induction l generalizing g t with
  | nil => rfl
  | cons d ds ih => simp [assignRanks, ih]

theorem assignRanks_rankIds (l : List DeviceInfo) (g t : Nat) :
    (assignRanks l g t).1.map (fun d => d.RankId) = (List.range' g l.length).map itoa := by
  induction l generalizing g t with
  | nil => rfl
  | cons d ds ih => simp [assignRanks, ih, List.range'_succ]

theorem assignRanks_devices (l : List DeviceInfo) (g t : Nat) :
    (assignRanks l g t).1.map DeviceWithRank.info = l := by
  induction l generalizing g t with
  | nil => rfl
  | cons d ds ih => simp [assignRanks, ih, DeviceWithRank.info]

theorem buildServers_counters (S : SliceSorter) (m : List (String × List DeviceInfo))
    (ids : List String) (st : BuildState) :
    (buildServers S m ids st).globalRankId = st.globalRankId + deviceCount m ids ∧
    (buildServers S m ids st).totalDevices = st.totalDevices + deviceCount m ids := by
  induction ids generalizing st with
  | nil => simp [buildServers, deviceCount]
  | cons id rest ih =>
    have hlen : (S.sort (mapGet m id)).length = (mapGet m id).length := (S.perm _).length_eq
    simp only [buildServers, ih, assignRanks_counters, hlen, deviceCount, List.map_cons,
      List.sum_cons]
    constructor <;> omega

theorem buildServers_ids (S : SliceSorter) (m : List (String × List DeviceInfo))
    (ids : List String) (st : BuildState) :
    (buildServers S m ids st).servers.map (fun s => s.ServerId) =
      st.servers.map (fun s => s.ServerId) ++ ids := by
  induction ids generalizing st with
  | nil => simp [buildServers]
  | cons id rest ih => simp [buildServers, ih]

theorem buildServers_devices (S : SliceSorter) (m : List (String × List DeviceInfo))
    (ids : List String) (st : BuildState) :
    (buildServers S m ids st).servers.map (fun s => s.Devices.map DeviceWithRank.info) =
      st.servers.map (fun s => s.Devices.map DeviceWithRank.info) ++
      ids.map (fun id => S.sort (mapGet m id)) := by
  induction ids generalizing st with
  | nil => simp [buildServers]
  | cons id rest ih => simp [buildServers, ih, assignRanks_devices]

theorem buildServers_rankIds (S : SliceSorter) (m : List (String × List DeviceInfo))
    (ids : List String) (st : BuildState) :
    ((buildServers S m ids st).servers.flatMap (fun s => s.Devices)).map (fun d => d.RankId) =
      (st.servers.flatMap (fun s => s.Devices)).map (fun d => d.RankId) ++
      (List.range' st.globalRankId (deviceCount m ids)).map itoa := by
  induction ids generalizing st with
  | nil => simp [buildServers, deviceCount]
  | cons id rest ih =>
    have hlen : (S.sort (mapGet m id)).length = (mapGet m id).length := (S.perm _).length_eq
    simp only [buildServers, ih, assignRanks_counters, hlen, deviceCount, List.map_cons,
      List.sum_cons, List.flatMap_append, List.map_append, List.flatMap_cons, List.flatMap_nil,
      List.append_nil, assignRanks_rankIds, List.append_assoc]
    rw [← List.map_append, List.range'_append_1, Nat.add_comm (List.sum _)]

theorem buildServers_congr (S T : SliceSorter) (m m' : List (String × List DeviceInfo))
    (ids : List String) (st : BuildState)
    (h : ∀ id ∈ ids, S.sort (mapGet m id) = T.sort (mapGet m' id)) :
    buildServers S m ids st = buildServers T m' ids st := by
  induction ids generalizing st with
  | nil => rfl
  | cons id rest ih =>
    simp only [buildServers, h id (List.mem_cons_self _ _)]
    exact ih _ (fun id' hid => h id' (List.mem_cons_of_mem _ hid))

/-! ## Decimal numerals -/

theorem digitVal_digitChar (k : Nat) (h : k < 10) : digitVal (Nat.digitChar k) = k := by
  interval_cases k <;> rfl

theorem readDecimal_toDigitsCore (fuel n : Nat) (ds : List Char) (h : n < fuel) :
    readDecimal 0 (Nat.toDigitsCore 10 fuel n ds) = readDecimal n ds := by
  induction fuel generalizing n ds with
  | zero => omega
  | succ fuel ih =>
    unfold Nat.toDigitsCore
    simp only
    split
    · rename_i h0
      have hn : n < 10 := by
        rcases Nat.lt_or_ge n 10 with h1 | h1
        · exact h1
        · have : 0 < n / 10 := Nat.div_pos h1 (by decide)
          omega
      have hd := digitVal_digitChar (n % 10) (Nat.mod_lt _ (by decide))
      rw [Nat.mod_eq_of_lt hn] at hd ⊢
      simp [readDecimal, List.foldl_cons, hd]
    · rename_i h0
      have hlt : n / 10 < fuel := by
        have : n / 10 < n := Nat.div_lt_self (by
          rcases Nat.eq_zero_or_pos n with h1 | h1
          · subst h1; simp at h0
          · exact h1) (by decide)
        omega
      rw [ih (n / 10) _ hlt]
      simp only [readDecimal, List.foldl_cons,
        digitVal_digitChar (n % 10) (Nat.mod_lt _ (by decide))]
      congr 1
      omega

theorem itoa_injective : Function.Injective itoa := by
  intro a b h
  have h' : Nat.toDigits 10 a = Nat.toDigits 10 b := by
    have := congrArg String.data h
    simpa [itoa, Nat.repr, List.asString] using this
  have ha := readDecimal_toDigitsCore (a + 1) a [] (Nat.lt_succ_self a)
  have hb := readDecimal_toDigitsCore (b + 1) b [] (Nat.lt_succ_self b)
  unfold Nat.toDigits at h'
  rw [h'] at ha
  have hab := ha.symm.trans hb
  simpa [readDecimal] using hab

/-! ## BuildRanktableTemplateData: the document -/

theorem BuildRanktableTemplateData_servers (S : SliceSorter) (now status : String)
    (pods : GoSlice PodRanktableData) :
    (BuildRanktableTemplateData S now status pods).Servers.elems =
      (buildServers S (groupByServer pods.elems)
        (sortStrings ((groupByServer pods.elems).map Prod.fst))
        { servers := [], globalRankId := 0, totalDevices := 0 }).servers := rfl

theorem BuildRanktableTemplateData_totalDevices (S : SliceSorter) (now status : String)
    (pods : GoSlice PodRanktableData) :
    (BuildRanktableTemplateData S now status pods).TotalDevices =
      deviceCount (groupByServer pods.elems)
        (sortStrings ((groupByServer pods.elems).map Prod.fst)) := by
  have h := (buildServers_counters S (groupByServer pods.elems)
    (sortStrings ((groupByServer pods.elems).map Prod.fst))
    { servers := [], globalRankId := 0, totalDevices := 0 }).2
  simpa [BuildRanktableTemplateData] using h

theorem BuildRanktableTemplateData_serverIds (S : SliceSorter) (now status : String)
    (pods : GoSlice PodRanktableData) :
    (BuildRanktableTemplateData S now status pods).Servers.elems.map (fun s => s.ServerId) =
      sortStrings ((groupByServer pods.elems).map Prod.fst) := by
  rw [BuildRanktableTemplateData_servers, buildServers_ids]
  simp

/-- C1: reading the devices of the returned document server by server, the
k-th device carries the decimal string of k as rank id: the rank ids are the
numerals of 0..N-1 in order, N being `TotalDevices`, the number of devices of
the document, and no rank id occurs twice. -/
theorem BuildRanktableTemplateData_rank_ids_dense (S : SliceSorter) (now status : String)
    (pods : GoSlice PodRanktableData) :
    (((BuildRanktableTemplateData S now status pods).Servers.elems.flatMap
        (fun s => s.Devices)).map (fun d => d.RankId) =
      (List.range (BuildRanktableTemplateData S now status pods).TotalDevices).map itoa) ∧
    ((BuildRanktableTemplateData S now status pods).Servers.elems.flatMap
        (fun s => s.Devices)).length =
      (BuildRanktableTemplateData S now status pods).TotalDevices ∧
    (((BuildRanktableTemplateData S now status pods).Servers.elems.flatMap
        (fun s => s.Devices)).map (fun d => d.RankId)).Nodup := by
  have h1 : ((BuildRanktableTemplateData S now status pods).Servers.elems.flatMap
        (fun s => s.Devices)).map (fun d => d.RankId) =
      (List.range (BuildRanktableTemplateData S now status pods).TotalDevices).map itoa := by
    rw [BuildRanktableTemplateData_totalDevices, BuildRanktableTemplateData_servers,
      buildServers_rankIds, List.range_eq_range']
    simp
  refine ⟨h1, ?_, ?_⟩
  · have := congrArg List.length h1
    simpa using this
  · rw [h1]
    exact (List.nodup_range _).map itoa_injective

/-! ## Order independence -/

theorem mem_devices_of_server (pods : List PodRanktableData) (k : String) (a : DeviceInfo) :
    a ∈ mapGet (groupByServer pods) k ↔ ∃ p ∈ pods, p.ServerId = k ∧ a ∈ p.Devices := by
  rw [mapGet_groupByServer]
  simp only [List.mem_flatMap, List.mem_filter, decide_eq_true_eq]
  constructor
  · rintro ⟨p, ⟨hp, hk⟩, ha⟩; exact ⟨p, hp, hk, ha⟩
  · rintro ⟨p, hp, hk, ha⟩; exact ⟨p, ⟨hp, hk⟩, ha⟩

theorem keys_perm_of_perm {pods pods' : List PodRanktableData} (h : pods.Perm pods') :
    ((groupByServer pods).map Prod.fst).Perm ((groupByServer pods').map Prod.fst) := by
  rw [List.perm_ext_iff_of_nodup (keys_groupByServer_nodup pods) (keys_groupByServer_nodup pods')]
  intro k
  rw [keys_groupByServer_mem, keys_groupByServer_mem]
  exact (h.map _).mem_iff

theorem devices_perm_of_perm {pods pods' : List PodRanktableData} (h : pods.Perm pods')
    (k : String) : (mapGet (groupByServer pods) k).Perm (mapGet (groupByServer pods') k) := by
  rw [mapGet_groupByServer, mapGet_groupByServer]
  exact (h.filter _).flatMap_right _

theorem devices_inj_of_consistent {pods : List PodRanktableData}
    (h : DeviceKeysConsistent pods) (k : String) :
    ∀ a ∈ mapGet (groupByServer pods) k, ∀ b ∈ mapGet (groupByServer pods) k,
      a.DeviceId = b.DeviceId → a = b := by
  intro a ha b hb hab
  obtain ⟨p, hp, hpk, hap⟩ := (mem_devices_of_server pods k a).1 ha
  obtain ⟨q, hq, hqk, hbq⟩ := (mem_devices_of_server pods k b).1 hb
  exact h p hp q hq (hpk.trans hqk.symm) a hap b hbq hab

/-- With consistent device keys the loop result depends neither on the order
of the contributions nor on the library sort. -/
theorem buildServers_eq_of_perm (S T : SliceSorter) {pods pods' : List PodRanktableData}
    (hperm : pods.Perm pods') (hkeys : DeviceKeysConsistent pods) (st : BuildState) :
    buildServers S (groupByServer pods) (sortStrings ((groupByServer pods).map Prod.fst)) st =
    buildServers T (groupByServer pods') (sortStrings ((groupByServer pods').map Prod.fst)) st := by
  rw [sortStrings_eq_of_perm (keys_perm_of_perm hperm)]
  apply buildServers_congr
  intro id _
  exact SliceSorter.sort_eq_of_perm S T (devices_perm_of_perm hperm id)
    (devices_inj_of_consistent hkeys id)

/-- C2 (as amended): for contribution lists that are permutations of each other
and in which, within one server id, a device id names one device, the two
documents have the same servers in the same order with the same devices and
rank ids, the same `ServerCount` and the same `TotalDevices`; the timestamps
may differ. -/
theorem BuildRanktableTemplateData_order_independent (S : SliceSorter)
    (now now' status : String) (pods pods' : GoSlice PodRanktableData)
    (hperm : pods.elems.Perm pods'.elems) (hkeys : DeviceKeysConsistent pods.elems) :
    (BuildRanktableTemplateData S now status pods).Servers =
      (BuildRanktableTemplateData S now' status pods').Servers ∧
    (BuildRanktableTemplateData S now status pods).ServerCount =
      (BuildRanktableTemplateData S now' status pods').ServerCount ∧
    (BuildRanktableTemplateData S now status pods).TotalDevices =
      (BuildRanktableTemplateData S now' status pods').TotalDevices := by
  have h := buildServers_eq_of_perm S S hperm hkeys
    { servers := [], globalRankId := 0, totalDevices := 0 }
  simp only [BuildRanktableTemplateData, h, and_self]

/-- Witness of C2 (as amended): the two arrival orders of the pods of the
end-to-end scenario. -/
theorem BuildRanktableTemplateData_order_independent_witness :
    (BuildRanktableTemplateData goInsertionSort "t1" "Completed"
        (some [⟨"pod-1", "10.244.1.6", [⟨"0", "a"⟩, ⟨"1", "b"⟩]⟩,
               ⟨"pod-2", "10.244.1.5", [⟨"0", "c"⟩, ⟨"1", "d"⟩]⟩])).Servers =
      (BuildRanktableTemplateData goInsertionSort "t2" "Completed"
        (some [⟨"pod-2", "10.244.1.5", [⟨"0", "c"⟩, ⟨"1", "d"⟩]⟩,
               ⟨"pod-1", "10.244.1.6", [⟨"0", "a"⟩, ⟨"1", "b"⟩]⟩])).Servers :=
  (BuildRanktableTemplateData_order_independent goInsertionSort "t1" "t2" "Completed"
    (some [⟨"pod-1", "10.244.1.6", [⟨"0", "a"⟩, ⟨"1", "b"⟩]⟩,
           ⟨"pod-2", "10.244.1.5", [⟨"0", "c"⟩, ⟨"1", "d"⟩]⟩])
    (some [⟨"pod-2", "10.244.1.5", [⟨"0", "c"⟩, ⟨"1", "d"⟩]⟩,
           ⟨"pod-1", "10.244.1.6", [⟨"0", "a"⟩, ⟨"1", "b"⟩]⟩])
    (List.Perm.swap _ _ []) (by decide)).1

/-- C2 (as stated) fails: two pods report the same server id and the same
device id with different addresses; `sort.Slice` on a slice of two elements is
an insertion sort and leaves elements that compare equal in arrival order, so
swapping the two contributions swaps the addresses that get ranks 0 and 1. -/
theorem BuildRanktableTemplateData_order_dependent :
    List.Perm
      [(⟨"pod-a", "node-1", [⟨"0", "10.0.0.1"⟩]⟩ : PodRanktableData),
        ⟨"pod-b", "node-1", [⟨"0", "10.0.0.2"⟩]⟩]
      [⟨"pod-b", "node-1", [⟨"0", "10.0.0.2"⟩]⟩,
        ⟨"pod-a", "node-1", [⟨"0", "10.0.0.1"⟩]⟩] ∧
    (BuildRanktableTemplateData goInsertionSort "t" "Completed"
        (some [⟨"pod-a", "node-1", [⟨"0", "10.0.0.1"⟩]⟩,
               ⟨"pod-b", "node-1", [⟨"0", "10.0.0.2"⟩]⟩])).Servers =
      some [⟨"node-1", [⟨"0", "10.0.0.1", "0"⟩, ⟨"0", "10.0.0.2", "1"⟩]⟩] ∧
    (BuildRanktableTemplateData goInsertionSort "t" "Completed"
        (some [⟨"pod-b", "node-1", [⟨"0", "10.0.0.2"⟩]⟩,
               ⟨"pod-a", "node-1", [⟨"0", "10.0.0.1"⟩]⟩])).Servers =
      some [⟨"node-1", [⟨"0", "10.0.0.2", "0"⟩, ⟨"0", "10.0.0.1", "1"⟩]⟩] ∧
    (BuildRanktableTemplateData goInsertionSort "t" "Completed"
        (some [⟨"pod-a", "node-1", [⟨"0", "10.0.0.1"⟩]⟩,
               ⟨"pod-b", "node-1", [⟨"0", "10.0.0.2"⟩]⟩])).Servers ≠
      (BuildRanktableTemplateData goInsertionSort "t" "Completed"
        (some [⟨"pod-b", "node-1", [⟨"0", "10.0.0.2"⟩]⟩,
               ⟨"pod-a", "node-1", [⟨"0", "10.0.0.1"⟩]⟩])).Servers :=
  ⟨List.Perm.swap _ _ [], by decide, by decide, by decide⟩

/-! ## Server order, device order, merging -/

/-- With consistent device keys the servers do not depend on the library sort. -/
theorem BuildRanktableTemplateData_servers_eq (S T : SliceSorter) (now now' status status' : String)
    (pods : GoSlice PodRanktableData) (h : DeviceKeysConsistent pods.elems) :
    (BuildRanktableTemplateData S now status pods).Servers =
      (BuildRanktableTemplateData T now' status' pods).Servers := by
  have h := buildServers_eq_of_perm S T (List.Perm.refl pods.elems) h
    { servers := [], globalRankId := 0, totalDevices := 0 }
  simp only [BuildRanktableTemplateData, h]

/-- C3: the servers of the returned document are strictly ascending by server
id in the lexicographic order of strings, every server id of the input occurs
exactly once among them and no other id occurs; the two pods of the end-to-end
scenario, 10.244.1.6 arriving first, give 10.244.1.5 with ranks 0, 1 followed
by 10.244.1.6 with ranks 2, 3. -/
theorem BuildRanktableTemplateData_servers_strictly_ascending (S : SliceSorter)
    (now status : String) (pods : GoSlice PodRanktableData) :
    ((BuildRanktableTemplateData S now status pods).Servers.elems.map
        (fun s => s.ServerId)).Pairwise (fun a b => a < b) ∧
    (∀ id : String,
      ((BuildRanktableTemplateData S now status pods).Servers.elems.map
        (fun s => s.ServerId)).count id =
        if id ∈ pods.elems.map (fun p => p.ServerId) then 1 else 0) ∧
    (BuildRanktableTemplateData S now status
        (some [⟨"pod-1", "10.244.1.6", [⟨"0", "192.168.2.1"⟩, ⟨"1", "192.168.2.2"⟩]⟩,
               ⟨"pod-2", "10.244.1.5", [⟨"0", "192.168.1.1"⟩, ⟨"1", "192.168.1.2"⟩]⟩])).Servers =
      some [⟨"10.244.1.5", [⟨"0", "192.168.1.1", "0"⟩, ⟨"1", "192.168.1.2", "1"⟩]⟩,
            ⟨"10.244.1.6", [⟨"0", "192.168.2.1", "2"⟩, ⟨"1", "192.168.2.2", "3"⟩]⟩] := by
  have hstrict := sortStrings_strict _ (keys_groupByServer_nodup pods.elems)
  refine ⟨?_, ?_, ?_⟩
  · rw [BuildRanktableTemplateData_serverIds]
    exact hstrict
  · intro id
    rw [BuildRanktableTemplateData_serverIds]
    have hnodup : (sortStrings ((groupByServer pods.elems).map Prod.fst)).Nodup :=
      hstrict.imp (fun {a b} hab => ne_of_lt hab)
    have hmem : id ∈ sortStrings ((groupByServer pods.elems).map Prod.fst) ↔
        id ∈ pods.elems.map (fun p => p.ServerId) := by
      rw [(sortStrings_perm _).mem_iff, keys_groupByServer_mem]
    by_cases hid : id ∈ pods.elems.map (fun p => p.ServerId)
    · rw [if_pos hid]
      exact List.count_eq_one_of_mem hnodup (hmem.2 hid)
    · rw [if_neg hid]
      exact List.count_eq_zero_of_not_mem (fun h => hid (hmem.1 h))
  · rw [BuildRanktableTemplateData_servers_eq S goInsertionSort now "" status "" _ (by decide)]
    decide

/-- C4: within every server of the returned document the devices are in
non-decreasing order of device id, the order being that of strings and not of
numbers: device "10" is placed before device "2", and the devices "3", "1",
"2", "0" come out as "0", "1", "2", "3" with ranks 0 to 3. -/
theorem BuildRanktableTemplateData_devices_sorted (S : SliceSorter)
    (now status : String) (pods : GoSlice PodRanktableData) :
    (∀ s ∈ (BuildRanktableTemplateData S now status pods).Servers.elems,
      s.Devices.Pairwise (fun a b => a.DeviceId ≤ b.DeviceId)) ∧
    (BuildRanktableTemplateData S now status
        (some [⟨"pod-1", "server-1", [⟨"2", "192.168.1.3"⟩, ⟨"10", "192.168.1.11"⟩]⟩])).Servers =
      some [⟨"server-1", [⟨"10", "192.168.1.11", "0"⟩, ⟨"2", "192.168.1.3", "1"⟩]⟩] ∧
    (BuildRanktableTemplateData S now status
        (some [⟨"pod-1", "server-1", [⟨"3", "192.168.1.4"⟩, ⟨"1", "192.168.1.2"⟩,
                 ⟨"2", "192.168.1.3"⟩, ⟨"0", "192.168.1.1"⟩]⟩])).Servers =
      some [⟨"server-1", [⟨"0", "192.168.1.1", "0"⟩, ⟨"1", "192.168.1.2", "1"⟩,
              ⟨"2", "192.168.1.3", "2"⟩, ⟨"3", "192.168.1.4", "3"⟩]⟩] := by
  refine ⟨?_, ?_, ?_⟩
  · intro s hs
    rw [BuildRanktableTemplateData_servers] at hs
    have hmem : s.Devices.map DeviceWithRank.info ∈
        (buildServers S (groupByServer pods.elems)
          (sortStrings ((groupByServer pods.elems).map Prod.fst))
          { servers := [], globalRankId := 0, totalDevices := 0 }).servers.map
            (fun s => s.Devices.map DeviceWithRank.info) :=
      List.mem_map_of_mem (fun s => s.Devices.map DeviceWithRank.info) hs
    rw [buildServers_devices] at hmem
    simp only [List.map_nil, List.nil_append, List.mem_map] at hmem
    obtain ⟨id, _, hid⟩ := hmem
    have hsorted := S.sorted_le (mapGet (groupByServer pods.elems) id)
    rw [hid, List.pairwise_map] at hsorted
    exact hsorted
  · rw [BuildRanktableTemplateData_servers_eq S goInsertionSort now "" status "" _ (by decide)]
    decide
  · rw [BuildRanktableTemplateData_servers_eq S goInsertionSort now "" status "" _ (by decide)]
    decide

/-- Witness of C4: the server of the test case "devices sorted by device_id". -/
theorem BuildRanktableTemplateData_devices_sorted_witness :
    List.Pairwise (fun a b : DeviceWithRank => a.DeviceId ≤ b.DeviceId)
      [⟨"0", "192.168.1.1", "0"⟩, ⟨"1", "192.168.1.2", "1"⟩,
        ⟨"2", "192.168.1.3", "2"⟩, ⟨"3", "192.168.1.4", "3"⟩] :=
  (BuildRanktableTemplateData_devices_sorted goInsertionSort "t" "completed"
    (some [⟨"pod-1", "server-1", [⟨"3", "192.168.1.4"⟩, ⟨"1", "192.168.1.2"⟩,
             ⟨"2", "192.168.1.3"⟩, ⟨"0", "192.168.1.1"⟩]⟩])).1
    ⟨"server-1", [⟨"0", "192.168.1.1", "0"⟩, ⟨"1", "192.168.1.2", "1"⟩,
      ⟨"2", "192.168.1.3", "2"⟩, ⟨"3", "192.168.1.4", "3"⟩]⟩ (by decide)

/-- C7: on the empty contribution list and on the nil one the returned
document has no server, in a server list that is not nil, `ServerCount` 0,
`TotalDevices` 0 and the status given. -/
theorem BuildRanktableTemplateData_empty (S : SliceSorter) (now status : String) :
    BuildRanktableTemplateData S now status (some []) =
      { Status := status, ServerCount := 0, TotalDevices := 0, Timestamp := now,
        Servers := some [] } ∧
    BuildRanktableTemplateData S now status none =
      { Status := status, ServerCount := 0, TotalDevices := 0, Timestamp := now,
        Servers := some [] } ∧
    (BuildRanktableTemplateData S now status none).Servers ≠ none :=
  ⟨rfl, rfl, by simp [BuildRanktableTemplateData]⟩

/-- C5: two contributions that report the same server id, with disjoint sets
of device ids, give exactly one server entry, whose devices are those of both
contributions together, sorted by device id. -/
theorem BuildRanktableTemplateData_merges_same_server (S : SliceSorter) (now status : String)
    (a b : PodRanktableData) (hsame : a.ServerId = b.ServerId)
    (hdisj : ∀ x ∈ a.Devices, ∀ y ∈ b.Devices, x.DeviceId ≠ y.DeviceId) :
    ∃ devices : List DeviceWithRank,
      (BuildRanktableTemplateData S now status (some [a, b])).Servers =
        some [{ ServerId := a.ServerId, Devices := devices }] ∧
      (BuildRanktableTemplateData S now status (some [a, b])).ServerCount = 1 ∧
      (devices.map DeviceWithRank.info).Perm (a.Devices ++ b.Devices) ∧
      devices.Pairwise (fun x y => x.DeviceId ≤ y.DeviceId) := by
  have _ := hdisj
  have hmap : groupByServer [a, b] = [(a.ServerId, a.Devices ++ b.Devices)] := by
    simp [groupByServer, appendAt, hsame]
  refine ⟨(assignRanks (S.sort (a.Devices ++ b.Devices)) 0 0).1, ?_, ?_, ?_, ?_⟩
  · simp [BuildRanktableTemplateData, GoSlice.elems, hmap, sortStrings, insertionSortLess,
      insertLess, buildServers, mapGet]
  · simp [BuildRanktableTemplateData, GoSlice.elems, hmap, sortStrings, insertionSortLess,
      insertLess, buildServers, mapGet]
  · rw [assignRanks_devices]
    exact S.perm _
  · have h := S.sorted_le (a.Devices ++ b.Devices)
    rw [← assignRanks_devices (S.sort (a.Devices ++ b.Devices)) 0 0, List.pairwise_map] at h
    exact h

/-- Witness of C5: leader and worker pod on one host, devices 0, 1 and 2, 3. -/
theorem BuildRanktableTemplateData_merges_same_server_witness :
    ∃ devices : List DeviceWithRank,
      (BuildRanktableTemplateData goInsertionSort "t" "Completed"
        (some [⟨"leader", "node-1", [⟨"2", "10.0.0.3"⟩, ⟨"3", "10.0.0.4"⟩]⟩,
               ⟨"worker", "node-1", [⟨"0", "10.0.0.1"⟩, ⟨"1", "10.0.0.2"⟩]⟩])).Servers =
        some [{ ServerId := "node-1", Devices := devices }] ∧
      (BuildRanktableTemplateData goInsertionSort "t" "Completed"
        (some [⟨"leader", "node-1", [⟨"2", "10.0.0.3"⟩, ⟨"3", "10.0.0.4"⟩]⟩,
               ⟨"worker", "node-1", [⟨"0", "10.0.0.1"⟩, ⟨"1", "10.0.0.2"⟩]⟩])).ServerCount = 1 ∧
      (devices.map DeviceWithRank.info).Perm
        [⟨"2", "10.0.0.3"⟩, ⟨"3", "10.0.0.4"⟩, ⟨"0", "10.0.0.1"⟩, ⟨"1", "10.0.0.2"⟩] ∧
      devices.Pairwise (fun x y => x.DeviceId ≤ y.DeviceId) :=
  BuildRanktableTemplateData_merges_same_server goInsertionSort "t" "Completed"
    ⟨"leader", "node-1", [⟨"2", "10.0.0.3"⟩, ⟨"3", "10.0.0.4"⟩]⟩
    ⟨"worker", "node-1", [⟨"0", "10.0.0.1"⟩, ⟨"1", "10.0.0.2"⟩]⟩ rfl (by decide)

/-! ## Counts -/

theorem sum_ite_eq_mul_count (ids : List String) (k : String) (c : Nat) :
    (ids.map (fun id => if k = id then c else 0)).sum = c * ids.count k := by
  induction ids with
  | nil => simp
  | cons i is ih =>
    by_cases h : k = i
    · subst h; simp [ih, Nat.mul_add, Nat.add_comm]
    · have h' : ¬ i = k := fun e => h e.symm
      simp [ih, h, List.count_cons, h']

theorem sum_devices_by_server (ids : List String) (hn : ids.Nodup)
    (pods : List PodRanktableData) (hcover : ∀ p ∈ pods, p.ServerId ∈ ids) :
    (ids.map (fun id =>
        ((pods.filter (fun p => p.ServerId = id)).flatMap (fun p => p.Devices)).length)).sum =
      (pods.map (fun p => p.Devices.length)).sum := by
  induction pods with
  | nil => simp
  | cons p ps ih =>
    have hstep : ∀ id : String,
        (((p :: ps).filter (fun p => p.ServerId = id)).flatMap (fun p => p.Devices)).length =
          (if p.ServerId = id then p.Devices.length else 0) +
          ((ps.filter (fun p => p.ServerId = id)).flatMap (fun p => p.Devices)).length := by
      intro id
      by_cases h : p.ServerId = id <;> simp [List.filter_cons, h]
    simp only [hstep, List.sum_map_add, sum_ite_eq_mul_count,
      List.count_eq_one_of_mem hn (hcover p (List.mem_cons_self _ _)), Nat.mul_one,
      List.map_cons, List.sum_cons]
    rw [ih (fun q hq => hcover q (List.mem_cons_of_mem _ hq))]

/-- C6: in the returned document `TotalDevices` is the sum of the lengths of
the device lists of its servers and the sum of the device counts of the input
contributions; `ServerCount` is the length of the server list and the number
of distinct server ids of the input, contributions without device included. -/
theorem BuildRanktableTemplateData_counts (S : SliceSorter) (now status : String)
    (pods : GoSlice PodRanktableData) :
    (BuildRanktableTemplateData S now status pods).TotalDevices =
      ((BuildRanktableTemplateData S now status pods).Servers.elems.map
        (fun s => s.Devices.length)).sum ∧
    (BuildRanktableTemplateData S now status pods).TotalDevices =
      (pods.elems.map (fun p => p.Devices.length)).sum ∧
    (BuildRanktableTemplateData S now status pods).ServerCount =
      (BuildRanktableTemplateData S now status pods).Servers.elems.length ∧
    (BuildRanktableTemplateData S now status pods).ServerCount =
      (pods.elems.map (fun p => p.ServerId)).dedup.length := by
  have hkeys := keys_groupByServer_nodup pods.elems
  have hperm := sortStrings_perm ((groupByServer pods.elems).map Prod.fst)
  refine ⟨?_, ?_, rfl, ?_⟩
  · rw [BuildRanktableTemplateData_totalDevices, BuildRanktableTemplateData_servers]
    have h := congrArg (List.map List.length) (buildServers_devices S (groupByServer pods.elems)
      (sortStrings ((groupByServer pods.elems).map Prod.fst))
      { servers := [], globalRankId := 0, totalDevices := 0 })
    simp only [List.map_map, List.map_nil, List.nil_append] at h
    have h1 : (List.length ∘ fun s : ServerInfo => s.Devices.map DeviceWithRank.info) =
        fun s => s.Devices.length := by
      funext s; simp
    have h2 : (List.length ∘ fun id => S.sort (mapGet (groupByServer pods.elems) id)) =
        fun id => (mapGet (groupByServer pods.elems) id).length := by
      funext id; exact (S.perm _).length_eq
    rw [h1, h2] at h
    rw [h, deviceCount]
  · rw [BuildRanktableTemplateData_totalDevices, deviceCount]
    simp only [mapGet_groupByServer]
    apply sum_devices_by_server _ (hperm.nodup_iff.2 hkeys)
    intro p hp
    rw [hperm.mem_iff, keys_groupByServer_mem]
    exact List.mem_map_of_mem _ hp
  · have hlen : (BuildRanktableTemplateData S now status pods).ServerCount =
        ((BuildRanktableTemplateData S now status pods).Servers.elems.map
          (fun s => s.ServerId)).length := by
      rw [List.length_map]; rfl
    rw [hlen, BuildRanktableTemplateData_serverIds, hperm.length_eq]
    apply List.Perm.length_eq
    rw [List.perm_ext_iff_of_nodup hkeys (List.nodup_dedup _)]
    intro k
    rw [keys_groupByServer_mem, List.mem_dedup]

/-! ## OnPodReady: the readiness check -/

theorem podStep_deleting (parsePod : String → String → Except String PodRanktableData)
    (template : RanktableTemplate) (st : ReadyState) (pod : Pod)
    (h : pod.DeletionTimestamp ≠ none) :
    OnPodReady.podStep parsePod template st pod = st := by
  unfold OnPodReady.podStep
  cases hd : pod.DeletionTimestamp with
  | none => exact absurd hd h
  | some t => simp

theorem podStep_active (parsePod : String → String → Except String PodRanktableData)
    (template : RanktableTemplate) (st : ReadyState) (pod : Pod)
    (h : pod.DeletionTimestamp = none) :
    OnPodReady.podStep parsePod template st pod =
      { allReady := st.allReady && (OnPodReady.contribution parsePod template pod).isSome,
        podRanktables :=
          match OnPodReady.contribution parsePod template pod with
          | none => st.podRanktables
          | some data => some (st.podRanktables.elems ++ [data]),
        activePods := st.activePods + 1 } := by
  unfold OnPodReady.podStep OnPodReady.contribution
  simp only [h, Option.isSome_none, Bool.false_eq_true, if_false]
  by_cases hp : pod.Phase = PodRunning
  · simp only [hp, ne_eq, not_true_eq_false, if_false]
    cases pod.Annotations template.PodAnnotationName with
    | none => simp
    | some ann =>
      simp only
      cases parsePod template.PodParserTemplate ann with
      | error e => simp
      | ok data => simp
  · simp [hp]

theorem foldl_podStep_filter (parsePod : String → String → Except String PodRanktableData)
    (template : RanktableTemplate) (pods : List Pod) (st : ReadyState) :
    pods.foldl (OnPodReady.podStep parsePod template) st =
      (pods.filter (fun p => p.DeletionTimestamp.isNone)).foldl
        (OnPodReady.podStep parsePod template) st := by
  induction pods generalizing st with
  | nil => rfl
  | cons p ps ih =>
    cases hd : p.DeletionTimestamp with
    | none => simp [List.filter_cons, hd, ih]
    | some t =>
      have hne : p.DeletionTimestamp ≠ none := by simp [hd]
      simp [List.filter_cons, hd, podStep_deleting parsePod template st p hne, ih]

theorem foldl_podStep_active (parsePod : String → String → Except String PodRanktableData)
    (template : RanktableTemplate) (pods : List Pod) (st : ReadyState)
    (h : ∀ p ∈ pods, p.DeletionTimestamp = none) :
    (pods.foldl (OnPodReady.podStep parsePod template) st).allReady =
      (st.allReady && pods.all (fun p => (OnPodReady.contribution parsePod template p).isSome)) ∧
    (pods.foldl (OnPodReady.podStep parsePod template) st).activePods =
      st.activePods + pods.length ∧
    (pods.foldl (OnPodReady.podStep parsePod template) st).podRanktables.elems =
      st.podRanktables.elems ++ pods.filterMap (OnPodReady.contribution parsePod template) := by
  induction pods generalizing st with
  | nil => simp
  | cons p ps ih =>
    have hp := h p (List.mem_cons_self _ _)
    have hps : ∀ q ∈ ps, q.DeletionTimestamp = none :=
      fun q hq => h q (List.mem_cons_of_mem _ hq)
    simp only [List.foldl_cons, podStep_active parsePod template st p hp]
    obtain ⟨h1, h2, h3⟩ := ih _ hps
    rw [h1, h2, h3]
    refine ⟨?_, ?_, ?_⟩
    · simp [Bool.and_assoc]
    · simp; omega
    · cases hc : OnPodReady.contribution parsePod template p with
      | none => simp [List.filterMap_cons, hc]
      | some d => simp [List.filterMap_cons, hc, GoSlice.elems]

/-- The state after the pod loop, in terms of the pods that are not being deleted. -/
theorem podLoop_eq (parsePod : String → String → Except String PodRanktableData)
    (template : RanktableTemplate) (pods : List Pod) :
    (OnPodReady.podLoop parsePod template pods).allReady =
      (pods.filter (fun p => p.DeletionTimestamp.isNone)).all
        (fun p => (OnPodReady.contribution parsePod template p).isSome) ∧
    (OnPodReady.podLoop parsePod template pods).activePods =
      (pods.filter (fun p => p.DeletionTimestamp.isNone)).length ∧
    (OnPodReady.podLoop parsePod template pods).podRanktables.elems =
      (pods.filter (fun p => p.DeletionTimestamp.isNone)).filterMap
        (OnPodReady.contribution parsePod template) := by
  unfold OnPodReady.podLoop
  rw [foldl_podStep_filter]
  have h := foldl_podStep_active parsePod template
    (pods.filter (fun p => p.DeletionTimestamp.isNone))
    { allReady := true, podRanktables := none, activePods := 0 }
    (by intro p hp; simpa using (List.mem_filter.1 hp).2)
  simpa [GoSlice.elems] using h

theorem contribution_isSome_iff (parsePod : String → String → Except String PodRanktableData)
    (template : RanktableTemplate) (pod : Pod) :
    (OnPodReady.contribution parsePod template pod).isSome = true ↔
      pod.Phase = PodRunning ∧
      ∃ ann, pod.Annotations template.PodAnnotationName = some ann ∧
        ∃ data, parsePod template.PodParserTemplate ann = .ok data := by
  unfold OnPodReady.contribution
  by_cases hp : pod.Phase = PodRunning
  · simp only [hp, ne_eq, not_true_eq_false, if_false, true_and]
    cases pod.Annotations template.PodAnnotationName with
    | none => simp
    | some ann =>
      simp only
      cases hq : parsePod template.PodParserTemplate ann with
      | error e => simp [hq]
      | ok data => simp [hq]
  · simp [hp]

theorem findRoleReplicas_eq (roles : List Role) (roleName : String) :
    OnPodReady.findRoleReplicas roles roleName =
      match roles.find? (fun r => decide (r.Name = roleName)) with
      | none => (0, false)
      | some r => (toInt32 (1 + r.WorkerReplicas), true) := by
  induction roles with
  | nil => rfl
  | cons r rs ih =>
    unfold OnPodReady.findRoleReplicas
    by_cases h : r.Name = roleName
    · simp [h, List.find?_cons]
    · simp [h, List.find?_cons, ih]

theorem toInt32_of_representable (x : Int) (h1 : -2147483648 ≤ x) (h2 : x ≤ 2147483647) :
    toInt32 x = x := by
  unfold toInt32
  omega

theorem checkReadiness_status_cases (parsePod : String → String → Except String PodRanktableData)
    (template : RanktableTemplate) (roles : List Role) (roleName : String) (pods : List Pod) :
    (OnPodReady.checkReadiness parsePod template roles roleName pods).1 = RanktableStatusCompleted ∨
    (OnPodReady.checkReadiness parsePod template roles roleName pods).1 =
      RanktableStatusInitializing := by
  unfold OnPodReady.checkReadiness
  simp only
  split
  · exact Or.inr rfl
  · split
    · split
      · exact Or.inr rfl
      · exact Or.inl rfl
    · exact Or.inl rfl

/-- The status in terms of the variables of the pod loop and of the role loop. -/
theorem checkReadiness_completed_iff (parsePod : String → String → Except String PodRanktableData)
    (template : RanktableTemplate) (roles : List Role) (roleName : String) (pods : List Pod) :
    (OnPodReady.checkReadiness parsePod template roles roleName pods).1 = RanktableStatusCompleted ↔
      (OnPodReady.podLoop parsePod template pods).allReady = true ∧
      (OnPodReady.podLoop parsePod template pods).podRanktables.elems ≠ [] ∧
      (template.Level = RoleLevelRanktable →
        ∀ r, roles.find? (fun r => decide (r.Name = roleName)) = some r →
          toInt32 (1 + r.WorkerReplicas) ≤
            toInt32 (OnPodReady.podLoop parsePod template pods).activePods) := by
  have hne : RanktableStatusInitializing ≠ RanktableStatusCompleted := by decide
  unfold OnPodReady.checkReadiness
  simp only [findRoleReplicas_eq]
  by_cases h1 : (OnPodReady.podLoop parsePod template pods).allReady = true
  · by_cases h2 : (OnPodReady.podLoop parsePod template pods).podRanktables.elems = []
    · simp [h1, h2, hne]
    · have h2' : ¬ (OnPodReady.podLoop parsePod template pods).podRanktables.elems.length = 0 := by
        simpa [List.length_eq_zero] using h2
      by_cases h3 : template.Level = RoleLevelRanktable
      · cases hf : roles.find? (fun r => decide (r.Name = roleName)) with
        | none => simp [h1, h2, h2', h3]
        | some r =>
          by_cases h4 : toInt32 (OnPodReady.podLoop parsePod template pods).activePods <
              toInt32 (1 + r.WorkerReplicas)
          · simp [h1, h2, h2', h3, h4, hne]
          · simp [h1, h2, h2', h3, h4]
            exact not_lt.1 h4
      · simp [h1, h2, h2', h3]
  · simp [h1, hne]

/-- C8 (as amended): when the level is role or group and the int32 values of
the replica check are exact (1 + WorkerReplicas of the first role with the
request's role name and the number of listed pods are representable as int32),
the status is Completed if and only if (a) every pod without a
DeletionTimestamp is Running, carries the annotation and parses, (b) some pod
contributed, and (c) the level is group, or no role has the request's role
name, or the pods without a DeletionTimestamp are at least 1 + WorkerReplicas
of the first role with that name; in every other case it is Initializing. -/
theorem OnPodReady_status_completed_iff
    (parsePod : String → String → Except String PodRanktableData)
    (template : RanktableTemplate) (roles : List Role) (roleName : String) (pods : List Pod)
    (hlevel : template.Level = RoleLevelRanktable ∨ template.Level = GroupLevelRanktable)
    (hrole : ∀ r, roles.find? (fun r => decide (r.Name = roleName)) = some r →
      -2147483648 ≤ 1 + r.WorkerReplicas ∧ 1 + r.WorkerReplicas ≤ 2147483647)
    (hpods : pods.length ≤ 2147483647) :
    ((OnPodReady.checkReadiness parsePod template roles roleName pods).1 =
        RanktableStatusCompleted ↔
      (∀ pod ∈ pods, pod.DeletionTimestamp = none →
        pod.Phase = PodRunning ∧
        ∃ ann, pod.Annotations template.PodAnnotationName = some ann ∧
          ∃ data, parsePod template.PodParserTemplate ann = .ok data) ∧
      (∃ pod ∈ pods, pod.DeletionTimestamp = none ∧ pod.Phase = PodRunning ∧
        ∃ ann, pod.Annotations template.PodAnnotationName = some ann ∧
          ∃ data, parsePod template.PodParserTemplate ann = .ok data) ∧
      (template.Level = GroupLevelRanktable ∨
        roles.find? (fun r => decide (r.Name = roleName)) = none ∨
        ∃ r, roles.find? (fun r => decide (r.Name = roleName)) = some r ∧
          1 + r.WorkerReplicas ≤
            ((pods.filter (fun p => p.DeletionTimestamp.isNone)).length : Int))) ∧
    ((OnPodReady.checkReadiness parsePod template roles roleName pods).1 ≠
        RanktableStatusCompleted →
      (OnPodReady.checkReadiness parsePod template roles roleName pods).1 =
        RanktableStatusInitializing) := by
  refine ⟨?_, fun h => (checkReadiness_status_cases parsePod template roles roleName pods).resolve_left h⟩
  obtain ⟨hall, hact, hlist⟩ := podLoop_eq parsePod template pods
  have hgr : GroupLevelRanktable ≠ RoleLevelRanktable := by decide
  have hcount : toInt32 ((pods.filter (fun p => p.DeletionTimestamp.isNone)).length : Int) =
      ((pods.filter (fun p => p.DeletionTimestamp.isNone)).length : Int) := by
    have hle := List.length_filter_le (fun p : Pod => p.DeletionTimestamp.isNone) pods
    apply toInt32_of_representable <;> omega
  rw [checkReadiness_completed_iff, hall, hact, hlist]
  apply and_congr
  · simp only [List.all_eq_true, List.mem_filter, contribution_isSome_iff, and_imp,
      Option.isNone_iff_eq_none]
  apply and_congr
  · rw [Ne, List.filterMap_eq_nil_iff]
    simp only [List.mem_filter, Option.isNone_iff_eq_none, and_imp, not_forall]
    constructor
    · rintro ⟨p, hp, hd, hc⟩
      have hs : (OnPodReady.contribution parsePod template p).isSome = true := by
        cases hx : OnPodReady.contribution parsePod template p with
        | none => exact absurd hx hc
        | some d => rfl
      obtain ⟨h1, h2⟩ := (contribution_isSome_iff parsePod template p).1 hs
      exact ⟨p, hp, hd, h1, h2⟩
    · rintro ⟨p, hp, hd, h1, h2⟩
      have hs := (contribution_isSome_iff parsePod template p).2 ⟨h1, h2⟩
      refine ⟨p, hp, hd, ?_⟩
      intro hx
      rw [hx] at hs
      exact absurd hs (by simp)
  · constructor
    · intro h
      rcases hlevel with hl | hl
      · cases hf : roles.find? (fun r => decide (r.Name = roleName)) with
        | none => exact Or.inr (Or.inl rfl)
        | some r =>
          refine Or.inr (Or.inr ⟨r, rfl, ?_⟩)
          have h' := h hl r hf
          obtain ⟨hr1, hr2⟩ := hrole r hf
          rw [hcount, toInt32_of_representable _ hr1 hr2] at h'
          exact h'
      · exact Or.inl hl
    · rintro (hg | hnone | ⟨r, hr, hle⟩)
      · intro hl
        rw [hg] at hl
        exact absurd hl hgr
      · intro _ r hr
        rw [hnone] at hr
        exact absurd hr (by simp)
      · intro _ r' hr'
        rw [hr] at hr'
        cases hr'
        obtain ⟨hr1, hr2⟩ := hrole r hr
        rw [hcount, toInt32_of_representable _ hr1 hr2]
        exact hle

/-- Witness of C8 (as amended): a role with two worker replicas and its three
pods, all Running and parsed, are Completed. -/
theorem OnPodReady_status_completed_iff_witness :
    (OnPodReady.checkReadiness (fun _ ann => .ok ⟨ann, ann, [⟨"0", "192.168.1.1"⟩]⟩)
        ⟨"mindie", "role", "", "", "/etc/ranktable", "ranktable.json", "ascend.com/ranktable"⟩
        [⟨"worker", 2⟩] "worker"
        [⟨"pod-0", none, "Running", fun _ => some "10.0.0.1"⟩,
          ⟨"pod-1", none, "Running", fun _ => some "10.0.0.2"⟩,
          ⟨"pod-2", none, "Running", fun _ => some "10.0.0.3"⟩]).1 = RanktableStatusCompleted :=
  ((OnPodReady_status_completed_iff (fun _ ann => .ok ⟨ann, ann, [⟨"0", "192.168.1.1"⟩]⟩)
      ⟨"mindie", "role", "", "", "/etc/ranktable", "ranktable.json", "ascend.com/ranktable"⟩
      [⟨"worker", 2⟩] "worker"
      [⟨"pod-0", none, "Running", fun _ => some "10.0.0.1"⟩,
        ⟨"pod-1", none, "Running", fun _ => some "10.0.0.2"⟩,
        ⟨"pod-2", none, "Running", fun _ => some "10.0.0.3"⟩]
      (Or.inl rfl)
      (by intro r hr; simp [List.find?_cons] at hr; subst hr; decide)
      (by decide)).1).2
    ⟨by intro pod hpod _
        simp only [List.mem_cons, List.mem_singleton, List.not_mem_nil, or_false] at hpod
        rcases hpod with rfl | rfl | rfl <;> exact ⟨rfl, _, rfl, _, rfl⟩,
      ⟨⟨"pod-0", none, "Running", fun _ => some "10.0.0.1"⟩, by simp, rfl, rfl, _, rfl, _, rfl⟩,
      Or.inr (Or.inr ⟨⟨"worker", 2⟩, by simp [List.find?_cons], by decide⟩)⟩

/-- C8 (as stated) fails: for a role with `WorkerReplicas` 2147483647 the sum
`1 + r.WorkerReplicas` wraps to -2147483648 in `int32`, one Running and parsed
pod is not fewer than that, and the status is Completed although one pod is
fewer than 1 + 2147483647. -/
theorem OnPodReady_completed_on_int32_overflow :
    (OnPodReady.checkReadiness (fun _ ann => .ok ⟨ann, ann, [⟨"0", "192.168.1.1"⟩]⟩)
        ⟨"mindie", "role", "", "", "/etc/ranktable", "ranktable.json", "ascend.com/ranktable"⟩
        [⟨"worker", 2147483647⟩] "worker"
        [⟨"pod-0", none, "Running", fun _ => some "10.0.0.1"⟩]).1 = RanktableStatusCompleted ∧
    ¬ (("role" : String) = GroupLevelRanktable ∨
        ([⟨"worker", 2147483647⟩] : List Role).find? (fun r => decide (r.Name = "worker")) = none ∨
        ∃ r, ([⟨"worker", 2147483647⟩] : List Role).find? (fun r => decide (r.Name = "worker")) =
            some r ∧
          1 + r.WorkerReplicas ≤
            ((([⟨"pod-0", none, "Running", fun _ => some "10.0.0.1"⟩] : List Pod).filter
              (fun p => p.DeletionTimestamp.isNone)).length : Int)) := by
  refine ⟨by decide, ?_⟩
  rintro (h | h | ⟨r, hr, hle⟩)
  · exact absurd h (by decide)
  · simp [List.find?_cons] at h
  · simp [List.find?_cons] at hr
    subst hr
    simp at hle

/-- C9: pods with a DeletionTimestamp are outside the scope: the status and
the contribution list are those of the pods without one, so inserting such a
pod at any position or removing any number of them changes neither, whatever
their phase and annotations; and the active-pod counter compared with
1 + WorkerReplicas counts exactly the pods without a DeletionTimestamp. -/
theorem OnPodReady_ignores_deleting_pods
    (parsePod : String → String → Except String PodRanktableData)
    (template : RanktableTemplate) (roles : List Role) (roleName : String) (pods : List Pod) :
    OnPodReady.checkReadiness parsePod template roles roleName pods =
      OnPodReady.checkReadiness parsePod template roles roleName
        (pods.filter (fun p => p.DeletionTimestamp.isNone)) ∧
    (∀ (pre post : List Pod) (d : Pod), d.DeletionTimestamp ≠ none →
      OnPodReady.checkReadiness parsePod template roles roleName (pre ++ d :: post) =
        OnPodReady.checkReadiness parsePod template roles roleName (pre ++ post)) ∧
    (OnPodReady.podLoop parsePod template pods).activePods =
      (pods.filter (fun p => p.DeletionTimestamp.isNone)).length := by
  have hloop : ∀ l : List Pod, OnPodReady.podLoop parsePod template l =
      OnPodReady.podLoop parsePod template (l.filter (fun p => p.DeletionTimestamp.isNone)) := by
    intro l
    unfold OnPodReady.podLoop
    exact foldl_podStep_filter parsePod template l _
  have hcheck : ∀ l : List Pod, OnPodReady.checkReadiness parsePod template roles roleName l =
      OnPodReady.checkReadiness parsePod template roles roleName
        (l.filter (fun p => p.DeletionTimestamp.isNone)) := by
    intro l
    unfold OnPodReady.checkReadiness
    rw [← hloop l]
  refine ⟨hcheck pods, ?_, (podLoop_eq parsePod template pods).2.1⟩
  intro pre post d hd
  rw [hcheck (pre ++ d :: post), hcheck (pre ++ post)]
  have hdel : d.DeletionTimestamp.isNone = false := by
    cases h : d.DeletionTimestamp with
    | none => exact absurd h hd
    | some t => rfl
  simp [List.filter_append, List.filter_cons, hdel]

/-- Witness of C9: a Failed pod under deletion, carrying an annotation that
does not parse, inserted between two ready pods. -/
theorem OnPodReady_ignores_deleting_pods_witness :
    OnPodReady.checkReadiness
        (fun _ ann => if ann = "invalid json" then .error "parse" else .ok ⟨ann, ann, []⟩)
        ⟨"mindie", "group", "", "", "/etc/ranktable", "ranktable.json", "ascend.com/ranktable"⟩
        [] "worker"
        ([⟨"pod-0", none, "Running", fun _ => some "10.0.0.1"⟩] ++
          ⟨"pod-1", some "2025-01-01T00:00:00Z", "Failed", fun _ => some "invalid json"⟩ ::
          [⟨"pod-2", none, "Running", fun _ => some "10.0.0.3"⟩]) =
      OnPodReady.checkReadiness
        (fun _ ann => if ann = "invalid json" then .error "parse" else .ok ⟨ann, ann, []⟩)
        ⟨"mindie", "group", "", "", "/etc/ranktable", "ranktable.json", "ascend.com/ranktable"⟩
        [] "worker"
        ([⟨"pod-0", none, "Running", fun _ => some "10.0.0.1"⟩] ++
          [⟨"pod-2", none, "Running", fun _ => some "10.0.0.3"⟩]) :=
  (OnPodReady_ignores_deleting_pods
    (fun _ ann => if ann = "invalid json" then .error "parse" else .ok ⟨ann, ann, []⟩)
    ⟨"mindie", "group", "", "", "/etc/ranktable", "ranktable.json", "ascend.com/ranktable"⟩
    [] "worker" []).2.1
    [⟨"pod-0", none, "Running", fun _ => some "10.0.0.1"⟩]
    [⟨"pod-2", none, "Running", fun _ => some "10.0.0.3"⟩]
    ⟨"pod-1", some "2025-01-01T00:00:00Z", "Failed", fun _ => some "invalid json"⟩
    (by simp)

/-- C10: at role level, for a role found in the workload with
`WorkerReplicas = W`, `0 ≤ W` and `1 + W` representable as `int32`, if fewer
than `1 + W` pods of the scope are both without DeletionTimestamp and Running,
the status is Initializing and no contribution is handed on, whatever the
annotations parse to. -/
theorem OnPodReady_initializing_below_quorum
    (parsePod : String → String → Except String PodRanktableData)
    (template : RanktableTemplate) (roles : List Role) (roleName : String) (pods : List Pod)
    (r : Role)
    (hlevel : template.Level = RoleLevelRanktable)
    (hfound : roles.find? (fun r => decide (r.Name = roleName)) = some r)
    (hW : 0 ≤ r.WorkerReplicas) (hrep : 1 + r.WorkerReplicas ≤ 2147483647)
    (hfew : ((pods.filter (fun p => p.DeletionTimestamp.isNone &&
        decide (p.Phase = PodRunning))).length : Int) < 1 + r.WorkerReplicas) :
    OnPodReady.checkReadiness parsePod template roles roleName pods =
      (RanktableStatusInitializing, none) := by
  have hstatus : (OnPodReady.checkReadiness parsePod template roles roleName pods).1 ≠
      RanktableStatusCompleted := by
    intro hc
    rw [checkReadiness_completed_iff] at hc
    obtain ⟨hall, _, hq⟩ := hc
    obtain ⟨hall', hact, _⟩ := podLoop_eq parsePod template pods
    rw [hall'] at hall
    have hrun : pods.filter (fun p => p.DeletionTimestamp.isNone && decide (p.Phase = PodRunning)) =
        pods.filter (fun p => p.DeletionTimestamp.isNone) := by
      apply List.filter_congr
      intro p hp
      cases hd : p.DeletionTimestamp.isNone with
      | false => rfl
      | true =>
        have hp' : p ∈ pods.filter (fun p => p.DeletionTimestamp.isNone) :=
          List.mem_filter.2 ⟨hp, hd⟩
        have hs := (List.all_eq_true.1 hall) p hp'
        simpa using ((contribution_isSome_iff parsePod template p).1 hs).1
    rw [hrun] at hfew
    have h := hq hlevel r hfound
    rw [hact, toInt32_of_representable _ (by omega) hrep,
      toInt32_of_representable _ (by omega) (by omega)] at h
    omega
  have hcases : ∀ l : List Pod,
      OnPodReady.checkReadiness parsePod template roles roleName l =
        (RanktableStatusInitializing, none) ∨
      (OnPodReady.checkReadiness parsePod template roles roleName l).1 =
        RanktableStatusCompleted := by
    intro l
    unfold OnPodReady.checkReadiness
    simp only
    split_ifs <;> first | exact Or.inl rfl | exact Or.inr rfl
  exact (hcases pods).resolve_right hstatus

/-- Witness of C10: three pods of a role with two worker replicas, of which
only two are Running (and parsed). -/
theorem OnPodReady_initializing_below_quorum_witness :
    OnPodReady.checkReadiness (fun _ ann => .ok ⟨ann, ann, [⟨"0", "192.168.1.1"⟩]⟩)
        ⟨"mindie", "role", "", "", "/etc/ranktable", "ranktable.json", "ascend.com/ranktable"⟩
        [⟨"worker", 2⟩] "worker"
        [⟨"pod-0", none, "Running", fun _ => some "10.0.0.1"⟩,
          ⟨"pod-1", none, "Running", fun _ => some "10.0.0.2"⟩,
          ⟨"pod-2", none, "Pending", fun _ => none⟩] =
      (RanktableStatusInitializing, none) :=
  OnPodReady_initializing_below_quorum (fun _ ann => .ok ⟨ann, ann, [⟨"0", "192.168.1.1"⟩]⟩)
    ⟨"mindie", "role", "", "", "/etc/ranktable", "ranktable.json", "ascend.com/ranktable"⟩
    [⟨"worker", 2⟩] "worker"
    [⟨"pod-0", none, "Running", fun _ => some "10.0.0.1"⟩,
      ⟨"pod-1", none, "Running", fun _ => some "10.0.0.2"⟩,
      ⟨"pod-2", none, "Pending", fun _ => none⟩]
    ⟨"worker", 2⟩ rfl (by simp [List.find?_cons]) (by decide) (by decide) (by decide)


/-! ## EnsureRanktableConfigMap -/

theorem upToDate_single (cm : ConfigMap) (filename content : String)
    (h : cm.Data = GoMap.single filename content) : upToDate cm filename content = true := by
  simp [upToDate, h, GoMap.single, GoMap.notNil, GoMap.read, GoMap.lookup, GoMap.len]

/-- The update is skipped exactly when the data is `{filename: content}`, or
when the content is empty and the data is a single entry under another key. -/
theorem upToDate_iff (cm : ConfigMap) (filename content : String) :
    upToDate cm filename content = true ↔
      cm.Data = GoMap.single filename content ∨
      (content = "" ∧ ∃ k v, k ≠ filename ∧ cm.Data = GoMap.single k v) := by
  constructor
  · intro h
    cases hd : cm.Data with
    | mk entries =>
      cases entries with
      | none => simp [upToDate, hd, GoMap.notNil] at h
      | some l =>
        match l, hd with
        | [], hd => simp [upToDate, hd, GoMap.len] at h
        | [(k, v)], hd =>
          by_cases hk : k = filename
          · left
            subst hk
            simp [upToDate, hd, GoMap.notNil, GoMap.read, GoMap.lookup, GoMap.len] at h
            simp [GoMap.single, h]
          · right
            simp [upToDate, hd, GoMap.notNil, GoMap.read, GoMap.lookup, GoMap.len, hk] at h
            exact ⟨h.symm, k, v, hk, rfl⟩
        | _ :: _ :: _, hd => simp [upToDate, hd, GoMap.len] at h
  · rintro (h | ⟨hc, k, v, hk, h⟩)
    · exact upToDate_single cm filename content h
    · subst hc
      simp [upToDate, h, GoMap.single, GoMap.notNil, GoMap.read, GoMap.lookup, GoMap.len, hk]

theorem EnsureRanktableConfigMap_absent (s : Store) (ns name : String)
    (owners : List OwnerReference) (labels : GoMap) (filename content : String)
    (h : s ns name = none) :
    EnsureRanktableConfigMap apiServer s ns name owners labels filename content =
      { err := none,
        store := s.put ns name
          ((EnsureRanktableConfigMap.cm ns name owners labels filename content).stored 1),
        calls := [.get ns name,
          .create ns (EnsureRanktableConfigMap.cm ns name owners labels filename content)] } := by
  simp [EnsureRanktableConfigMap, apiServer, h, EnsureRanktableConfigMap.cm]

theorem EnsureRanktableConfigMap_skip (s : Store) (ns name : String)
    (owners : List OwnerReference) (labels : GoMap) (filename content : String)
    (o : StoredConfigMap) (h : s ns name = some o)
    (hu : upToDate (o.toConfigMap ns name) filename content = true) :
    EnsureRanktableConfigMap apiServer s ns name owners labels filename content =
      { err := none, store := s, calls := [.get ns name] } := by
  simp [EnsureRanktableConfigMap, apiServer, h, hu]

theorem EnsureRanktableConfigMap_update (s : Store) (ns name : String)
    (owners : List OwnerReference) (labels : GoMap) (filename content : String)
    (o : StoredConfigMap) (h : s ns name = some o)
    (hu : upToDate (o.toConfigMap ns name) filename content = false) :
    EnsureRanktableConfigMap apiServer s ns name owners labels filename content =
      { err := none,
        store := s.put ns name
          { o with ResourceVersion := o.ResourceVersion + 1,
                   Data := GoMap.single filename content },
        calls := [.get ns name,
          .update ns { o.toConfigMap ns name with Data := GoMap.single filename content }] } := by
  have hu' := hu
  simp only [StoredConfigMap.toConfigMap] at hu'
  simp [EnsureRanktableConfigMap, apiServer, h, hu', EnsureRanktableConfigMap.cm,
    StoredConfigMap.toConfigMap, ConfigMap.stored]

theorem Store.put_same (s : Store) (ns name : String) (o : StoredConfigMap) :
    (s.put ns name o) ns name = some o := by
  simp [Store.put]

/-- The read-modify-write contract, for a content that is not empty. -/
theorem EnsureRanktableConfigMap_contract (s : Store) (ns name : String)
    (owners : List OwnerReference) (labels : GoMap) (filename content : String)
    (hc : content ≠ "") :
    (s ns name = none →
      EnsureRanktableConfigMap apiServer s ns name owners labels filename content =
        { err := none,
          store := s.put ns name
            { OwnerReferences := owners, Labels := labels, ResourceVersion := 1,
              Data := GoMap.single filename content },
          calls := [.get ns name,
            .create ns { Name := name, Namespace := ns, OwnerReferences := owners,
                         Labels := labels, ResourceVersion := 0,
                         Data := GoMap.single filename content }] }) ∧
    (∀ o, s ns name = some o → o.Data = GoMap.single filename content →
      EnsureRanktableConfigMap apiServer s ns name owners labels filename content =
        { err := none, store := s, calls := [.get ns name] }) ∧
    (∀ o, s ns name = some o → o.Data ≠ GoMap.single filename content →
      EnsureRanktableConfigMap apiServer s ns name owners labels filename content =
        { err := none,
          store := s.put ns name
            { o with ResourceVersion := o.ResourceVersion + 1,
                     Data := GoMap.single filename content },
          calls := [.get ns name,
            .update ns { o.toConfigMap ns name with Data := GoMap.single filename content }] }) := by
  refine ⟨fun h => ?_, fun o h hd => ?_, fun o h hd => ?_⟩
  · rw [EnsureRanktableConfigMap_absent s ns name owners labels filename content h]
    rfl
  · exact EnsureRanktableConfigMap_skip s ns name owners labels filename content o h
      (upToDate_single _ _ _ hd)
  · apply EnsureRanktableConfigMap_update s ns name owners labels filename content o h
    cases hu : upToDate (o.toConfigMap ns name) filename content with
    | false => rfl
    | true =>
      rcases (upToDate_iff _ _ _).1 hu with h1 | ⟨h1, _⟩
      · exact absurd h1 hd
      · exact absurd h1 hc

/-- C13 (as stated) fails on a direct call with the empty content. For the
empty content and an artifact whose data is a single entry under another key,
the test `existingCM.Data[filename] == content` reads the absent key as the
empty string: the call returns nil without any write and the stored data is
still `{"old.json": "x"}`, not `{"ranktable.json": ""}`. -/
theorem EnsureRanktableConfigMap_skips_update_on_empty_content :
    (EnsureRanktableConfigMap apiServer
        (Store.empty.put "default" "test-ranktable"
          { OwnerReferences := [], Labels := GoMap.single "test" "label", ResourceVersion := 7,
            Data := GoMap.single "old.json" "x" })
        "default" "test-ranktable" [] (GoMap.single "test" "label") "ranktable.json" "").err =
      none ∧
    (EnsureRanktableConfigMap apiServer
        (Store.empty.put "default" "test-ranktable"
          { OwnerReferences := [], Labels := GoMap.single "test" "label", ResourceVersion := 7,
            Data := GoMap.single "old.json" "x" })
        "default" "test-ranktable" [] (GoMap.single "test" "label") "ranktable.json" "").calls =
      [.get "default" "test-ranktable"] ∧
    (EnsureRanktableConfigMap apiServer
        (Store.empty.put "default" "test-ranktable"
          { OwnerReferences := [], Labels := GoMap.single "test" "label", ResourceVersion := 7,
            Data := GoMap.single "old.json" "x" })
        "default" "test-ranktable" [] (GoMap.single "test" "label") "ranktable.json" "").store
        "default" "test-ranktable" =
      some { OwnerReferences := [], Labels := GoMap.single "test" "label", ResourceVersion := 7,
             Data := GoMap.single "old.json" "x" } ∧
    GoMap.single "old.json" "x" ≠ GoMap.single "ranktable.json" "" := by
  refine ⟨by decide, by decide, by decide, by decide⟩

theorem writes_of_skip (ns name : String) :
    (([ApiCall.get ns name] : List ApiCall).filter ApiCall.isWrite) = [] := by
  simp [ApiCall.isWrite]

/-- C14 (as amended): after a successful call, a second call with the same
namespace, name, filename and content issues no create and no update, returns
nil and leaves the store unchanged, whatever owner references and labels it
carries; the two calls together issue at most one write, and exactly one
unless the first call found the artifact up to date. -/
theorem EnsureRanktableConfigMap_idempotent (s : Store) (ns name : String)
    (owners owners2 : List OwnerReference) (labels labels2 : GoMap) (filename content : String)
    (hok : (EnsureRanktableConfigMap apiServer s ns name owners labels filename content).err =
      none) :
    (EnsureRanktableConfigMap apiServer
        (EnsureRanktableConfigMap apiServer s ns name owners labels filename content).store
        ns name owners2 labels2 filename content).err = none ∧
    (EnsureRanktableConfigMap apiServer
        (EnsureRanktableConfigMap apiServer s ns name owners labels filename content).store
        ns name owners2 labels2 filename content).calls = [.get ns name] ∧
    (EnsureRanktableConfigMap apiServer
        (EnsureRanktableConfigMap apiServer s ns name owners labels filename content).store
        ns name owners2 labels2 filename content).store =
      (EnsureRanktableConfigMap apiServer s ns name owners labels filename content).store ∧
    (((EnsureRanktableConfigMap apiServer s ns name owners labels filename content).calls ++
      (EnsureRanktableConfigMap apiServer
        (EnsureRanktableConfigMap apiServer s ns name owners labels filename content).store
        ns name owners2 labels2 filename content).calls).filter ApiCall.isWrite).length ≤ 1 ∧
    ((((EnsureRanktableConfigMap apiServer s ns name owners labels filename content).calls ++
      (EnsureRanktableConfigMap apiServer
        (EnsureRanktableConfigMap apiServer s ns name owners labels filename content).store
        ns name owners2 labels2 filename content).calls).filter ApiCall.isWrite).length = 1 ↔
      ¬ ∃ o, s ns name = some o ∧ upToDate (o.toConfigMap ns name) filename content = true) := by
  have _ := hok
  cases h : s ns name with
  | none =>
    rw [EnsureRanktableConfigMap_absent s ns name owners labels filename content h]
    simp only
    rw [EnsureRanktableConfigMap_skip _ ns name owners2 labels2 filename content
      ((EnsureRanktableConfigMap.cm ns name owners labels filename content).stored 1)
      (Store.put_same s ns name _) (upToDate_single _ _ _ rfl)]
    simp [ApiCall.isWrite]
  | some o =>
    cases hu : upToDate (o.toConfigMap ns name) filename content with
    | true =>
      rw [EnsureRanktableConfigMap_skip s ns name owners labels filename content o h hu]
      simp only
      rw [EnsureRanktableConfigMap_skip s ns name owners2 labels2 filename content o h hu]
      simp [ApiCall.isWrite, hu]
    | false =>
      rw [EnsureRanktableConfigMap_update s ns name owners labels filename content o h hu]
      simp only
      rw [EnsureRanktableConfigMap_skip _ ns name owners2 labels2 filename content
        { o with ResourceVersion := o.ResourceVersion + 1,
                 Data := GoMap.single filename content }
        (Store.put_same s ns name _) (upToDate_single _ _ _ rfl)]
      simp [ApiCall.isWrite, hu]

/-- Witness of C14 (as amended): create on the empty store, then the same call again. -/
theorem EnsureRanktableConfigMap_idempotent_witness :
    (EnsureRanktableConfigMap apiServer
        (EnsureRanktableConfigMap apiServer Store.empty "default" "test-ranktable" []
          (GoMap.single "test" "label") "ranktable.json" "1.0").store
        "default" "test-ranktable" [] (GoMap.single "test" "label") "ranktable.json" "1.0").calls =
      [.get "default" "test-ranktable"] :=
  (EnsureRanktableConfigMap_idempotent Store.empty "default" "test-ranktable" [] []
    (GoMap.single "test" "label") (GoMap.single "test" "label") "ranktable.json" "1.0"
    (by decide)).2.1

/-- C14 (as stated) fails in its last clause: when the artifact already holds
`{filename: content}` the first call writes nothing either, and two calls with
identical content result in no write at all, not in exactly one. -/
theorem EnsureRanktableConfigMap_two_calls_no_write :
    (EnsureRanktableConfigMap apiServer
        (Store.empty.put "default" "test-ranktable"
          { OwnerReferences := [], Labels := GoMap.single "test" "label", ResourceVersion := 1,
            Data := GoMap.single "ranktable.json" "1.0" })
        "default" "test-ranktable" [] (GoMap.single "test" "label") "ranktable.json" "1.0").err =
      none ∧
    (((EnsureRanktableConfigMap apiServer
        (Store.empty.put "default" "test-ranktable"
          { OwnerReferences := [], Labels := GoMap.single "test" "label", ResourceVersion := 1,
            Data := GoMap.single "ranktable.json" "1.0" })
        "default" "test-ranktable" [] (GoMap.single "test" "label") "ranktable.json" "1.0").calls ++
      (EnsureRanktableConfigMap apiServer
        (EnsureRanktableConfigMap apiServer
          (Store.empty.put "default" "test-ranktable"
            { OwnerReferences := [], Labels := GoMap.single "test" "label", ResourceVersion := 1,
              Data := GoMap.single "ranktable.json" "1.0" })
          "default" "test-ranktable" [] (GoMap.single "test" "label") "ranktable.json" "1.0").store
        "default" "test-ranktable" [] (GoMap.single "test" "label") "ranktable.json"
          "1.0").calls).filter ApiCall.isWrite).length = 0 := by
  refine ⟨by decide, by decide⟩

/-- C15: a call makes a single attempt. It issues one get, first, and at most
one write; it returns an error exactly when the get fails with an error other
than NotFound, or the create fails, or the update fails, whatever the error
(AlreadyExists and Conflict included); and then it returns the error of the
failed call and leaves the store as that call left it. -/
theorem EnsureRanktableConfigMap_single_attempt {σ : Type} (K : Client σ) (s : σ)
    (ns name : String) (owners : List OwnerReference) (labels : GoMap)
    (filename content : String) :
    ((EnsureRanktableConfigMap K s ns name owners labels filename content).calls.filter
      ApiCall.isWrite).length ≤ 1 ∧
    (EnsureRanktableConfigMap K s ns name owners labels filename content).calls.filter
      (fun c => !c.isWrite) = [.get ns name] ∧
    ((EnsureRanktableConfigMap K s ns name owners labels filename content).err ≠ none ↔
      (∃ e, (K.get s ns name).1 = .error e ∧ e ≠ .notFound) ∨
      ((K.get s ns name).1 = .error .notFound ∧
        ∃ e, (K.create (K.get s ns name).2 ns
          (EnsureRanktableConfigMap.cm ns name owners labels filename content)).1 = .error e) ∨
      (∃ ex, (K.get s ns name).1 = .ok ex ∧ upToDate ex filename content = false ∧
        ∃ e, (K.update (K.get s ns name).2 ns
          { ex with Data := GoMap.single filename content }).1 = .error e)) ∧
    (∀ e, (K.get s ns name).1 = .error e → e ≠ .notFound →
      (EnsureRanktableConfigMap K s ns name owners labels filename content).err = some e ∧
      (EnsureRanktableConfigMap K s ns name owners labels filename content).store =
        (K.get s ns name).2) ∧
    ((K.get s ns name).1 = .error .notFound →
      ∀ e, (K.create (K.get s ns name).2 ns
          (EnsureRanktableConfigMap.cm ns name owners labels filename content)).1 = .error e →
      (EnsureRanktableConfigMap K s ns name owners labels filename content).err = some e ∧
      (EnsureRanktableConfigMap K s ns name owners labels filename content).store =
        (K.create (K.get s ns name).2 ns
          (EnsureRanktableConfigMap.cm ns name owners labels filename content)).2) ∧
    (∀ ex, (K.get s ns name).1 = .ok ex → upToDate ex filename content = false →
      ∀ e, (K.update (K.get s ns name).2 ns
          { ex with Data := GoMap.single filename content }).1 = .error e →
      (EnsureRanktableConfigMap K s ns name owners labels filename content).err = some e ∧
      (EnsureRanktableConfigMap K s ns name owners labels filename content).store =
        (K.update (K.get s ns name).2 ns
          { ex with Data := GoMap.single filename content }).2) := by
  unfold EnsureRanktableConfigMap
  rcases hg : K.get s ns name with ⟨g, s1⟩
  cases g with
  | error e =>
    by_cases hnf : e = .notFound
    · subst hnf
      rcases hc : K.create s1 ns
        (EnsureRanktableConfigMap.cm ns name owners labels filename content) with ⟨c, s2⟩
      cases c with
      | error e2 => simp [hc, ApiCall.isWrite]
      | ok cm2 => simp [hc, ApiCall.isWrite]
    · simp [hnf, ApiCall.isWrite]
  | ok ex =>
    cases hu : upToDate ex filename content with
    | true => simp [hu, ApiCall.isWrite]
    | false =>
      rcases hc : K.update s1 ns
        { ex with Data := (EnsureRanktableConfigMap.cm ns name owners labels filename content).Data }
        with ⟨c, s2⟩
      have hc' : K.update s1 ns { ex with Data := GoMap.single filename content } = (c, s2) := hc
      cases c with
      | error e2 => simp [hu, hc, hc', ApiCall.isWrite, EnsureRanktableConfigMap.cm]
      | ok cm2 => simp [hu, hc, hc', ApiCall.isWrite, EnsureRanktableConfigMap.cm]

/-- Witness of C15: a create refused with AlreadyExists, as when another
caller created the artifact between the get and the create. -/
theorem EnsureRanktableConfigMap_single_attempt_witness :
    (EnsureRanktableConfigMap (refusingClient .alreadyExists) Store.empty "default"
        "test-ranktable" [] (GoMap.single "test" "label") "ranktable.json" "1.0").err =
      some .alreadyExists ∧
    (EnsureRanktableConfigMap (refusingClient .alreadyExists) Store.empty "default"
        "test-ranktable" [] (GoMap.single "test" "label") "ranktable.json" "1.0").store =
      ((refusingClient .alreadyExists).create
        ((refusingClient .alreadyExists).get Store.empty "default" "test-ranktable").2 "default"
        (EnsureRanktableConfigMap.cm "default" "test-ranktable" [] (GoMap.single "test" "label")
          "ranktable.json" "1.0")).2 :=
  (EnsureRanktableConfigMap_single_attempt (refusingClient .alreadyExists) Store.empty "default"
    "test-ranktable" [] (GoMap.single "test" "label") "ranktable.json" "1.0").2.2.2.2.1
    rfl .alreadyExists rfl

/-! ## Concurrent calls -/

/-- A call is its get followed by the write decided on: the two store calls
the schedule of a race interleaves. -/
theorem EnsureRanktableConfigMap_eq_steps {σ : Type} (K : Client σ) (s : σ) (a : EnsureArgs) :
    (EnsureRanktableConfigMap K s a.ns a.name a.ownerReferences a.labels a.filename
        a.content).err =
      (EnsureRanktableConfigMap.writeStep K
        (EnsureRanktableConfigMap.readStep K s a.ns a.name a.ownerReferences a.labels a.filename
          a.content).2 a.ns
        (EnsureRanktableConfigMap.readStep K s a.ns a.name a.ownerReferences a.labels a.filename
          a.content).1).1 ∧
    (EnsureRanktableConfigMap K s a.ns a.name a.ownerReferences a.labels a.filename
        a.content).store =
      (EnsureRanktableConfigMap.writeStep K
        (EnsureRanktableConfigMap.readStep K s a.ns a.name a.ownerReferences a.labels a.filename
          a.content).2 a.ns
        (EnsureRanktableConfigMap.readStep K s a.ns a.name a.ownerReferences a.labels a.filename
          a.content).1).2 := by
  unfold EnsureRanktableConfigMap EnsureRanktableConfigMap.readStep
  rcases hg : K.get s a.ns a.name with ⟨g, s1⟩
  cases g with
  | error e =>
    by_cases hnf : e = .notFound
    · subst hnf
      rcases hc : K.create s1 a.ns
        (EnsureRanktableConfigMap.cm a.ns a.name a.ownerReferences a.labels a.filename a.content)
        with ⟨c, s2⟩
      cases c <;> simp [EnsureRanktableConfigMap.writeStep, hc]
    · simp [hnf, EnsureRanktableConfigMap.writeStep]
  | ok ex =>
    cases hu : upToDate ex a.filename a.content with
    | true => simp [hu, EnsureRanktableConfigMap.writeStep]
    | false =>
      rcases hc : K.update s1 a.ns
        { ex with Data := (EnsureRanktableConfigMap.cm a.ns a.name a.ownerReferences a.labels
            a.filename a.content).Data } with ⟨c, s2⟩
      cases c <;> simp [hu, EnsureRanktableConfigMap.writeStep, hc]

theorem schedule_cases (sched : List Bool) (h1 : sched.count true = 2)
    (h2 : sched.count false = 2) :
    sched = [true, true, false, false] ∨ sched = [true, false, true, false] ∨
    sched = [true, false, false, true] ∨ sched = [false, true, true, false] ∨
    sched = [false, true, false, true] ∨ sched = [false, false, true, true] := by
  have hlen : sched.length = 4 := by
    have := List.count_true_add_count_false sched
    omega
  match sched, hlen with
  | [a, b, c, d], _ =>
    revert h1 h2
    cases a <;> cases b <;> cases c <;> cases d <;> decide

theorem readStep_absent (s : Store) (ns name : String) (owners : List OwnerReference)
    (labels : GoMap) (filename content : String) (h : s ns name = none) :
    EnsureRanktableConfigMap.readStep apiServer s ns name owners labels filename content =
      (.create (EnsureRanktableConfigMap.cm ns name owners labels filename content), s) := by
  simp [EnsureRanktableConfigMap.readStep, apiServer, h]

theorem readStep_present (s : Store) (ns name : String) (owners : List OwnerReference)
    (labels : GoMap) (filename content : String) (o : StoredConfigMap)
    (h : s ns name = some o) :
    EnsureRanktableConfigMap.readStep apiServer s ns name owners labels filename content =
      if upToDate (o.toConfigMap ns name) filename content then (.done none, s)
      else (.update { o.toConfigMap ns name with Data := GoMap.single filename content }, s) := by
  simp [EnsureRanktableConfigMap.readStep, apiServer, h, EnsureRanktableConfigMap.cm]

theorem writeStep_create_absent (s : Store) (ns : String) (cm : ConfigMap)
    (h : s ns cm.Name = none) :
    EnsureRanktableConfigMap.writeStep apiServer s ns (.create cm) =
      (none, s.put ns cm.Name (cm.stored 1)) := by
  simp [EnsureRanktableConfigMap.writeStep, apiServer, h]

theorem writeStep_create_present (s : Store) (ns : String) (cm : ConfigMap)
    (o : StoredConfigMap) (h : s ns cm.Name = some o) :
    EnsureRanktableConfigMap.writeStep apiServer s ns (.create cm) =
      (some .alreadyExists, s) := by
  simp [EnsureRanktableConfigMap.writeStep, apiServer, h]

theorem upToDate_stored_single (ns name filename content content2 : String)
    (owners : List OwnerReference) (labels : GoMap) (rv : Nat) :
    upToDate ((StoredConfigMap.mk owners labels rv
        (GoMap.single filename content)).toConfigMap ns name)
      filename content2 = decide (content = content2) := by
  simp [upToDate, StoredConfigMap.toConfigMap, GoMap.single, GoMap.notNil, GoMap.read,
    GoMap.lookup, GoMap.len]

/-- C16: two concurrent calls for the same new artifact name and the same
filename, their store calls interleaved in any order. Both calls return;
exactly one create succeeds; a call whose create is refused with AlreadyExists
leaves the artifact of the first writer in the store and, retried as a whole,
returns nil with the artifact holding `{filename: content}` of the retried call,
the last writer; when both calls carry the same content the retry issues no
write and leaves the store, that is the first writer's content, unchanged. -/
theorem EnsureRanktableConfigMap_race (s : Store) (a b : EnsureArgs) (sched : List Bool)
    (hns : b.ns = a.ns) (hname : b.name = a.name) (hfile : b.filename = a.filename)
    (hnew : s a.ns a.name = none)
    (h1 : sched.count true = 2) (h2 : sched.count false = 2) :
    (∃ eA eB, (raceFromStart apiServer a b sched s).first = .returned eA ∧
      (raceFromStart apiServer a b sched s).second = .returned eB) ∧
    (successfulCreates (raceFromStart apiServer a b sched s).writes).length = 1 ∧
    ((raceFromStart apiServer a b sched s).first = .returned (some .alreadyExists) →
      (raceFromStart apiServer a b sched s).store a.ns a.name =
        some { OwnerReferences := b.ownerReferences, Labels := b.labels, ResourceVersion := 1,
               Data := GoMap.single a.filename b.content } ∧
      (a.call apiServer (raceFromStart apiServer a b sched s).store).err = none ∧
      ((a.call apiServer (raceFromStart apiServer a b sched s).store).store a.ns a.name).map
        (fun o => o.Data) = some (GoMap.single a.filename a.content) ∧
      (a.content = b.content →
        (a.call apiServer (raceFromStart apiServer a b sched s).store).calls =
          [.get a.ns a.name] ∧
        (a.call apiServer (raceFromStart apiServer a b sched s).store).store =
          (raceFromStart apiServer a b sched s).store)) ∧
    ((raceFromStart apiServer a b sched s).second = .returned (some .alreadyExists) →
      (raceFromStart apiServer a b sched s).store a.ns a.name =
        some { OwnerReferences := a.ownerReferences, Labels := a.labels, ResourceVersion := 1,
               Data := GoMap.single a.filename a.content } ∧
      (b.call apiServer (raceFromStart apiServer a b sched s).store).err = none ∧
      ((b.call apiServer (raceFromStart apiServer a b sched s).store).store a.ns a.name).map
        (fun o => o.Data) = some (GoMap.single a.filename b.content) ∧
      (a.content = b.content →
        (b.call apiServer (raceFromStart apiServer a b sched s).store).calls =
          [.get a.ns a.name] ∧
        (b.call apiServer (raceFromStart apiServer a b sched s).store).store =
          (raceFromStart apiServer a b sched s).store)) := by
  obtain ⟨nsA, nameA, ownersA, labelsA, fileA, contentA⟩ := a
  obtain ⟨nsB, nameB, ownersB, labelsB, fileB, contentB⟩ := b
  simp only at hns hname hfile hnew
  subst hns hname hfile
  rcases schedule_cases sched h1 h2 with rfl | rfl | rfl | rfl | rfl | rfl <;>
    by_cases hc : contentA = contentB <;>
    (have hc2 : (contentB = contentA) = (contentA = contentB) := propext eq_comm
     simp [raceFromStart, race, CallState.step, EnsureRanktableConfigMap.readStep,
      EnsureRanktableConfigMap.writeStep, apiServer, Store.put, hnew, EnsureRanktableConfigMap.cm,
      EnsurePhase.event, upToDate, GoMap.single, GoMap.notNil, GoMap.read, GoMap.lookup,
      GoMap.len, ConfigMap.stored, StoredConfigMap.toConfigMap, successfulCreates,
      EnsureArgs.call, EnsureRanktableConfigMap, hc2, hc])

/-- Witness of C16: both calls get NotFound before either creates; the create
of the second call is refused, and its retry updates the artifact to its own
content. -/
theorem EnsureRanktableConfigMap_race_witness :
    (raceFromStart apiServer
        ⟨"default", "test-ranktable", [], GoMap.single "test" "label", "ranktable.json", "1.0"⟩
        ⟨"default", "test-ranktable", [], GoMap.single "test" "label", "ranktable.json", "2.0"⟩
        [true, false, true, false] Store.empty).second = .returned (some .alreadyExists) ∧
    ((EnsureArgs.call apiServer
        (raceFromStart apiServer
          ⟨"default", "test-ranktable", [], GoMap.single "test" "label", "ranktable.json", "1.0"⟩
          ⟨"default", "test-ranktable", [], GoMap.single "test" "label", "ranktable.json", "2.0"⟩
          [true, false, true, false] Store.empty).store
        ⟨"default", "test-ranktable", [], GoMap.single "test" "label", "ranktable.json",
          "2.0"⟩).store "default" "test-ranktable").map (fun o => o.Data) =
      some (GoMap.single "ranktable.json" "2.0") :=
  ⟨by decide,
    ((EnsureRanktableConfigMap_race Store.empty
      ⟨"default", "test-ranktable", [], GoMap.single "test" "label", "ranktable.json", "1.0"⟩
      ⟨"default", "test-ranktable", [], GoMap.single "test" "label", "ranktable.json", "2.0"⟩
      [true, false, true, false] rfl rfl rfl rfl (by decide) (by decide)).2.2.2
        (by decide)).2.2.1⟩

/-! ## GetRanktableTemplate -/

theorem GoMap.read_eq_empty_iff (m : GoMap) (k : String) :
    m.read k = "" ↔ m.lookup k = none ∨ m.lookup k = some "" := by
  unfold GoMap.read
  cases h : m.lookup k with
  | none => simp
  | some v => simp

/-- C17: the resolution fails, returning no template, exactly when the named
template document is absent from the template namespace, or its
"pod-parser-template" field is missing or empty, or the parser document it
names is absent from the template namespace, or its "ranktable-level" field is
neither "role" nor "group" (an absent field reads as the empty string). It
fails on the empty store and on a template document that names the parser
"non-existent-parser". -/
theorem GetRanktableTemplate_error_iff (tm : TemplateManager) (lister : Store)
    (templateName : String) :
    ((∃ e, GetRanktableTemplate tm lister templateName = .error e) ↔
      lister tm.templateNamespace templateName = none ∨
      ∃ cm, lister tm.templateNamespace templateName = some cm ∧
        (cm.Data.lookup "pod-parser-template" = none ∨
          cm.Data.lookup "pod-parser-template" = some "" ∨
          lister tm.templateNamespace (cm.Data.read "pod-parser-template") = none ∨
          (cm.Data.read "ranktable-level" ≠ "role" ∧
            cm.Data.read "ranktable-level" ≠ "group"))) ∧
    (∃ e, GetRanktableTemplate (NewTemplateManager "kthena-system") Store.empty "non-existent" =
      .error e) ∧
    (∃ e, GetRanktableTemplate (NewTemplateManager "kthena-system")
      (Store.empty.put "kthena-system" "test-template"
        { OwnerReferences := [], Labels := { entries := none }, ResourceVersion := 1,
          Data := { entries := some [("pod-parser-template", "non-existent-parser"),
            ("ranktable-template", "1.0")] } })
      "test-template" = .error e) := by
  refine ⟨?_, ⟨_, rfl⟩, ?_⟩
  · unfold GetRanktableTemplate
    cases h1 : lister tm.templateNamespace templateName with
    | none => simp
    | some cm =>
      simp only [reduceCtorEq, Option.some.injEq, exists_eq_left', false_or]
      by_cases h2 : cm.Data.read "pod-parser-template" = ""
      · have h2' := (GoMap.read_eq_empty_iff _ _).1 h2
        simp only [h2, if_true]
        constructor
        · intro _
          rcases h2' with h | h
          · exact Or.inl h
          · exact Or.inr (Or.inl h)
        · intro _; exact ⟨_, rfl⟩
      · have h2' : ¬ (cm.Data.lookup "pod-parser-template" = none ∨
            cm.Data.lookup "pod-parser-template" = some "") :=
          fun h => h2 ((GoMap.read_eq_empty_iff _ _).2 h)
        simp only [h2, if_false]
        cases h3 : lister tm.templateNamespace (cm.Data.read "pod-parser-template") with
        | none =>
          constructor
          · intro _; exact Or.inr (Or.inr (Or.inl rfl))
          · intro _; exact ⟨_, rfl⟩
        | some parserCM =>
          dsimp only
          by_cases h4 : cm.Data.read "ranktable-level" ≠ RoleLevelRanktable ∧
              cm.Data.read "ranktable-level" ≠ GroupLevelRanktable
          · rw [if_pos h4]
            constructor
            · intro _; exact Or.inr (Or.inr (Or.inr h4))
            · intro _; exact ⟨_, rfl⟩
          · rw [if_neg h4]
            constructor
            · rintro ⟨e, he⟩; exact absurd he (by simp)
            · rintro (h | h | h | h)
              · exact absurd (Or.inl h) h2'
              · exact absurd (Or.inr h) h2'
              · exact absurd h (by simp)
              · exact absurd h h4
  · exact ⟨_, rfl⟩


/-- C18: a template returned by `GetRanktableTemplate` takes `Level`,
`InferenceEngine`, `RanktableTemplate`, `MountPath` and `Filename` from the
fields "ranktable-level", "inference-engine", "ranktable-template",
"mount-path" and "filename" of the template document, `PodParserTemplate` from
"parser-template" of the parser document the template document names, and
`PodAnnotationName` from the parser document's "annotation-name" when that is
not empty, and is "ascend.com/ranktable" otherwise. -/
theorem GetRanktableTemplate_fields (tm : TemplateManager) (lister : Store)
    (templateName : String) (t : RanktableTemplate)
    (h : GetRanktableTemplate tm lister templateName = .ok t) :
    ∃ templateCM parserCM,
      lister tm.templateNamespace templateName = some templateCM ∧
      lister tm.templateNamespace (templateCM.Data.read "pod-parser-template") = some parserCM ∧
      t.Level = templateCM.Data.read "ranktable-level" ∧
      t.InferenceEngine = templateCM.Data.read "inference-engine" ∧
      t.RanktableTemplate = templateCM.Data.read "ranktable-template" ∧
      t.MountPath = templateCM.Data.read "mount-path" ∧
      t.Filename = templateCM.Data.read "filename" ∧
      t.PodParserTemplate = parserCM.Data.read "parser-template" ∧
      (parserCM.Data.read "annotation-name" ≠ "" →
        t.PodAnnotationName = parserCM.Data.read "annotation-name") ∧
      (parserCM.Data.read "annotation-name" = "" →
        t.PodAnnotationName = "ascend.com/ranktable") := by
  unfold GetRanktableTemplate at h
  cases h1 : lister tm.templateNamespace templateName with
  | none => rw [h1] at h; exact absurd h (by simp)
  | some cm =>
    rw [h1] at h
    dsimp only at h
    by_cases h2 : cm.Data.read "pod-parser-template" = ""
    · rw [if_pos h2] at h; exact absurd h (by simp)
    · rw [if_neg h2] at h
      cases h3 : lister tm.templateNamespace (cm.Data.read "pod-parser-template") with
      | none => rw [h3] at h; exact absurd h (by simp)
      | some parserCM =>
        rw [h3] at h
        dsimp only at h
        by_cases h4 : cm.Data.read "ranktable-level" ≠ RoleLevelRanktable ∧
            cm.Data.read "ranktable-level" ≠ GroupLevelRanktable
        · rw [if_pos h4] at h; exact absurd h (by simp)
        · rw [if_neg h4] at h
          have ht : t = _ := (Except.ok.inj h).symm
          subst ht
          refine ⟨cm, parserCM, rfl, h3, rfl, rfl, rfl, rfl, rfl, rfl, ?_, ?_⟩
          · intro hne; simp [hne]
          · intro he; simp [he, PodRanktableAnnotation]

/-- Witness of C18: the template and parser documents of the test "get valid
ranktable template with parser". -/
theorem GetRanktableTemplate_fields_witness :
    GetRanktableTemplate (NewTemplateManager "kthena-system")
      ((Store.empty.put "kthena-system" "test-parser"
        { OwnerReferences := [], Labels := { entries := none }, ResourceVersion := 1,
          Data := { entries := some [("annotation-name", "test.io/annotation"),
            ("parser-template", "podName: pod")] } }).put "kthena-system" "test-template"
        { OwnerReferences := [], Labels := { entries := none }, ResourceVersion := 1,
          Data := { entries := some [("inference-engine", "mindie"), ("ranktable-level", "role"),
            ("pod-parser-template", "test-parser"), ("ranktable-template", "1.0"),
            ("mount-path", "/etc/ranktable"), ("filename", "ranktable.json")] } })
      "test-template" =
      .ok { InferenceEngine := "mindie", Level := "role", PodParserTemplate := "podName: pod",
            RanktableTemplate := "1.0", MountPath := "/etc/ranktable",
            Filename := "ranktable.json", PodAnnotationName := "test.io/annotation" } ∧
    ∃ templateCM parserCM : StoredConfigMap,
      "/etc/ranktable" = templateCM.Data.read "mount-path" ∧
      "podName: pod" = parserCM.Data.read "parser-template" :=
  ⟨rfl,
    (GetRanktableTemplate_fields (NewTemplateManager "kthena-system")
      ((Store.empty.put "kthena-system" "test-parser"
        { OwnerReferences := [], Labels := { entries := none }, ResourceVersion := 1,
          Data := { entries := some [("annotation-name", "test.io/annotation"),
            ("parser-template", "podName: pod")] } }).put "kthena-system" "test-template"
        { OwnerReferences := [], Labels := { entries := none }, ResourceVersion := 1,
          Data := { entries := some [("inference-engine", "mindie"), ("ranktable-level", "role"),
            ("pod-parser-template", "test-parser"), ("ranktable-template", "1.0"),
            ("mount-path", "/etc/ranktable"), ("filename", "ranktable.json")] } })
      "test-template"
      { InferenceEngine := "mindie", Level := "role", PodParserTemplate := "podName: pod",
        RanktableTemplate := "1.0", MountPath := "/etc/ranktable",
        Filename := "ranktable.json", PodAnnotationName := "test.io/annotation" } rfl).elim
      (fun templateCM h => h.elim (fun parserCM h =>
        ⟨templateCM, parserCM, h.2.2.2.2.2.1, h.2.2.2.2.2.2.2.1⟩))⟩

/-! ## ParsePodRanktable and RenderRanktable -/

/-- The empty parser template yields the zero contribution on every payload,
with every library. -/
theorem ParsePodRanktable_empty_template (L : Libs) (payload : String) :
    ParsePodRanktable L "" payload = .ok { PodName := "", ServerId := "", Devices := [] } := by
  unfold ParsePodRanktable
  rw [(L.template_empty "pod-parser" parserFuncs (.ofPayload payload)).1]
  simp only
  rw [(L.template_empty "pod-parser" parserFuncs (.ofPayload payload)).2]
  simp only
  rw [L.yaml_empty]

/-- C20: `RenderRanktable` returns a nil error only with the text the template
evaluates to, and only when that text is valid JSON; when the template fails
to parse or to execute, or its output is not valid JSON, it returns an error
and the empty string. -/
theorem RenderRanktable_valid (L : Libs) (ranktableTemplate : String)
    (data : RanktableTemplateData) :
    (∀ out, RenderRanktable L ranktableTemplate data = (out, none) →
      L.templateParse "ranktable" renderFuncs ranktableTemplate = none ∧
      L.templateExecute "ranktable" renderFuncs ranktableTemplate (.document data) = .ok out ∧
      L.jsonValid out = true) ∧
    (L.templateParse "ranktable" renderFuncs ranktableTemplate ≠ none →
      (RenderRanktable L ranktableTemplate data).1 = "" ∧
      (RenderRanktable L ranktableTemplate data).2 ≠ none) ∧
    (∀ e, L.templateExecute "ranktable" renderFuncs ranktableTemplate (.document data) =
        .error e →
      (RenderRanktable L ranktableTemplate data).1 = "" ∧
      (RenderRanktable L ranktableTemplate data).2 ≠ none) ∧
    (∀ out, L.templateExecute "ranktable" renderFuncs ranktableTemplate (.document data) =
        .ok out → L.jsonValid out = false →
      (RenderRanktable L ranktableTemplate data).1 = "" ∧
      (RenderRanktable L ranktableTemplate data).2 ≠ none) ∧
    ((RenderRanktable L ranktableTemplate data).2 ≠ none →
      (RenderRanktable L ranktableTemplate data).1 = "") := by
  unfold RenderRanktable
  cases h1 : L.templateParse "ranktable" renderFuncs ranktableTemplate with
  | some e => simp
  | none =>
    cases h2 : L.templateExecute "ranktable" renderFuncs ranktableTemplate (.document data) with
    | error e => simp
    | ok buf =>
      cases h3 : L.jsonUnmarshal buf with
      | some e => simp [h3]
      | none =>
        have hv := L.json_sound buf h3
        simp only [h3]
        refine ⟨fun out ho => ?_, fun h => absurd h (by simp), fun e he => absurd he (by simp),
          fun out ho hf => ?_, fun h => absurd rfl h⟩
        · have hb : buf = out := congrArg Prod.fst ho
          subst hb
          exact ⟨trivial, rfl, hv⟩
        · have hb : buf = out := Except.ok.inj ho
          subst hb
          rw [hf] at hv
          exact absurd hv (by simp)

/-- Witness of C20: a template without action whose text is valid JSON. -/
theorem RenderRanktable_valid_witness :
    RenderRanktable basicLibs "null"
        { Status := "Initializing", ServerCount := 0, TotalDevices := 0, Timestamp := "t",
          Servers := some [] } = ("null", none) ∧
    basicLibs.jsonValid "null" = true :=
  ⟨rfl,
    ((RenderRanktable_valid basicLibs "null"
      { Status := "Initializing", ServerCount := 0, TotalDevices := 0, Timestamp := "t",
        Servers := some [] }).1 "null" rfl).2.2⟩

/-! ## The hook OnPodReady -/

theorem checkReadiness_initializing
    (parsePod : String → String → Except String PodRanktableData)
    (template : RanktableTemplate) (roles : List Role) (roleName : String) (pods : List Pod)
    (h : (OnPodReady.checkReadiness parsePod template roles roleName pods).1 =
      RanktableStatusInitializing) :
    OnPodReady.checkReadiness parsePod template roles roleName pods =
      (RanktableStatusInitializing, none) := by
  have hne : RanktableStatusCompleted ≠ RanktableStatusInitializing := by decide
  unfold OnPodReady.checkReadiness at h ⊢
  simp only at h ⊢
  split_ifs at h ⊢ <;> first | rfl | exact absurd h hne

theorem templateData_initializing (S : SliceSorter) (now : String)
    (parsePod : String → String → Except String PodRanktableData)
    (template : RanktableTemplate) (roles : List Role) (roleName : String) (pods : List Pod)
    (h : (OnPodReady.checkReadiness parsePod template roles roleName pods).1 =
      RanktableStatusInitializing) :
    OnPodReady.templateData S now parsePod template roles roleName pods =
      { Status := "Initializing", ServerCount := 0, TotalDevices := 0, Timestamp := now,
        Servers := some [] } := by
  unfold OnPodReady.templateData
  rw [checkReadiness_initializing parsePod template roles roleName pods h]
  rfl

/-- The hook after the template is resolved and the pods are listed: it
renders the document of the pass and upserts what is rendered. -/
theorem OnPodReady_of_listed {σ : Type} (p : RanktablePlugin) (S : SliceSorter) (now : String)
    (L : Libs) (C : WorkloadConsts) (K : Client σ) (req : HookRequest) (s : σ)
    (resolved : RanktableTemplate) (pods : List Pod)
    (ht : GetRanktableTemplate p.templateManager req.ConfigMapLister p.cfg.Template =
      .ok resolved)
    (hl : req.PodLister req.ModelServing.Namespace
      (OnPodReady.labelSet C (overrideLevel resolved req.ModelServing.Annotations) req) =
      .ok pods) :
    p.OnPodReady S now L C K req s =
      match RenderRanktable L (overrideLevel resolved req.ModelServing.Annotations).RanktableTemplate
        (OnPodReady.templateData S now (ParsePodRanktable L)
          (overrideLevel resolved req.ModelServing.Annotations) req.ModelServing.Roles
          req.RoleName pods) with
      | (_, some e) =>
        { err := some (.render ("failed to render ranktable: " ++ e)), store := s, calls := [] }
      | (ranktableJSON, none) =>
        { err := (OnPodReady.upsert C K req s
            (overrideLevel resolved req.ModelServing.Annotations) ranktableJSON).err.map
              HookError.store,
          store := (OnPodReady.upsert C K req s
            (overrideLevel resolved req.ModelServing.Annotations) ranktableJSON).store,
          calls := (OnPodReady.upsert C K req s
            (overrideLevel resolved req.ModelServing.Annotations) ranktableJSON).calls } := by
  unfold RanktablePlugin.OnPodReady
  rw [ht]
  simp only
  rw [hl]

/-- Once the template is resolved and the pods are listed, the hook returns
nil exactly when the document of the pass renders and the upsert of the
rendered content returns nil; its error is otherwise that of the renderer or of
the store, and when the document renders the calls it issues are those of the
upsert. -/
theorem OnPodReady_outcome {σ : Type} (p : RanktablePlugin) (S : SliceSorter) (now : String)
    (L : Libs) (C : WorkloadConsts) (K : Client σ) (req : HookRequest) (s : σ)
    (resolved : RanktableTemplate) (pods : List Pod)
    (ht : GetRanktableTemplate p.templateManager req.ConfigMapLister p.cfg.Template =
      .ok resolved)
    (hl : req.PodLister req.ModelServing.Namespace
      (OnPodReady.labelSet C (overrideLevel resolved req.ModelServing.Annotations) req) =
      .ok pods) :
    ((p.OnPodReady S now L C K req s).err = none ↔
      ∃ json, RenderRanktable L
          (overrideLevel resolved req.ModelServing.Annotations).RanktableTemplate
          (OnPodReady.templateData S now (ParsePodRanktable L)
            (overrideLevel resolved req.ModelServing.Annotations) req.ModelServing.Roles
            req.RoleName pods) = (json, none) ∧
        (OnPodReady.upsert C K req s (overrideLevel resolved req.ModelServing.Annotations)
          json).err = none) ∧
    (∀ e, (p.OnPodReady S now L C K req s).err = some e →
      (∃ msg, e = .render msg) ∨ (∃ cause, e = .store cause)) ∧
    (∀ json, RenderRanktable L
          (overrideLevel resolved req.ModelServing.Annotations).RanktableTemplate
          (OnPodReady.templateData S now (ParsePodRanktable L)
            (overrideLevel resolved req.ModelServing.Annotations) req.ModelServing.Roles
            req.RoleName pods) = (json, none) →
      (p.OnPodReady S now L C K req s).calls =
        (OnPodReady.upsert C K req s (overrideLevel resolved req.ModelServing.Annotations)
          json).calls) := by
  rw [OnPodReady_of_listed p S now L C K req s resolved pods ht hl]
  rcases hr : RenderRanktable L
      (overrideLevel resolved req.ModelServing.Annotations).RanktableTemplate
      (OnPodReady.templateData S now (ParsePodRanktable L)
        (overrideLevel resolved req.ModelServing.Annotations) req.ModelServing.Roles
        req.RoleName pods) with ⟨out, rerr⟩
  cases rerr with
  | some e => simp
  | none =>
    simp only [Prod.mk.injEq, and_true, exists_eq_left', Option.map_eq_none']
    refine ⟨trivial, ?_, ?_⟩
    · intro e he
      cases hu : (OnPodReady.upsert C K req s
          (overrideLevel resolved req.ModelServing.Annotations) out).err with
      | none => rw [hu] at he; exact absurd he (by simp)
      | some cause =>
        rw [hu] at he
        simp only [Option.map_some', Option.some.injEq] at he
        exact Or.inr ⟨cause, he.symm⟩
    · intro json hj
      rw [hj]

/-- C11: in a pass of `OnPodReady` whose status is Initializing, the document
handed to the renderer is the one built from the nil contribution list: status
"Initializing", `ServerCount` 0, `TotalDevices` 0 and no server, whatever pods
were parsed. The status alone does not make the hook fail: the hook returns nil
exactly when this document renders and the upsert of the rendered content
returns nil, and an error it returns is that of the renderer or of the
store. -/
theorem OnPodReady_initializing_document {σ : Type} (p : RanktablePlugin) (S : SliceSorter)
    (now : String) (L : Libs) (C : WorkloadConsts) (K : Client σ) (req : HookRequest) (s : σ)
    (resolved : RanktableTemplate) (pods : List Pod)
    (ht : GetRanktableTemplate p.templateManager req.ConfigMapLister p.cfg.Template =
      .ok resolved)
    (hl : req.PodLister req.ModelServing.Namespace
      (OnPodReady.labelSet C (overrideLevel resolved req.ModelServing.Annotations) req) =
      .ok pods)
    (hinit : (OnPodReady.checkReadiness (ParsePodRanktable L)
      (overrideLevel resolved req.ModelServing.Annotations) req.ModelServing.Roles
      req.RoleName pods).1 = RanktableStatusInitializing) :
    OnPodReady.templateData S now (ParsePodRanktable L)
        (overrideLevel resolved req.ModelServing.Annotations) req.ModelServing.Roles
        req.RoleName pods =
      { Status := "Initializing", ServerCount := 0, TotalDevices := 0, Timestamp := now,
        Servers := some [] } ∧
    ((p.OnPodReady S now L C K req s).err = none ↔
      ∃ json, RenderRanktable L
          (overrideLevel resolved req.ModelServing.Annotations).RanktableTemplate
          { Status := "Initializing", ServerCount := 0, TotalDevices := 0, Timestamp := now,
            Servers := some [] } = (json, none) ∧
        (OnPodReady.upsert C K req s (overrideLevel resolved req.ModelServing.Annotations)
          json).err = none) ∧
    (∀ e, (p.OnPodReady S now L C K req s).err = some e →
      (∃ msg, e = .render msg) ∨ (∃ cause, e = .store cause)) := by
  have hdoc := templateData_initializing S now (ParsePodRanktable L)
    (overrideLevel resolved req.ModelServing.Annotations) req.ModelServing.Roles req.RoleName
    pods hinit
  obtain ⟨h1, h2, _⟩ := OnPodReady_outcome p S now L C K req s resolved pods ht hl
  rw [hdoc] at h1
  exact ⟨hdoc, h1, h2⟩

/-- Witness of C11: a role of three pods of which one is Running and parsed and
one is Pending; the hook renders the Initializing document and creates the
artifact. -/
theorem OnPodReady_initializing_document_witness :
    (RanktablePlugin.OnPodReady
        { templateManager := NewTemplateManager "kthena-system",
          cfg := { Template := "test-template" } }
        goInsertionSort "t" basicLibs
        { ModelServingNameLabelKey := "modelserving/name", GroupNameLabelKey := "modelserving/group",
          RoleLabelKey := "modelserving/role", RoleIDKey := "modelserving/role-id",
          SchemeGroupVersion := "workload/v1alpha1" }
        apiServer
        { ModelServing :=
            { Name := "ms", Namespace := "default", UID := "uid-1",
              Annotations := fun _ => none, Roles := [⟨"worker", 2⟩] },
          ServingGroup := "ms-0", RoleName := "worker", RoleID := "worker-0",
          ConfigMapLister :=
            (Store.empty.put "kthena-system" "test-parser"
              { OwnerReferences := [], Labels := { entries := none }, ResourceVersion := 1,
                Data := { entries := some [("parser-template", "")] } }).put
              "kthena-system" "test-template"
              { OwnerReferences := [], Labels := { entries := none }, ResourceVersion := 1,
                Data := { entries := some [("ranktable-level", "role"),
                  ("pod-parser-template", "test-parser"), ("ranktable-template", "null"),
                  ("mount-path", "/etc/ranktable"), ("filename", "ranktable.json")] } },
          PodLister := fun _ _ =>
            .ok [⟨"pod-0", none, "Running", fun _ => some "payload"⟩,
                 ⟨"pod-1", none, "Pending", fun _ => none⟩] }
        Store.empty).err = none :=
  ((OnPodReady_initializing_document
      { templateManager := NewTemplateManager "kthena-system",
        cfg := { Template := "test-template" } }
      goInsertionSort "t" basicLibs
      { ModelServingNameLabelKey := "modelserving/name", GroupNameLabelKey := "modelserving/group",
        RoleLabelKey := "modelserving/role", RoleIDKey := "modelserving/role-id",
        SchemeGroupVersion := "workload/v1alpha1" }
      apiServer
      { ModelServing :=
          { Name := "ms", Namespace := "default", UID := "uid-1",
            Annotations := fun _ => none, Roles := [⟨"worker", 2⟩] },
        ServingGroup := "ms-0", RoleName := "worker", RoleID := "worker-0",
        ConfigMapLister :=
          (Store.empty.put "kthena-system" "test-parser"
            { OwnerReferences := [], Labels := { entries := none }, ResourceVersion := 1,
              Data := { entries := some [("parser-template", "")] } }).put
            "kthena-system" "test-template"
            { OwnerReferences := [], Labels := { entries := none }, ResourceVersion := 1,
              Data := { entries := some [("ranktable-level", "role"),
                ("pod-parser-template", "test-parser"), ("ranktable-template", "null"),
                ("mount-path", "/etc/ranktable"), ("filename", "ranktable.json")] } },
        PodLister := fun _ _ =>
          .ok [⟨"pod-0", none, "Running", fun _ => some "payload"⟩,
               ⟨"pod-1", none, "Pending", fun _ => none⟩] }
      Store.empty
      { InferenceEngine := "", Level := "role", PodParserTemplate := "",
        RanktableTemplate := "null", MountPath := "/etc/ranktable",
        Filename := "ranktable.json", PodAnnotationName := "ascend.com/ranktable" }
      [⟨"pod-0", none, "Running", fun _ => some "payload"⟩,
       ⟨"pod-1", none, "Pending", fun _ => none⟩]
      rfl rfl (by decide)).2.1).2 ⟨"null", rfl, by decide⟩

theorem checkReadiness_of_rejected
    (parsePod : String → String → Except String PodRanktableData)
    (template : RanktableTemplate) (roles : List Role) (roleName : String) (pods : List Pod)
    (pod : Pod) (hpod : pod ∈ pods) (hnd : pod.DeletionTimestamp = none)
    (hc : OnPodReady.contribution parsePod template pod = none) :
    OnPodReady.checkReadiness parsePod template roles roleName pods =
      (RanktableStatusInitializing, none) := by
  apply checkReadiness_initializing
  refine (checkReadiness_status_cases parsePod template roles roleName pods).resolve_left ?_
  intro hcompleted
  rw [checkReadiness_completed_iff] at hcompleted
  have hall := hcompleted.1
  rw [(podLoop_eq parsePod template pods).1, List.all_eq_true] at hall
  have hmem : pod ∈ pods.filter (fun p => p.DeletionTimestamp.isNone) :=
    List.mem_filter.2 ⟨hpod, by simp [hnd]⟩
  have hs := hall pod hmem
  rw [hc] at hs
  exact absurd hs (by simp)

/-! ## Conservation of devices -/

theorem buildServers_entries (S : SliceSorter) (m : List (String × List DeviceInfo))
    (ids : List String) (st : BuildState) :
    (buildServers S m ids st).servers.map
        (fun s => (s.ServerId, s.Devices.map DeviceWithRank.info)) =
      st.servers.map (fun s => (s.ServerId, s.Devices.map DeviceWithRank.info)) ++
      ids.map (fun id => (id, S.sort (mapGet m id))) := by
  induction ids generalizing st with
  | nil => simp [buildServers]
  | cons id rest ih => simp [buildServers, ih, assignRanks_devices]

theorem BuildRanktableTemplateData_server_devices (S : SliceSorter) (now status : String)
    (pods : GoSlice PodRanktableData) (s : ServerInfo)
    (hs : s ∈ (BuildRanktableTemplateData S now status pods).Servers.elems) :
    s.Devices.map DeviceWithRank.info =
      S.sort ((pods.elems.filter (fun p => p.ServerId = s.ServerId)).flatMap
        (fun p => p.Devices)) := by
  rw [BuildRanktableTemplateData_servers] at hs
  have hmem := List.mem_map_of_mem
    (fun s => (s.ServerId, s.Devices.map DeviceWithRank.info)) hs
  rw [buildServers_entries] at hmem
  simp only [List.map_nil, List.nil_append, List.mem_map, Prod.mk.injEq] at hmem
  obtain ⟨id, _, hid, hdev⟩ := hmem
  rw [← hdev, hid, mapGet_groupByServer]

/-- C29: `BuildRanktableTemplateData` neither loses, duplicates nor alters a
device. For every server of the returned document, the (DeviceId, DeviceIp)
pairs of its devices are a permutation of the concatenation of the `Devices` of
the contributions that carry its server id, so a device that repeats in the
input is kept as many times; every server id of a contribution is the id of a
server of the document; and the rank ids of all the devices of the document
are pairwise different, so each kept copy has its own rank. -/
theorem BuildRanktableTemplateData_conserves_devices (S : SliceSorter) (now status : String)
    (pods : GoSlice PodRanktableData) :
    (∀ s ∈ (BuildRanktableTemplateData S now status pods).Servers.elems,
      (s.Devices.map (fun d => (d.DeviceId, d.DeviceIp))).Perm
        (((pods.elems.filter (fun p => p.ServerId = s.ServerId)).flatMap
          (fun p => p.Devices)).map (fun d => (d.DeviceId, d.DeviceIp)))) ∧
    (∀ p ∈ pods.elems, ∃ s ∈ (BuildRanktableTemplateData S now status pods).Servers.elems,
      s.ServerId = p.ServerId) ∧
    (((BuildRanktableTemplateData S now status pods).Servers.elems.flatMap
        (fun s => s.Devices)).map (fun d => d.RankId)).Nodup := by
  refine ⟨?_, ?_, ?_⟩
  · intro s hs
    have h := BuildRanktableTemplateData_server_devices S now status pods s hs
    have hp := (S.perm ((pods.elems.filter (fun p => p.ServerId = s.ServerId)).flatMap
      (fun p => p.Devices))).map (fun d : DeviceInfo => (d.DeviceId, d.DeviceIp))
    rw [← h, List.map_map] at hp
    exact hp
  · intro p hp
    have hmem : p.ServerId ∈ (BuildRanktableTemplateData S now status pods).Servers.elems.map
        (fun s => s.ServerId) := by
      rw [BuildRanktableTemplateData_serverIds, (sortStrings_perm _).mem_iff,
        keys_groupByServer_mem]
      exact List.mem_map_of_mem (fun p => p.ServerId) hp
    obtain ⟨s, hs, hid⟩ := List.mem_map.1 hmem
    exact ⟨s, hs, hid⟩
  · have h1 : ((BuildRanktableTemplateData S now status pods).Servers.elems.flatMap
          (fun s => s.Devices)).map (fun d => d.RankId) =
        (List.range (BuildRanktableTemplateData S now status pods).TotalDevices).map itoa := by
      rw [BuildRanktableTemplateData_totalDevices, BuildRanktableTemplateData_servers,
        buildServers_rankIds, List.range_eq_range']
      simp
    rw [h1]
    exact (List.nodup_range _).map itoa_injective

/-! ## The update of an existing artifact -/

/-- C30: when `EnsureRanktableConfigMap` finds the artifact and does not skip,
it issues one update whose object is the one the get returned with only the
data replaced: name, namespace, labels, owner references and resource version
are those of the stored artifact, whatever labels and owner references were
passed to the call, and the data is the single entry `filename: content`, so
no other key is left. On the store `apiServer` the update succeeds and the
stored artifact keeps its labels and owner references. -/
theorem EnsureRanktableConfigMap_update_replaces_only_data {σ : Type} (K : Client σ) (s s1 : σ)
    (ns name : String) (ownerReferences : List OwnerReference) (labels : GoMap)
    (filename content : String) (existingCM : ConfigMap)
    (hget : K.get s ns name = (.ok existingCM, s1))
    (hu : upToDate existingCM filename content = false) :
    (∃ sent : ConfigMap,
      (EnsureRanktableConfigMap K s ns name ownerReferences labels filename content).calls =
        [.get ns name, .update ns sent] ∧
      sent.Name = existingCM.Name ∧ sent.Namespace = existingCM.Namespace ∧
      sent.Labels = existingCM.Labels ∧ sent.OwnerReferences = existingCM.OwnerReferences ∧
      sent.ResourceVersion = existingCM.ResourceVersion ∧
      sent.Data = GoMap.single filename content ∧
      sent.Data.lookup filename = some content ∧
      (∀ k, k ≠ filename → sent.Data.lookup k = none)) ∧
    (∀ (st : Store) (o : StoredConfigMap), st ns name = some o →
      upToDate (o.toConfigMap ns name) filename content = false →
      (EnsureRanktableConfigMap apiServer st ns name ownerReferences labels filename
          content).err = none ∧
      (EnsureRanktableConfigMap apiServer st ns name ownerReferences labels filename
          content).store ns name =
        some { OwnerReferences := o.OwnerReferences, Labels := o.Labels,
               ResourceVersion := o.ResourceVersion + 1,
               Data := GoMap.single filename content }) := by
  constructor
  · refine ⟨{ existingCM with Data := GoMap.single filename content }, ?_, rfl, rfl, rfl, rfl,
      rfl, rfl, ?_, ?_⟩
    · unfold EnsureRanktableConfigMap
      simp only [hget, hu, EnsureRanktableConfigMap.cm]
      cases hupd : K.update s1 ns { existingCM with Data := GoMap.single filename content } with
      | mk r s2 => cases r <;> simp
    · simp [GoMap.single, GoMap.lookup]
    · intro k hk
      simp [GoMap.single, GoMap.lookup, Ne.symm hk]
  · intro st o ho hu2
    rw [EnsureRanktableConfigMap_update st ns name ownerReferences labels filename content o ho
      hu2]
    exact ⟨rfl, Store.put_same _ _ _ _⟩

/-- Witness of C30: an artifact stored with the label `owner: other`, no owner
reference and the data `old.json: x` is updated by a call that passes the
label `app: ranktable`. -/
theorem EnsureRanktableConfigMap_update_replaces_only_data_witness :
    (EnsureRanktableConfigMap apiServer
      (Store.empty.put "default" "test-ranktable"
        (StoredConfigMap.mk [] (GoMap.single "owner" "other") 7 (GoMap.single "old.json" "x")))
      "default" "test-ranktable" [] (GoMap.single "app" "ranktable") "ranktable.json"
      "\x7b\x7d").store "default" "test-ranktable" =
    some { OwnerReferences := [], Labels := GoMap.single "owner" "other", ResourceVersion := 8,
           Data := GoMap.single "ranktable.json" "\x7b\x7d" } :=
  ((EnsureRanktableConfigMap_update_replaces_only_data apiServer
    (Store.empty.put "default" "test-ranktable"
      (StoredConfigMap.mk [] (GoMap.single "owner" "other") 7 (GoMap.single "old.json" "x")))
    (Store.empty.put "default" "test-ranktable"
      (StoredConfigMap.mk [] (GoMap.single "owner" "other") 7 (GoMap.single "old.json" "x")))
    "default" "test-ranktable" [] (GoMap.single "app" "ranktable") "ranktable.json" "\x7b\x7d"
    ((StoredConfigMap.mk [] (GoMap.single "owner" "other") 7
      (GoMap.single "old.json" "x")).toConfigMap "default" "test-ranktable")
    rfl (by decide)).2
    (Store.empty.put "default" "test-ranktable"
      (StoredConfigMap.mk [] (GoMap.single "owner" "other") 7 (GoMap.single "old.json" "x")))
    (StoredConfigMap.mk [] (GoMap.single "owner" "other") 7 (GoMap.single "old.json" "x"))
    rfl (by decide)).2

/-! ## The helper functions of the templates -/

/-- C21 (amended): the function map `ParsePodRanktable` gives to parser
templates holds exactly `fromJson` and `quote`, the one `RenderRanktable` gives
to ranktable templates holds exactly `quote` and `toJson`. Each of the three
helpers is in one of the maps at least, and `quote` is the only helper in
both. -/
theorem template_helpers :
    (∀ f, f ∈ parserFuncs ↔ f = "fromJson" ∨ f = "quote") ∧
    (∀ f, f ∈ renderFuncs ↔ f = "quote" ∨ f = "toJson") ∧
    (∀ f, f ∈ ["quote", "toJson", "fromJson"] → f ∈ parserFuncs ∨ f ∈ renderFuncs) ∧
    (∀ f, f ∈ parserFuncs ∧ f ∈ renderFuncs ↔ f = "quote") ∧
    (∀ (L : Libs) (parserTemplate payload : String),
      ParsePodRanktable L parserTemplate payload =
        match L.templateParse "pod-parser" ["fromJson", "quote"] parserTemplate with
        | some e => .error ("failed to parse pod parser template: " ++ e)
        | none =>
          match L.templateExecute "pod-parser" ["fromJson", "quote"] parserTemplate
              (.ofPayload payload) with
          | .error e => .error ("failed to execute pod parser template: " ++ e)
          | .ok buf =>
            match L.yamlUnmarshal buf with
            | .error e => .error ("failed to unmarshal pod ranktable data: " ++ e)
            | .ok podData => .ok podData) ∧
    (∀ (L : Libs) (ranktableTemplate : String) (data : RanktableTemplateData),
      RenderRanktable L ranktableTemplate data =
        match L.templateParse "ranktable" ["quote", "toJson"] ranktableTemplate with
        | some e => ("", some ("failed to parse ranktable template: " ++ e))
        | none =>
          match L.templateExecute "ranktable" ["quote", "toJson"] ranktableTemplate
              (.document data) with
          | .error e => ("", some ("failed to execute ranktable template: " ++ e))
          | .ok buf =>
            match L.jsonUnmarshal buf with
            | some e => ("", some ("generated ranktable is not valid JSON: " ++ e))
            | none => (buf, none)) := by
  refine ⟨?_, ?_, ?_, ?_, fun _ _ _ => rfl, fun _ _ _ => rfl⟩
  · intro f; simp [parserFuncs]
  · intro f; simp [renderFuncs]
  · intro f hf
    simp only [List.mem_cons, List.mem_singleton, List.not_mem_nil, or_false] at hf
    rcases hf with h | h | h <;> subst h <;> simp [parserFuncs, renderFuncs]
  · intro f
    simp only [parserFuncs, renderFuncs, List.mem_cons, List.mem_singleton, List.not_mem_nil,
      or_false]
    constructor
    · rintro ⟨h1 | h1, h2 | h2⟩
      · subst h1; exact h2
      · subst h1; exact absurd h2 (by decide)
      · exact h1
      · exact h1
    · intro h; subst h; exact ⟨Or.inr rfl, Or.inl rfl⟩

/-- C21 (counterexample): `toJson` is not in the function map of the parser
and `fromJson` is not in the function map of the renderer. With the libraries
`basicLibs`, the template that pipes its input through `fromJson` is accepted
as a parser template and refused as a ranktable template, the function not
being defined there. -/
theorem template_helpers_not_shared :
    "toJson" ∉ parserFuncs ∧ "fromJson" ∉ renderFuncs ∧
    ParsePodRanktable basicLibs fromJsonTemplate "null" =
      .ok { PodName := "", ServerId := "", Devices := [] } ∧
    RenderRanktable basicLibs fromJsonTemplate
        { Status := "Initializing", ServerCount := 0, TotalDevices := 0, Timestamp := "t",
          Servers := some [] } =
      ("", some "failed to parse ranktable template: function fromJson not defined") := by
  refine ⟨by decide, by decide, ?_, ?_⟩
  · rfl
  · rfl

/-! ## The name of the artifact -/

/-- C26: for every request and every pod, `PodDiscoveryPlugin.OnPodCreate`
returns nil and leaves the pod with one more volume, placed after the volumes
already present, named `pod-discovery-volume` and referencing the ConfigMap
`<ServingGroup>-discovery` with `Optional` true; every container and every init
container is the same container with one more mount, placed after the mounts
already present, of that volume at `/etc/pod-discovery`, read-only; the
containers are as many as before and in the same order. The pod of the test,
with the containers `c1` and `init-c1`, is a conjunct. -/
theorem PodDiscoveryPlugin_OnPodCreate_frame (req : HookRequest) (pod : PodSpec) :
    (PodDiscoveryPlugin.OnPodCreate req pod).1 = none ∧
    (PodDiscoveryPlugin.OnPodCreate req pod).2.Volumes =
      pod.Volumes ++
        [{ Name := "pod-discovery-volume",
           ConfigMap := some { Name := req.ServingGroup ++ "-discovery", Optional := some true } }] ∧
    (PodDiscoveryPlugin.OnPodCreate req pod).2.Containers =
      pod.Containers.map (fun c =>
        { Name := c.Name,
          VolumeMounts := c.VolumeMounts ++
            [{ Name := "pod-discovery-volume", MountPath := "/etc/pod-discovery",
               ReadOnly := true }] }) ∧
    (PodDiscoveryPlugin.OnPodCreate req pod).2.InitContainers =
      pod.InitContainers.map (fun c =>
        { Name := c.Name,
          VolumeMounts := c.VolumeMounts ++
            [{ Name := "pod-discovery-volume", MountPath := "/etc/pod-discovery",
               ReadOnly := true }] }) ∧
    (PodDiscoveryPlugin.OnPodCreate req pod).2.Containers.map (fun c => c.Name) =
      pod.Containers.map (fun c => c.Name) ∧
    (PodDiscoveryPlugin.OnPodCreate req pod).2.InitContainers.map (fun c => c.Name) =
      pod.InitContainers.map (fun c => c.Name) ∧
    (PodDiscoveryPlugin.OnPodCreate
        { ModelServing :=
            { Name := "", Namespace := "", UID := "", Annotations := fun _ => none, Roles := [] },
          ServingGroup := "group-1", RoleName := "", RoleID := "",
          ConfigMapLister := Store.empty, PodLister := fun _ _ => .ok [] }
        { Volumes := [], InitContainers := [{ Name := "init-c1", VolumeMounts := [] }],
          Containers := [{ Name := "c1", VolumeMounts := [] }] }).2 =
      { Volumes := [{ Name := "pod-discovery-volume",
                      ConfigMap := some { Name := "group-1-discovery", Optional := some true } }],
        InitContainers :=
          [{ Name := "init-c1",
             VolumeMounts := [{ Name := "pod-discovery-volume",
                                MountPath := "/etc/pod-discovery", ReadOnly := true }] }],
        Containers :=
          [{ Name := "c1",
             VolumeMounts := [{ Name := "pod-discovery-volume",
                                MountPath := "/etc/pod-discovery", ReadOnly := true }] }] } := by
  refine ⟨rfl, rfl, rfl, rfl, ?_, ?_, ?_⟩
  · simp [PodDiscoveryPlugin.OnPodCreate, mountAll, Function.comp_def]
  · simp [PodDiscoveryPlugin.OnPodCreate, mountAll, Function.comp_def]
  · decide

/-! ## The discovery plugin: the content -/

theorem ipsOf_appendIP (m : List (String × List String)) (k ip k' : String) :
    ipsOf (appendIP m k ip) k' = if k = k' then ipsOf m k' ++ [ip] else ipsOf m k' := by
  induction m with
  | nil =>
    by_cases h : k = k' <;> simp [appendIP, ipsOf, h]
  | cons e rest ih =>
    obtain ⟨a, v⟩ := e
    by_cases h1 : a = k
    · subst h1
      by_cases h2 : a = k' <;> simp [appendIP, ipsOf, h2]
    · by_cases h2 : a = k'
      · subst h2
        have h3 : ¬ k = a := fun h => h1 h.symm
        simp [appendIP, ipsOf, h1, h3]
      · simp [appendIP, ipsOf, h1, h2, ih]

theorem keys_appendIP (m : List (String × List String)) (k ip : String) :
    (appendIP m k ip).map Prod.fst =
      if k ∈ m.map Prod.fst then m.map Prod.fst else m.map Prod.fst ++ [k] := by
  induction m with
  | nil => simp [appendIP]
  | cons e rest ih =>
    obtain ⟨a, v⟩ := e
    by_cases h1 : a = k
    · subst h1
      simp [appendIP]
    · have h3 : ¬ k = a := fun h => h1 h.symm
      simp only [appendIP, h1, if_false, List.map_cons, ih, List.mem_cons, h3, false_or]
      split_ifs <;> simp

/-- The test of the loop "Group IPs by Role": the pod has an address, is
Running and has a role. -/
theorem groupIPsByRole_step (podRoleName : corev1.Pod → String)
    (m : List (String × List String)) (pod : corev1.Pod) :
    (if pod.Status.PodIP = "" then m
      else if pod.Status.Phase ≠ PodRunning then m
      else if podRoleName pod = "" then m
      else appendIP m (podRoleName pod) pod.Status.PodIP) =
    if pod.Status.PodIP ≠ "" ∧ pod.Status.Phase = PodRunning ∧ podRoleName pod ≠ "" then
      appendIP m (podRoleName pod) pod.Status.PodIP
    else m := by
  by_cases h1 : pod.Status.PodIP = "" <;> by_cases h2 : pod.Status.Phase = PodRunning <;>
    by_cases h3 : podRoleName pod = "" <;> simp [h1, h2, h3]

theorem ipsOf_foldl (podRoleName : corev1.Pod → String) (pods : List corev1.Pod)
    (m : List (String × List String)) (k : String) :
    ipsOf (pods.foldl (fun roleIPs pod =>
      if pod.Status.PodIP = "" then roleIPs
      else if pod.Status.Phase ≠ PodRunning then roleIPs
      else if podRoleName pod = "" then roleIPs
      else appendIP roleIPs (podRoleName pod) pod.Status.PodIP) m) k =
    ipsOf m k ++ (pods.filter (fun p => decide (p.Status.PodIP ≠ "" ∧
      p.Status.Phase = PodRunning ∧ podRoleName p ≠ "" ∧ podRoleName p = k))).map
        (fun p => p.Status.PodIP) := by
  induction pods generalizing m with
  | nil => simp
  | cons p rest ih =>
    rw [List.foldl_cons, ih, groupIPsByRole_step]
    by_cases h : p.Status.PodIP ≠ "" ∧ p.Status.Phase = PodRunning ∧ podRoleName p ≠ ""
    · rw [if_pos h, ipsOf_appendIP]
      by_cases hk : podRoleName p = k
      · have hd : (p.Status.PodIP ≠ "" ∧ p.Status.Phase = PodRunning ∧ podRoleName p ≠ "" ∧
            podRoleName p = k) := ⟨h.1, h.2.1, h.2.2, hk⟩
        rw [if_pos hk, List.filter_cons_of_pos (by simpa using hd)]
        simp
      · have hd : ¬ (p.Status.PodIP ≠ "" ∧ p.Status.Phase = PodRunning ∧ podRoleName p ≠ "" ∧
            podRoleName p = k) := fun hd => hk hd.2.2.2
        rw [if_neg hk, List.filter_cons_of_neg (by simpa using hd)]
    · have hd : ¬ (p.Status.PodIP ≠ "" ∧ p.Status.Phase = PodRunning ∧ podRoleName p ≠ "" ∧
          podRoleName p = k) := fun hd => h ⟨hd.1, hd.2.1, hd.2.2.1⟩
      rw [if_neg h, List.filter_cons_of_neg (by simpa using hd)]

theorem keys_foldl_roles (podRoleName : corev1.Pod → String) (pods : List corev1.Pod)
    (m : List (String × List String)) (hm : (m.map Prod.fst).Nodup) :
    ((pods.foldl (fun roleIPs pod =>
      if pod.Status.PodIP = "" then roleIPs
      else if pod.Status.Phase ≠ PodRunning then roleIPs
      else if podRoleName pod = "" then roleIPs
      else appendIP roleIPs (podRoleName pod) pod.Status.PodIP) m).map Prod.fst).Nodup ∧
    ∀ k, k ∈ (pods.foldl (fun roleIPs pod =>
      if pod.Status.PodIP = "" then roleIPs
      else if pod.Status.Phase ≠ PodRunning then roleIPs
      else if podRoleName pod = "" then roleIPs
      else appendIP roleIPs (podRoleName pod) pod.Status.PodIP) m).map Prod.fst ↔
      k ∈ m.map Prod.fst ∨ ∃ p ∈ pods, p.Status.PodIP ≠ "" ∧ p.Status.Phase = PodRunning ∧
        podRoleName p ≠ "" ∧ podRoleName p = k := by
  induction pods generalizing m with
  | nil => simp [hm]
  | cons p rest ih =>
    rw [List.foldl_cons, groupIPsByRole_step]
    by_cases h : p.Status.PodIP ≠ "" ∧ p.Status.Phase = PodRunning ∧ podRoleName p ≠ ""
    · rw [if_pos h]
      have hkeys := keys_appendIP m (podRoleName p) p.Status.PodIP
      have hn : ((appendIP m (podRoleName p) p.Status.PodIP).map Prod.fst).Nodup := by
        rw [hkeys]
        split_ifs with hin
        · exact hm
        · exact List.Nodup.append hm (List.nodup_singleton _)
            (by simpa [List.disjoint_singleton] using hin)
      obtain ⟨ih1, ih2⟩ := ih _ hn
      refine ⟨ih1, fun k => ?_⟩
      rw [ih2 k, hkeys]
      constructor
      · rintro (hk | ⟨q, hq, hq2⟩)
        · split_ifs at hk with hin
          · exact Or.inl hk
          · rcases List.mem_append.1 hk with hk | hk
            · exact Or.inl hk
            · exact Or.inr ⟨p, List.mem_cons_self _ _, h.1, h.2.1, h.2.2,
                (List.mem_singleton.1 hk).symm⟩
        · exact Or.inr ⟨q, List.mem_cons_of_mem _ hq, hq2⟩
      · rintro (hk | ⟨q, hq, hq2⟩)
        · left
          split_ifs
          · exact hk
          · exact List.mem_append_left _ hk
        · rcases List.mem_cons.1 hq with hq | hq
          · subst hq
            left
            split_ifs with hin
            · rw [← hq2.2.2.2]; exact hin
            · rw [← hq2.2.2.2]; simp
          · exact Or.inr ⟨q, hq, hq2⟩
    · rw [if_neg h]
      obtain ⟨ih1, ih2⟩ := ih m hm
      refine ⟨ih1, fun k => ?_⟩
      rw [ih2 k]
      constructor
      · rintro (hk | ⟨q, hq, hq2⟩)
        · exact Or.inl hk
        · exact Or.inr ⟨q, List.mem_cons_of_mem _ hq, hq2⟩
      · rintro (hk | ⟨q, hq, hq2⟩)
        · exact Or.inl hk
        · rcases List.mem_cons.1 hq with hq | hq
          · subst hq
            exact absurd ⟨hq2.1, hq2.2.1, hq2.2.2.1⟩ h
          · exact Or.inr ⟨q, hq, hq2⟩

theorem keys_sortIPs (m : List (String × List String)) :
    (sortIPs m).map Prod.fst = m.map Prod.fst := by
  simp [sortIPs, Function.comp_def]

theorem ipsOf_sortIPs (m : List (String × List String)) (k : String) :
    ipsOf (sortIPs m) k = sortStrings (ipsOf m k) := by
  induction m with
  | nil => rfl
  | cons e rest ih =>
    obtain ⟨a, v⟩ := e
    by_cases h : a = k
    · simp [sortIPs, ipsOf, h]
    · have ih2 : ipsOf (List.map (fun e => (e.1, sortStrings e.2)) rest) k =
          sortStrings (ipsOf rest k) := ih
      simp [sortIPs, ipsOf, h, ih2]

theorem find_setEntry (l : List (String × String)) (k v : String) :
    (setEntry l k v).find? (fun e => e.1 = k) = some (k, v) := by
  induction l with
  | nil => simp [setEntry]
  | cons e rest ih =>
    by_cases h : e.1 = k
    · simp [setEntry, h]
    · simp [setEntry, h, List.find?_cons, ih]

theorem GoMap.read_set (m : GoMap) (k v : String) : (m.set k v).read k = v := by
  cases hm : m.entries with
  | none => simp [GoMap.set, hm, GoMap.read, GoMap.lookup]
  | some l => simp [GoMap.set, hm, GoMap.read, GoMap.lookup, find_setEntry]

theorem groupIPsByRole_keys (podRoleName : corev1.Pod → String) (pods : List corev1.Pod) :
    ((groupIPsByRole podRoleName pods).map Prod.fst).Nodup ∧
    ∀ k, k ∈ (groupIPsByRole podRoleName pods).map Prod.fst ↔
      ∃ p ∈ pods, p.Status.PodIP ≠ "" ∧ p.Status.Phase = PodRunning ∧
        podRoleName p ≠ "" ∧ podRoleName p = k := by
  have h := keys_foldl_roles podRoleName pods [] (by simp)
  refine ⟨h.1, fun k => ?_⟩
  have h2 := h.2 k
  simp only [List.map_nil, List.not_mem_nil, false_or] at h2
  exact h2

theorem groupIPsByRole_ips (podRoleName : corev1.Pod → String) (pods : List corev1.Pod)
    (k : String) :
    ipsOf (groupIPsByRole podRoleName pods) k =
      (pods.filter (fun p => decide (p.Status.PodIP ≠ "" ∧ p.Status.Phase = PodRunning ∧
        podRoleName p ≠ "" ∧ podRoleName p = k))).map (fun p => p.Status.PodIP) := by
  unfold groupIPsByRole
  rw [ipsOf_foldl]
  rfl

/-- The calls of an attempt that write carry the content computed from the
pods listed under the key `ips.json`. -/
theorem attempt_writes_content {σ : Type} (enc : String → String)
    (podRoleName : corev1.Pod → String) (C : WorkloadConsts) (K : KubeClient σ)
    (req : HookRequest) (s s1 : σ) (pods : List corev1.Pod)
    (hl : K.listPods s req.ModelServing.Namespace
      (C.GroupNameLabelKey ++ "=" ++ req.ServingGroup) = (.ok pods, s1)) :
    ∀ c ∈ (PodDiscoveryPlugin.attempt enc podRoleName C K req s).calls,
      (∀ ns cm, c = .configMap (.create ns cm) →
        cm.Data = GoMap.single "ips.json" (PodDiscoveryPlugin.content enc podRoleName pods)) ∧
      (∀ ns cm, c = .configMap (.update ns cm) →
        cm.Data.read "ips.json" = PodDiscoveryPlugin.content enc podRoleName pods) := by
  intro c hc
  unfold PodDiscoveryPlugin.attempt at hc
  simp only [hl] at hc
  rcases hg : K.configMaps.get s1 req.ModelServing.Namespace
      (req.ServingGroup ++ ConfigMapNameSuffix) with ⟨rg, s2⟩
  rw [hg] at hc
  cases rg with
  | error e =>
    simp only at hc
    by_cases he : e = .notFound
    · rw [if_pos he] at hc
      rcases hcr : K.configMaps.create s2 req.ModelServing.Namespace
          (PodDiscoveryPlugin.newCM C req (PodDiscoveryPlugin.content enc podRoleName pods))
        with ⟨rc, s3⟩
      rw [hcr] at hc
      have hmem : c ∈ [DiscoveryCall.list req.ModelServing.Namespace
            (C.GroupNameLabelKey ++ "=" ++ req.ServingGroup),
          .configMap (.get req.ModelServing.Namespace (req.ServingGroup ++ ConfigMapNameSuffix)),
          .configMap (.create req.ModelServing.Namespace
            (PodDiscoveryPlugin.newCM C req
              (PodDiscoveryPlugin.content enc podRoleName pods)))] := by
        cases rc with
        | error e2 =>
          simp only at hc
          split_ifs at hc <;> exact hc
        | ok v => exact hc
      simp only [List.mem_cons, List.mem_singleton, List.not_mem_nil, or_false] at hmem
      rcases hmem with h | h | h <;> subst h
      · exact ⟨fun _ _ h => (by cases h), fun _ _ h => (by cases h)⟩
      · exact ⟨fun _ _ h => (by cases h), fun _ _ h => (by cases h)⟩
      · refine ⟨fun ns cm h => ?_, fun _ _ h => (by cases h)⟩
        cases h
        rfl
    · rw [if_neg he] at hc
      simp only [List.mem_cons, List.mem_singleton, List.not_mem_nil, or_false] at hc
      rcases hc with h | h <;> subst h <;>
        exact ⟨fun _ _ h => (by cases h), fun _ _ h => (by cases h)⟩
  | ok cm =>
    simp only at hc
    by_cases heq : (PodDiscoveryPlugin.dataOf cm).read DiscoveryFileName =
        PodDiscoveryPlugin.content enc podRoleName pods
    · rw [if_pos heq] at hc
      simp only [List.mem_cons, List.mem_singleton, List.not_mem_nil, or_false] at hc
      rcases hc with h | h <;> subst h <;>
        exact ⟨fun _ _ h => (by cases h), fun _ _ h => (by cases h)⟩
    · rw [if_neg heq] at hc
      rcases hup : K.configMaps.update s2 req.ModelServing.Namespace
          { cm with
            Data := (PodDiscoveryPlugin.dataOf cm).set DiscoveryFileName
              (PodDiscoveryPlugin.content enc podRoleName pods) } with ⟨ru, s3⟩
      rw [hup] at hc
      have hmem : c ∈ [DiscoveryCall.list req.ModelServing.Namespace
            (C.GroupNameLabelKey ++ "=" ++ req.ServingGroup),
          .configMap (.get req.ModelServing.Namespace (req.ServingGroup ++ ConfigMapNameSuffix)),
          .configMap (.update req.ModelServing.Namespace
            { cm with
              Data := (PodDiscoveryPlugin.dataOf cm).set DiscoveryFileName
                (PodDiscoveryPlugin.content enc podRoleName pods) })] := by
        cases ru with
        | error e2 =>
          simp only at hc
          split_ifs at hc <;> exact hc
        | ok v => exact hc
      simp only [List.mem_cons, List.mem_singleton, List.not_mem_nil, or_false] at hmem
      rcases hmem with h | h | h <;> subst h
      · exact ⟨fun _ _ h => (by cases h), fun _ _ h => (by cases h)⟩
      · exact ⟨fun _ _ h => (by cases h), fun _ _ h => (by cases h)⟩
      · refine ⟨fun _ _ h => (by cases h), fun ns cm2 h => ?_⟩
        cases h
        exact GoMap.read_set _ _ _

/-- C24: the content an attempt of `PodDiscoveryPlugin.OnPodReady` computes
from the pods listed, and writes under the key `ips.json`. The pods that count
are those with an address, phase Running and a role. The map built has one
entry per role of such a pod and no other; the list of a role is sorted and
holds the addresses of exactly the pods of that role that count, one entry
per pod. The content is the JSON object of the roles in sorted order, each with
the array of its sorted addresses; without any pod that counts it is the empty
object. On the pods of the test, the content maps `master` to 10.0.0.3 and
`worker` to 10.0.0.1 and 10.0.0.2, and the pod without address is left out. -/
theorem PodDiscoveryPlugin_content_spec {σ : Type} (enc : String → String)
    (podRoleName : corev1.Pod → String) (C : WorkloadConsts) (K : KubeClient σ)
    (req : HookRequest) (s s1 : σ) (pods : List corev1.Pod)
    (hl : K.listPods s req.ModelServing.Namespace
      (C.GroupNameLabelKey ++ "=" ++ req.ServingGroup) = (.ok pods, s1)) :
    (∀ c ∈ (PodDiscoveryPlugin.attempt enc podRoleName C K req s).calls,
      (∀ ns cm, c = .configMap (.create ns cm) →
        cm.Data = GoMap.single "ips.json" (PodDiscoveryPlugin.content enc podRoleName pods)) ∧
      (∀ ns cm, c = .configMap (.update ns cm) →
        cm.Data.read "ips.json" = PodDiscoveryPlugin.content enc podRoleName pods)) ∧
    ((sortIPs (groupIPsByRole podRoleName pods)).map Prod.fst).Nodup ∧
    (∀ role, role ∈ (sortIPs (groupIPsByRole podRoleName pods)).map Prod.fst ↔
      ∃ p ∈ pods, p.Status.PodIP ≠ "" ∧ p.Status.Phase = PodRunning ∧ podRoleName p ≠ "" ∧
        podRoleName p = role) ∧
    (∀ role,
      (ipsOf (sortIPs (groupIPsByRole podRoleName pods)) role).Pairwise (fun a b => a ≤ b) ∧
      (ipsOf (sortIPs (groupIPsByRole podRoleName pods)) role).Perm
        ((pods.filter (fun p => decide (p.Status.PodIP ≠ "" ∧ p.Status.Phase = PodRunning ∧
          podRoleName p ≠ "" ∧ podRoleName p = role))).map (fun p => p.Status.PodIP))) ∧
    PodDiscoveryPlugin.content enc podRoleName pods =
      "\x7b" ++ ",".intercalate
        ((sortStrings (((pods.filter (fun p => decide (p.Status.PodIP ≠ "" ∧
            p.Status.Phase = PodRunning ∧ podRoleName p ≠ ""))).map podRoleName).dedup)).map
          (fun role => enc role ++ ":" ++ ("[" ++ ",".intercalate
            ((sortStrings ((pods.filter (fun p => decide (p.Status.PodIP ≠ "" ∧
              p.Status.Phase = PodRunning ∧ podRoleName p ≠ "" ∧
              podRoleName p = role))).map (fun p => p.Status.PodIP))).map enc) ++ "]"))) ++
        "\x7d" ∧
    ((∀ p ∈ pods, ¬ (p.Status.PodIP ≠ "" ∧ p.Status.Phase = PodRunning ∧ podRoleName p ≠ "")) →
      PodDiscoveryPlugin.content enc podRoleName pods = "\x7b\x7d") ∧
    PodDiscoveryPlugin.content quotePlain (roleLabel testConsts.RoleLabelKey)
        (testPods.filter (matchesSelector "modelserving.volcano.sh/group-name=group-1")) =
      "\x7b\"master\":[\"10.0.0.3\"],\"worker\":[\"10.0.0.1\",\"10.0.0.2\"]\x7d" := by
  have hkeys := groupIPsByRole_keys podRoleName pods
  have hperm : ((sortIPs (groupIPsByRole podRoleName pods)).map Prod.fst).Perm
      (((pods.filter (fun p => decide (p.Status.PodIP ≠ "" ∧
        p.Status.Phase = PodRunning ∧ podRoleName p ≠ ""))).map podRoleName).dedup) := by
    rw [keys_sortIPs]
    refine (List.perm_ext_iff_of_nodup hkeys.1 (List.nodup_dedup _)).2 (fun k => ?_)
    rw [hkeys.2 k, List.mem_dedup, List.mem_map]
    constructor
    · rintro ⟨p, hp, h1, h2, h3, h4⟩
      exact ⟨p, List.mem_filter.2 ⟨hp, by simpa using ⟨h1, h2, h3⟩⟩, h4⟩
    · rintro ⟨p, hp, h4⟩
      obtain ⟨hp1, hp2⟩ := List.mem_filter.1 hp
      have hp3 : p.Status.PodIP ≠ "" ∧ p.Status.Phase = PodRunning ∧ podRoleName p ≠ "" := by
        simpa using hp2
      exact ⟨p, hp1, hp3.1, hp3.2.1, hp3.2.2, h4⟩
  have hcontent : PodDiscoveryPlugin.content enc podRoleName pods =
      "\x7b" ++ ",".intercalate
        ((sortStrings (((pods.filter (fun p => decide (p.Status.PodIP ≠ "" ∧
            p.Status.Phase = PodRunning ∧ podRoleName p ≠ ""))).map podRoleName).dedup)).map
          (fun role => enc role ++ ":" ++ ("[" ++ ",".intercalate
            ((sortStrings ((pods.filter (fun p => decide (p.Status.PodIP ≠ "" ∧
              p.Status.Phase = PodRunning ∧ podRoleName p ≠ "" ∧
              podRoleName p = role))).map (fun p => p.Status.PodIP))).map enc) ++ "]"))) ++
        "\x7d" := by
    unfold PodDiscoveryPlugin.content marshalRoleIPs
    rw [sortStrings_eq_of_perm hperm]
    have hf : (fun k => enc k ++ ":" ++
          marshalStrings enc (ipsOf (sortIPs (groupIPsByRole podRoleName pods)) k)) =
        (fun role => enc role ++ ":" ++ ("[" ++ ",".intercalate
          ((sortStrings ((pods.filter (fun p => decide (p.Status.PodIP ≠ "" ∧
            p.Status.Phase = PodRunning ∧ podRoleName p ≠ "" ∧
            podRoleName p = role))).map (fun p => p.Status.PodIP))).map enc) ++ "]")) := by
      funext role
      rw [ipsOf_sortIPs, groupIPsByRole_ips]
      rfl
    rw [hf]
  refine ⟨attempt_writes_content enc podRoleName C K req s s1 pods hl, ?_, ?_, ?_, hcontent, ?_,
    by decide⟩
  · rw [keys_sortIPs]
    exact hkeys.1
  · intro role
    rw [keys_sortIPs]
    exact hkeys.2 role
  · intro role
    rw [ipsOf_sortIPs, groupIPsByRole_ips]
    exact ⟨sortStrings_sorted _, sortStrings_perm _⟩
  · intro hnone
    rw [hcontent]
    have hf : pods.filter (fun p => decide (p.Status.PodIP ≠ "" ∧
        p.Status.Phase = PodRunning ∧ podRoleName p ≠ "")) = [] := by
      rw [List.filter_eq_nil_iff]
      intro p hp
      simpa using hnone p hp
    rw [hf]
    rfl

/-- Witness of C24: the pods of the test on the fake clientset, no artifact
stored. The attempt lists the four pods of the group and creates the artifact
with the content of the test under `ips.json`. -/
theorem PodDiscoveryPlugin_content_spec_witness :
    (PodDiscoveryPlugin.newCM testConsts
        (testRequest
          { Name := "model-1", Namespace := "default", UID := "", Annotations := fun _ => none,
            Roles := [] } "group-1")
        (PodDiscoveryPlugin.content quotePlain (roleLabel testConsts.RoleLabelKey)
          (testPods.filter
            (matchesSelector "modelserving.volcano.sh/group-name=group-1")))).Data =
      GoMap.single "ips.json"
        (PodDiscoveryPlugin.content quotePlain (roleLabel testConsts.RoleLabelKey)
          (testPods.filter (matchesSelector "modelserving.volcano.sh/group-name=group-1"))) ∧
    PodDiscoveryPlugin.content quotePlain (roleLabel testConsts.RoleLabelKey)
        (testPods.filter (matchesSelector "modelserving.volcano.sh/group-name=group-1")) =
      "\x7b\"master\":[\"10.0.0.3\"],\"worker\":[\"10.0.0.1\",\"10.0.0.2\"]\x7d" :=
  ⟨((PodDiscoveryPlugin_content_spec quotePlain (roleLabel testConsts.RoleLabelKey) testConsts
      fakeClientset
      (testRequest
        { Name := "model-1", Namespace := "default", UID := "", Annotations := fun _ => none,
          Roles := [] } "group-1")
      { pods := fun _ => testPods, configMaps := Store.empty }
      { pods := fun _ => testPods, configMaps := Store.empty }
      (testPods.filter (matchesSelector "modelserving.volcano.sh/group-name=group-1")) rfl).1
      (.configMap (.create "default"
        (PodDiscoveryPlugin.newCM testConsts
          (testRequest
            { Name := "model-1", Namespace := "default", UID := "",
              Annotations := fun _ => none, Roles := [] } "group-1")
          (PodDiscoveryPlugin.content quotePlain (roleLabel testConsts.RoleLabelKey)
            (testPods.filter
              (matchesSelector "modelserving.volcano.sh/group-name=group-1"))))))
      (by decide)).1 "default" _ rfl,
    (PodDiscoveryPlugin_content_spec quotePlain (roleLabel testConsts.RoleLabelKey) testConsts
      fakeClientset
      (testRequest
        { Name := "model-1", Namespace := "default", UID := "", Annotations := fun _ => none,
          Roles := [] } "group-1")
      { pods := fun _ => testPods, configMaps := Store.empty }
      { pods := fun _ => testPods, configMaps := Store.empty }
      (testPods.filter (matchesSelector "modelserving.volcano.sh/group-name=group-1"))
      rfl).2.2.2.2.2.2⟩

/-! ## The discovery plugin: the retry loop -/

theorem PollImmediate_of_error {σ : Type} (condition : σ → AttemptResult σ) (n : Nat) (s : σ)
    (e : ApiError) (h : (condition s).err = some e) :
    PollImmediate condition n s =
      { err := some (.api e), store := (condition s).store, calls := (condition s).calls,
        attempts := 1 } := by
  cases n <;> simp [PollImmediate, h]

theorem PollImmediate_of_done {σ : Type} (condition : σ → AttemptResult σ) (n : Nat) (s : σ)
    (h1 : (condition s).err = none) (h2 : (condition s).done = true) :
    PollImmediate condition n s =
      { err := none, store := (condition s).store, calls := (condition s).calls,
        attempts := 1 } := by
  cases n <;> simp [PollImmediate, h1, h2]

theorem PollImmediate_of_retry {σ : Type} (condition : σ → AttemptResult σ) (n : Nat) (s : σ)
    (h1 : (condition s).err = none) (h2 : (condition s).done = false) :
    PollImmediate condition (n + 1) s =
      { err := (PollImmediate condition n (condition s).store).err,
        store := (PollImmediate condition n (condition s).store).store,
        calls := (condition s).calls ++ (PollImmediate condition n (condition s).store).calls,
        attempts := (PollImmediate condition n (condition s).store).attempts + 1 } := by
  simp [PollImmediate, h1, h2]

theorem PollImmediate_of_timeout {σ : Type} (condition : σ → AttemptResult σ) (s : σ)
    (h1 : (condition s).err = none) (h2 : (condition s).done = false) :
    PollImmediate condition 0 s =
      { err := some .timeout, store := (condition s).store, calls := (condition s).calls,
        attempts := 1 } := by
  simp [PollImmediate, h1, h2]

/-- The outcome of an attempt, by the results of its calls. -/
theorem attempt_outcome {σ : Type} (enc : String → String)
    (podRoleName : corev1.Pod → String) (C : WorkloadConsts) (K : KubeClient σ)
    (req : HookRequest) (s : σ) :
    (∀ e s1, K.listPods s req.ModelServing.Namespace
        (C.GroupNameLabelKey ++ "=" ++ req.ServingGroup) = (.error e, s1) →
      (PodDiscoveryPlugin.attempt enc podRoleName C K req s).done = false ∧
      (PodDiscoveryPlugin.attempt enc podRoleName C K req s).err = some e ∧
      (PodDiscoveryPlugin.attempt enc podRoleName C K req s).calls =
        [.list req.ModelServing.Namespace (C.GroupNameLabelKey ++ "=" ++ req.ServingGroup)]) ∧
    (∀ pods s1, K.listPods s req.ModelServing.Namespace
        (C.GroupNameLabelKey ++ "=" ++ req.ServingGroup) = (.ok pods, s1) →
      (∀ e s2, K.configMaps.get s1 req.ModelServing.Namespace
          (req.ServingGroup ++ "-discovery") = (.error e, s2) → e ≠ .notFound →
        (PodDiscoveryPlugin.attempt enc podRoleName C K req s).done = false ∧
        (PodDiscoveryPlugin.attempt enc podRoleName C K req s).err = some e ∧
        (PodDiscoveryPlugin.attempt enc podRoleName C K req s).calls =
          [.list req.ModelServing.Namespace (C.GroupNameLabelKey ++ "=" ++ req.ServingGroup),
           .configMap (.get req.ModelServing.Namespace (req.ServingGroup ++ "-discovery"))]) ∧
      (∀ s2, K.configMaps.get s1 req.ModelServing.Namespace
          (req.ServingGroup ++ "-discovery") = (.error .notFound, s2) →
        (PodDiscoveryPlugin.attempt enc podRoleName C K req s).calls =
          [.list req.ModelServing.Namespace (C.GroupNameLabelKey ++ "=" ++ req.ServingGroup),
           .configMap (.get req.ModelServing.Namespace (req.ServingGroup ++ "-discovery")),
           .configMap (.create req.ModelServing.Namespace
             (PodDiscoveryPlugin.newCM C req
               (PodDiscoveryPlugin.content enc podRoleName pods)))] ∧
        (∀ e s3, K.configMaps.create s2 req.ModelServing.Namespace
            (PodDiscoveryPlugin.newCM C req (PodDiscoveryPlugin.content enc podRoleName pods)) =
            (.error e, s3) →
          (PodDiscoveryPlugin.attempt enc podRoleName C K req s).done = false ∧
          (PodDiscoveryPlugin.attempt enc podRoleName C K req s).err =
            (if e = .alreadyExists then none else some e) ∧
          (PodDiscoveryPlugin.attempt enc podRoleName C K req s).store = s3) ∧
        (∀ created s3, K.configMaps.create s2 req.ModelServing.Namespace
            (PodDiscoveryPlugin.newCM C req (PodDiscoveryPlugin.content enc podRoleName pods)) =
            (.ok created, s3) →
          (PodDiscoveryPlugin.attempt enc podRoleName C K req s).done = true ∧
          (PodDiscoveryPlugin.attempt enc podRoleName C K req s).err = none ∧
          (PodDiscoveryPlugin.attempt enc podRoleName C K req s).store = s3)) ∧
      (∀ cm s2, K.configMaps.get s1 req.ModelServing.Namespace
          (req.ServingGroup ++ "-discovery") = (.ok cm, s2) →
        ((PodDiscoveryPlugin.dataOf cm).read "ips.json" =
            PodDiscoveryPlugin.content enc podRoleName pods →
          (PodDiscoveryPlugin.attempt enc podRoleName C K req s).done = true ∧
          (PodDiscoveryPlugin.attempt enc podRoleName C K req s).err = none ∧
          (PodDiscoveryPlugin.attempt enc podRoleName C K req s).store = s2 ∧
          (PodDiscoveryPlugin.attempt enc podRoleName C K req s).calls =
            [.list req.ModelServing.Namespace (C.GroupNameLabelKey ++ "=" ++ req.ServingGroup),
             .configMap (.get req.ModelServing.Namespace (req.ServingGroup ++ "-discovery"))]) ∧
        ((PodDiscoveryPlugin.dataOf cm).read "ips.json" ≠
            PodDiscoveryPlugin.content enc podRoleName pods →
          (PodDiscoveryPlugin.attempt enc podRoleName C K req s).calls =
            [.list req.ModelServing.Namespace (C.GroupNameLabelKey ++ "=" ++ req.ServingGroup),
             .configMap (.get req.ModelServing.Namespace (req.ServingGroup ++ "-discovery")),
             .configMap (.update req.ModelServing.Namespace
               { cm with
                 Data := (PodDiscoveryPlugin.dataOf cm).set "ips.json"
                   (PodDiscoveryPlugin.content enc podRoleName pods) })] ∧
          (∀ e s3, K.configMaps.update s2 req.ModelServing.Namespace
              { cm with
                Data := (PodDiscoveryPlugin.dataOf cm).set "ips.json"
                  (PodDiscoveryPlugin.content enc podRoleName pods) } = (.error e, s3) →
            (PodDiscoveryPlugin.attempt enc podRoleName C K req s).done = false ∧
            (PodDiscoveryPlugin.attempt enc podRoleName C K req s).err =
              (if e = .conflict then none else some e) ∧
            (PodDiscoveryPlugin.attempt enc podRoleName C K req s).store = s3) ∧
          (∀ updated s3, K.configMaps.update s2 req.ModelServing.Namespace
              { cm with
                Data := (PodDiscoveryPlugin.dataOf cm).set "ips.json"
                  (PodDiscoveryPlugin.content enc podRoleName pods) } = (.ok updated, s3) →
            (PodDiscoveryPlugin.attempt enc podRoleName C K req s).done = true ∧
            (PodDiscoveryPlugin.attempt enc podRoleName C K req s).err = none ∧
            (PodDiscoveryPlugin.attempt enc podRoleName C K req s).store = s3)))) := by
  refine ⟨fun e s1 hl => ?_, fun pods s1 hl => ⟨fun e s2 hg hne => ?_, fun s2 hg => ?_,
    fun cm s2 hg => ⟨fun heq => ?_, fun hneq => ?_⟩⟩⟩
  · simp [PodDiscoveryPlugin.attempt, hl]
  · have hg2 : K.configMaps.get s1 req.ModelServing.Namespace
        (req.ServingGroup ++ ConfigMapNameSuffix) = (.error e, s2) := hg
    unfold PodDiscoveryPlugin.attempt
    simp [hl, hg2, hne]
    rfl
  · have hg2 : K.configMaps.get s1 req.ModelServing.Namespace
        (req.ServingGroup ++ ConfigMapNameSuffix) = (.error .notFound, s2) := hg
    refine ⟨?_, fun e s3 hc => ?_, fun created s3 hc => ?_⟩
    · unfold PodDiscoveryPlugin.attempt
      simp only [hl, hg2, if_true]
      rcases hc : K.configMaps.create s2 req.ModelServing.Namespace
          (PodDiscoveryPlugin.newCM C req (PodDiscoveryPlugin.content enc podRoleName pods))
        with ⟨rc, s3⟩
      cases rc with
      | error e2 => simp only []; split_ifs <;> rfl
      | ok v => rfl
    · unfold PodDiscoveryPlugin.attempt
      simp only [hl, hg2, if_true, hc]
      split_ifs <;> simp
    · unfold PodDiscoveryPlugin.attempt
      simp [hl, hg2, hc]
  · have hg2 : K.configMaps.get s1 req.ModelServing.Namespace
        (req.ServingGroup ++ ConfigMapNameSuffix) = (.ok cm, s2) := hg
    have heq2 : (PodDiscoveryPlugin.dataOf cm).read DiscoveryFileName =
        PodDiscoveryPlugin.content enc podRoleName pods := heq
    unfold PodDiscoveryPlugin.attempt
    simp [hl, hg2, heq2]
    rfl
  · have hg2 : K.configMaps.get s1 req.ModelServing.Namespace
        (req.ServingGroup ++ ConfigMapNameSuffix) = (.ok cm, s2) := hg
    have hneq2 : ¬ (PodDiscoveryPlugin.dataOf cm).read DiscoveryFileName =
        PodDiscoveryPlugin.content enc podRoleName pods := hneq
    refine ⟨?_, fun e s3 hu => ?_, fun updated s3 hu => ?_⟩
    · unfold PodDiscoveryPlugin.attempt
      simp only [hl, hg2, hneq2, if_false]
      rcases hu : K.configMaps.update s2 req.ModelServing.Namespace
          { cm with
            Data := (PodDiscoveryPlugin.dataOf cm).set DiscoveryFileName
              (PodDiscoveryPlugin.content enc podRoleName pods) } with ⟨ru, s3⟩
      cases ru with
      | error e2 => simp only []; split_ifs <;> rfl
      | ok v => rfl
    · have hu2 : K.configMaps.update s2 req.ModelServing.Namespace
          { cm with
            Data := (PodDiscoveryPlugin.dataOf cm).set DiscoveryFileName
              (PodDiscoveryPlugin.content enc podRoleName pods) } = (.error e, s3) := hu
      unfold PodDiscoveryPlugin.attempt
      simp only [hl, hg2, hneq2, if_false, hu2]
      split_ifs <;> simp
    · have hu2 : K.configMaps.update s2 req.ModelServing.Namespace
          { cm with
            Data := (PodDiscoveryPlugin.dataOf cm).set DiscoveryFileName
              (PodDiscoveryPlugin.content enc podRoleName pods) } = (.ok updated, s3) := hu
      unfold PodDiscoveryPlugin.attempt
      simp [hl, hg2, hneq2, hu2]

/-- An attempt asks for another one without error only when its create was
refused with AlreadyExists or its update with Conflict. -/
theorem attempt_retry_only_if {σ : Type} (enc : String → String)
    (podRoleName : corev1.Pod → String) (C : WorkloadConsts) (K : KubeClient σ)
    (req : HookRequest) (s : σ)
    (hd : (PodDiscoveryPlugin.attempt enc podRoleName C K req s).done = false)
    (he : (PodDiscoveryPlugin.attempt enc podRoleName C K req s).err = none) :
    ∃ pods s1, K.listPods s req.ModelServing.Namespace
        (C.GroupNameLabelKey ++ "=" ++ req.ServingGroup) = (.ok pods, s1) ∧
      ((∃ s2 s3, K.configMaps.get s1 req.ModelServing.Namespace
            (req.ServingGroup ++ "-discovery") = (.error .notFound, s2) ∧
          K.configMaps.create s2 req.ModelServing.Namespace
            (PodDiscoveryPlugin.newCM C req (PodDiscoveryPlugin.content enc podRoleName pods)) =
            (.error .alreadyExists, s3)) ∨
        (∃ cm s2 s3, K.configMaps.get s1 req.ModelServing.Namespace
            (req.ServingGroup ++ "-discovery") = (.ok cm, s2) ∧
          (PodDiscoveryPlugin.dataOf cm).read "ips.json" ≠
            PodDiscoveryPlugin.content enc podRoleName pods ∧
          K.configMaps.update s2 req.ModelServing.Namespace
            { cm with
              Data := (PodDiscoveryPlugin.dataOf cm).set "ips.json"
                (PodDiscoveryPlugin.content enc podRoleName pods) } = (.error .conflict, s3))) := by
  have T := attempt_outcome enc podRoleName C K req s
  rcases hl : K.listPods s req.ModelServing.Namespace
      (C.GroupNameLabelKey ++ "=" ++ req.ServingGroup) with ⟨rl, s1⟩
  cases rl with
  | error e =>
    have h := (T.1 e s1 hl).2.1
    rw [he] at h
    cases h
  | ok pods =>
    refine ⟨pods, s1, rfl, ?_⟩
    obtain ⟨T1, T2, T3⟩ := T.2 pods s1 hl
    rcases hg : K.configMaps.get s1 req.ModelServing.Namespace
        (req.ServingGroup ++ "-discovery") with ⟨rg, s2⟩
    cases rg with
    | error e =>
      by_cases hne : e = .notFound
      · subst hne
        obtain ⟨_, T2b, T2c⟩ := T2 s2 hg
        rcases hc : K.configMaps.create s2 req.ModelServing.Namespace
            (PodDiscoveryPlugin.newCM C req (PodDiscoveryPlugin.content enc podRoleName pods))
          with ⟨rc, s3⟩
        cases rc with
        | error e2 =>
          have h := (T2b e2 s3 hc).2.1
          rw [he] at h
          by_cases h2 : e2 = .alreadyExists
          · subst h2
            exact Or.inl ⟨s2, s3, rfl, hc⟩
          · rw [if_neg h2] at h
            cases h
        | ok v =>
          have h := (T2c v s3 hc).1
          rw [hd] at h
          cases h
      · have h := (T1 e s2 hg hne).2.1
        rw [he] at h
        cases h
    | ok cm =>
      obtain ⟨T3a, T3b⟩ := T3 cm s2 hg
      by_cases heq : (PodDiscoveryPlugin.dataOf cm).read "ips.json" =
          PodDiscoveryPlugin.content enc podRoleName pods
      · have h := (T3a heq).1
        rw [hd] at h
        cases h
      · obtain ⟨_, T3c, T3d⟩ := T3b heq
        rcases hu : K.configMaps.update s2 req.ModelServing.Namespace
            { cm with
              Data := (PodDiscoveryPlugin.dataOf cm).set "ips.json"
                (PodDiscoveryPlugin.content enc podRoleName pods) } with ⟨ru, s3⟩
        cases ru with
        | error e2 =>
          have h := (T3c e2 s3 hu).2.1
          rw [he] at h
          by_cases h2 : e2 = .conflict
          · subst h2
            exact Or.inr ⟨cm, s2, s3, rfl, heq, hu⟩
          · rw [if_neg h2] at h
            cases h
        | ok v =>
          have h := (T3d v s3 hu).1
          rw [hd] at h
          cases h

theorem attempt_calls_head {σ : Type} (enc : String → String)
    (podRoleName : corev1.Pod → String) (C : WorkloadConsts) (K : KubeClient σ)
    (req : HookRequest) (s : σ) :
    (PodDiscoveryPlugin.attempt enc podRoleName C K req s).calls.head? =
      some (.list req.ModelServing.Namespace (C.GroupNameLabelKey ++ "=" ++ req.ServingGroup)) := by
  unfold PodDiscoveryPlugin.attempt
  simp only []
  repeat' (first | rfl | split)

theorem attempt_done_err {σ : Type} (enc : String → String)
    (podRoleName : corev1.Pod → String) (C : WorkloadConsts) (K : KubeClient σ)
    (req : HookRequest) (s : σ)
    (hd : (PodDiscoveryPlugin.attempt enc podRoleName C K req s).done = true) :
    (PodDiscoveryPlugin.attempt enc podRoleName C K req s).err = none := by
  revert hd
  unfold PodDiscoveryPlugin.attempt
  simp only []
  repeat' (first | (intro h; first | rfl | cases h) | split)

/-- C25: the retry loop of `PodDiscoveryPlugin.OnPodReady`. Every attempt
starts with the listing of the pods, so an attempt made after another redoes
the whole cycle, on the state of the store the attempt before left. An attempt
asks for another one, without error, exactly when its create is refused with
AlreadyExists or its update with Conflict; the loop then goes on, and it ends
with the timeout error when the time is up. An attempt that reports an error
ends the loop with that error, and the errors are: the error of the listing,
the error of the get other than NotFound, the error of the create other than
AlreadyExists, the error of the update other than Conflict. An attempt that
reports done ends the loop with nil, and done is reported after a create or an
update that succeeded and when the content stored equals the content
computed. -/
theorem PodDiscoveryPlugin_OnPodReady_retry {σ : Type} (enc : String → String)
    (podRoleName : corev1.Pod → String) (C : WorkloadConsts) (K : KubeClient σ)
    (req : HookRequest) (s : σ) (retries : Nat) :
    (PodDiscoveryPlugin.attempt enc podRoleName C K req s).calls.head? =
      some (.list req.ModelServing.Namespace (C.GroupNameLabelKey ++ "=" ++ req.ServingGroup)) ∧
    (((PodDiscoveryPlugin.attempt enc podRoleName C K req s).done = false ∧
        (PodDiscoveryPlugin.attempt enc podRoleName C K req s).err = none) ↔
      ∃ pods s1, K.listPods s req.ModelServing.Namespace
          (C.GroupNameLabelKey ++ "=" ++ req.ServingGroup) = (.ok pods, s1) ∧
        ((∃ s2 s3, K.configMaps.get s1 req.ModelServing.Namespace
              (req.ServingGroup ++ "-discovery") = (.error .notFound, s2) ∧
            K.configMaps.create s2 req.ModelServing.Namespace
              (PodDiscoveryPlugin.newCM C req
                (PodDiscoveryPlugin.content enc podRoleName pods)) =
              (.error .alreadyExists, s3)) ∨
          (∃ cm s2 s3, K.configMaps.get s1 req.ModelServing.Namespace
              (req.ServingGroup ++ "-discovery") = (.ok cm, s2) ∧
            (PodDiscoveryPlugin.dataOf cm).read "ips.json" ≠
              PodDiscoveryPlugin.content enc podRoleName pods ∧
            K.configMaps.update s2 req.ModelServing.Namespace
              { cm with
                Data := (PodDiscoveryPlugin.dataOf cm).set "ips.json"
                  (PodDiscoveryPlugin.content enc podRoleName pods) } =
              (.error .conflict, s3)))) ∧
    ((PodDiscoveryPlugin.attempt enc podRoleName C K req s).done = false →
      (PodDiscoveryPlugin.attempt enc podRoleName C K req s).err = none →
      PodDiscoveryPlugin.OnPodReady enc podRoleName C (some K) (retries + 1) req s =
        { err := (PodDiscoveryPlugin.OnPodReady enc podRoleName C (some K) retries req
            (PodDiscoveryPlugin.attempt enc podRoleName C K req s).store).err,
          store := (PodDiscoveryPlugin.OnPodReady enc podRoleName C (some K) retries req
            (PodDiscoveryPlugin.attempt enc podRoleName C K req s).store).store,
          calls := (PodDiscoveryPlugin.attempt enc podRoleName C K req s).calls ++
            (PodDiscoveryPlugin.OnPodReady enc podRoleName C (some K) retries req
              (PodDiscoveryPlugin.attempt enc podRoleName C K req s).store).calls,
          attempts := (PodDiscoveryPlugin.OnPodReady enc podRoleName C (some K) retries req
            (PodDiscoveryPlugin.attempt enc podRoleName C K req s).store).attempts + 1 } ∧
      (PodDiscoveryPlugin.OnPodReady enc podRoleName C (some K) retries req
          (PodDiscoveryPlugin.attempt enc podRoleName C K req s).store).calls.head? =
        some (.list req.ModelServing.Namespace
          (C.GroupNameLabelKey ++ "=" ++ req.ServingGroup)) ∧
      PodDiscoveryPlugin.OnPodReady enc podRoleName C (some K) 0 req s =
        { err := some .timeout,
          store := (PodDiscoveryPlugin.attempt enc podRoleName C K req s).store,
          calls := (PodDiscoveryPlugin.attempt enc podRoleName C K req s).calls,
          attempts := 1 }) ∧
    (∀ e, (PodDiscoveryPlugin.attempt enc podRoleName C K req s).err = some e →
      PodDiscoveryPlugin.OnPodReady enc podRoleName C (some K) retries req s =
        { err := some (.api e),
          store := (PodDiscoveryPlugin.attempt enc podRoleName C K req s).store,
          calls := (PodDiscoveryPlugin.attempt enc podRoleName C K req s).calls,
          attempts := 1 }) ∧
    ((PodDiscoveryPlugin.attempt enc podRoleName C K req s).done = true →
      PodDiscoveryPlugin.OnPodReady enc podRoleName C (some K) retries req s =
        { err := none,
          store := (PodDiscoveryPlugin.attempt enc podRoleName C K req s).store,
          calls := (PodDiscoveryPlugin.attempt enc podRoleName C K req s).calls,
          attempts := 1 }) ∧
    (∀ e s1, K.listPods s req.ModelServing.Namespace
        (C.GroupNameLabelKey ++ "=" ++ req.ServingGroup) = (.error e, s1) →
      (PodDiscoveryPlugin.attempt enc podRoleName C K req s).err = some e) ∧
    (∀ pods s1, K.listPods s req.ModelServing.Namespace
        (C.GroupNameLabelKey ++ "=" ++ req.ServingGroup) = (.ok pods, s1) →
      (∀ e s2, K.configMaps.get s1 req.ModelServing.Namespace
          (req.ServingGroup ++ "-discovery") = (.error e, s2) → e ≠ .notFound →
        (PodDiscoveryPlugin.attempt enc podRoleName C K req s).err = some e) ∧
      (∀ s2, K.configMaps.get s1 req.ModelServing.Namespace
          (req.ServingGroup ++ "-discovery") = (.error .notFound, s2) →
        (∀ e s3, K.configMaps.create s2 req.ModelServing.Namespace
            (PodDiscoveryPlugin.newCM C req (PodDiscoveryPlugin.content enc podRoleName pods)) =
            (.error e, s3) → e ≠ .alreadyExists →
          (PodDiscoveryPlugin.attempt enc podRoleName C K req s).err = some e) ∧
        (∀ created s3, K.configMaps.create s2 req.ModelServing.Namespace
            (PodDiscoveryPlugin.newCM C req (PodDiscoveryPlugin.content enc podRoleName pods)) =
            (.ok created, s3) →
          (PodDiscoveryPlugin.attempt enc podRoleName C K req s).done = true)) ∧
      (∀ cm s2, K.configMaps.get s1 req.ModelServing.Namespace
          (req.ServingGroup ++ "-discovery") = (.ok cm, s2) →
        ((PodDiscoveryPlugin.dataOf cm).read "ips.json" =
            PodDiscoveryPlugin.content enc podRoleName pods →
          (PodDiscoveryPlugin.attempt enc podRoleName C K req s).done = true ∧
          (PodDiscoveryPlugin.attempt enc podRoleName C K req s).calls =
            [.list req.ModelServing.Namespace (C.GroupNameLabelKey ++ "=" ++ req.ServingGroup),
             .configMap (.get req.ModelServing.Namespace (req.ServingGroup ++ "-discovery"))]) ∧
        ((PodDiscoveryPlugin.dataOf cm).read "ips.json" ≠
            PodDiscoveryPlugin.content enc podRoleName pods →
          (∀ e s3, K.configMaps.update s2 req.ModelServing.Namespace
              { cm with
                Data := (PodDiscoveryPlugin.dataOf cm).set "ips.json"
                  (PodDiscoveryPlugin.content enc podRoleName pods) } = (.error e, s3) →
            e ≠ .conflict →
            (PodDiscoveryPlugin.attempt enc podRoleName C K req s).err = some e) ∧
          (∀ updated s3, K.configMaps.update s2 req.ModelServing.Namespace
              { cm with
                Data := (PodDiscoveryPlugin.dataOf cm).set "ips.json"
                  (PodDiscoveryPlugin.content enc podRoleName pods) } = (.ok updated, s3) →
            (PodDiscoveryPlugin.attempt enc podRoleName C K req s).done = true)))) := by
  have T := attempt_outcome enc podRoleName C K req s
  refine ⟨attempt_calls_head enc podRoleName C K req s, ⟨fun h => ?_, fun h => ?_⟩,
    fun hd he => ⟨?_, ?_, ?_⟩, fun e he => ?_, fun hd => ?_, fun e s1 hl => (T.1 e s1 hl).2.1,
    fun pods s1 hl => ⟨fun e s2 hg hne => ((T.2 pods s1 hl).1 e s2 hg hne).2.1,
      fun s2 hg => ⟨fun e s3 hc hne => ?_, fun created s3 hc => ?_⟩,
      fun cm s2 hg => ⟨fun heq => ?_, fun hneq => ⟨fun e s3 hu hne => ?_,
        fun updated s3 hu => ?_⟩⟩⟩⟩
  · exact attempt_retry_only_if enc podRoleName C K req s h.1 h.2
  · obtain ⟨pods, s1, hl, hcase⟩ := h
    obtain ⟨_, T2, T3⟩ := T.2 pods s1 hl
    rcases hcase with ⟨s2, s3, hg, hc⟩ | ⟨cm, s2, s3, hg, hneq, hu⟩
    · have h := ((T2 s2 hg).2.1 _ s3 hc)
      exact ⟨h.1, by rw [h.2.1]; rfl⟩
    · have h := (((T3 cm s2 hg).2 hneq).2.1 _ s3 hu)
      exact ⟨h.1, by rw [h.2.1]; rfl⟩
  · exact PollImmediate_of_retry _ retries s he hd
  · unfold PodDiscoveryPlugin.OnPodReady
    simp only []
    cases retries with
    | zero =>
      unfold PollImmediate
      split
      · exact attempt_calls_head enc podRoleName C K req _
      · split <;> exact attempt_calls_head enc podRoleName C K req _
    | succ n =>
      unfold PollImmediate
      split
      · exact attempt_calls_head enc podRoleName C K req _
      · split
        · exact attempt_calls_head enc podRoleName C K req _
        · have hh := attempt_calls_head enc podRoleName C K req
            (PodDiscoveryPlugin.attempt enc podRoleName C K req s).store
          simp only [List.head?_append, hh]
          rfl
  · exact PollImmediate_of_timeout _ s he hd
  · exact PollImmediate_of_error _ retries s e he
  · exact PollImmediate_of_done _ retries s (attempt_done_err enc podRoleName C K req s hd) hd
  · have h := (((T.2 pods s1 hl).2.1 s2 hg).2.1 e s3 hc).2.1
    rw [h, if_neg hne]
  · exact ((((T.2 pods s1 hl).2.1 s2 hg).2.2 created s3 hc)).1
  · have h := ((T.2 pods s1 hl).2.2 cm s2 hg).1 heq
    exact ⟨h.1, h.2.2.2⟩
  · have h := ((((T.2 pods s1 hl).2.2 cm s2 hg).2 hneq).2.1 e s3 hu).2.1
    rw [h, if_neg hne]
  · exact (((((T.2 pods s1 hl).2.2 cm s2 hg).2 hneq).2.2 updated s3 hu)).1

/-- Witness of C25: the test of the retry. The artifact is stored with the
content of no pod, one pod is Running, and the first update is refused with
Conflict: the first attempt asks for another one, and the hook returns nil
after the second attempt, one conflict counted. -/
theorem PodDiscoveryPlugin_OnPodReady_retry_witness :
    (PodDiscoveryPlugin.attempt quotePlain (roleLabel testConsts.RoleLabelKey) testConsts
      (conflictOnce "group-retry-discovery" fakeClientset)
      (testRequest
        { Name := "model", Namespace := "default", UID := "", Annotations := fun _ => none,
          Roles := [] } "group-retry")
      ({ pods := fun _ =>
          [{ Name := "pod-1",
             Labels := { entries := some [("modelserving.volcano.sh/group-name", "group-retry"),
               ("modelserving.volcano.sh/role", "role")] },
             Status := { Phase := "Running", PodIP := "1.1.1.1" } }],
         configMaps := Store.empty.put "default" "group-retry-discovery"
           (StoredConfigMap.mk [] (GoMap.mk none) 1 (GoMap.single "ips.json" "\x7b\x7d")) },
        0)).done = false ∧
    (PodDiscoveryPlugin.OnPodReady quotePlain (roleLabel testConsts.RoleLabelKey) testConsts
      (some (conflictOnce "group-retry-discovery" fakeClientset)) 50
      (testRequest
        { Name := "model", Namespace := "default", UID := "", Annotations := fun _ => none,
          Roles := [] } "group-retry")
      ({ pods := fun _ =>
          [{ Name := "pod-1",
             Labels := { entries := some [("modelserving.volcano.sh/group-name", "group-retry"),
               ("modelserving.volcano.sh/role", "role")] },
             Status := { Phase := "Running", PodIP := "1.1.1.1" } }],
         configMaps := Store.empty.put "default" "group-retry-discovery"
           (StoredConfigMap.mk [] (GoMap.mk none) 1 (GoMap.single "ips.json" "\x7b\x7d")) },
        0)).err = none ∧
    (PodDiscoveryPlugin.OnPodReady quotePlain (roleLabel testConsts.RoleLabelKey) testConsts
      (some (conflictOnce "group-retry-discovery" fakeClientset)) 50
      (testRequest
        { Name := "model", Namespace := "default", UID := "", Annotations := fun _ => none,
          Roles := [] } "group-retry")
      ({ pods := fun _ =>
          [{ Name := "pod-1",
             Labels := { entries := some [("modelserving.volcano.sh/group-name", "group-retry"),
               ("modelserving.volcano.sh/role", "role")] },
             Status := { Phase := "Running", PodIP := "1.1.1.1" } }],
         configMaps := Store.empty.put "default" "group-retry-discovery"
           (StoredConfigMap.mk [] (GoMap.mk none) 1 (GoMap.single "ips.json" "\x7b\x7d")) },
        0)).attempts = 2 ∧
    (PodDiscoveryPlugin.OnPodReady quotePlain (roleLabel testConsts.RoleLabelKey) testConsts
      (some (conflictOnce "group-retry-discovery" fakeClientset)) 50
      (testRequest
        { Name := "model", Namespace := "default", UID := "", Annotations := fun _ => none,
          Roles := [] } "group-retry")
      ({ pods := fun _ =>
          [{ Name := "pod-1",
             Labels := { entries := some [("modelserving.volcano.sh/group-name", "group-retry"),
               ("modelserving.volcano.sh/role", "role")] },
             Status := { Phase := "Running", PodIP := "1.1.1.1" } }],
         configMaps := Store.empty.put "default" "group-retry-discovery"
           (StoredConfigMap.mk [] (GoMap.mk none) 1 (GoMap.single "ips.json" "\x7b\x7d")) },
        0)).store.2 = 1 := by
  have h := ((PodDiscoveryPlugin_OnPodReady_retry quotePlain (roleLabel testConsts.RoleLabelKey)
    testConsts (conflictOnce "group-retry-discovery" fakeClientset)
    (testRequest
      { Name := "model", Namespace := "default", UID := "", Annotations := fun _ => none,
        Roles := [] } "group-retry")
    ({ pods := fun _ =>
        [{ Name := "pod-1",
           Labels := { entries := some [("modelserving.volcano.sh/group-name", "group-retry"),
             ("modelserving.volcano.sh/role", "role")] },
           Status := { Phase := "Running", PodIP := "1.1.1.1" } }],
       configMaps := Store.empty.put "default" "group-retry-discovery"
         (StoredConfigMap.mk [] (GoMap.mk none) 1 (GoMap.single "ips.json" "\x7b\x7d")) },
      0) 49).2.2.1 (by decide) (by decide)).1
  refine ⟨by decide, ?_, ?_, ?_⟩
  · rw [h]; decide
  · rw [h]; decide
  · rw [h]; decide

/-! ## The hooks OnPodCreate and OnRoleDelete -/

theorem GetRanktableTemplate_level (tm : TemplateManager) (lister : Store)
    (templateName : String) (t : RanktableTemplate)
    (h : GetRanktableTemplate tm lister templateName = .ok t) :
    t.Level = RoleLevelRanktable ∨ t.Level = GroupLevelRanktable := by
  unfold GetRanktableTemplate at h
  cases h1 : lister tm.templateNamespace templateName with
  | none => rw [h1] at h; exact absurd h (by simp)
  | some cm =>
    rw [h1] at h
    dsimp only at h
    by_cases h2 : cm.Data.read "pod-parser-template" = ""
    · rw [if_pos h2] at h; exact absurd h (by simp)
    · rw [if_neg h2] at h
      cases h3 : lister tm.templateNamespace (cm.Data.read "pod-parser-template") with
      | none => rw [h3] at h; exact absurd h (by simp)
      | some parserCM =>
        rw [h3] at h
        dsimp only at h
        by_cases h4 : cm.Data.read "ranktable-level" ≠ RoleLevelRanktable ∧
            cm.Data.read "ranktable-level" ≠ GroupLevelRanktable
        · rw [if_pos h4] at h; exact absurd h (by simp)
        · rw [if_neg h4] at h
          have ht : t = _ := (Except.ok.inj h).symm
          subst ht
          by_cases h5 : cm.Data.read "ranktable-level" = RoleLevelRanktable
          · exact Or.inl h5
          · by_cases h6 : cm.Data.read "ranktable-level" = GroupLevelRanktable
            · exact Or.inr h6
            · exact absurd ⟨h5, h6⟩ h4

theorem overrideLevel_eq (resolved : RanktableTemplate) (annotations : String → Option String) :
    overrideLevel resolved annotations =
      { resolved with Level := (overrideLevel resolved annotations).Level } := by
  unfold overrideLevel
  cases annotations RanktableLevelAnnotation with
  | none => rfl
  | some v =>
    simp only []
    split_ifs <;> rfl

theorem overrideLevel_level (resolved : RanktableTemplate)
    (annotations : String → Option String) :
    (∀ v, annotations RanktableLevelAnnotation = some v → v = "role" ∨ v = "group" →
      (overrideLevel resolved annotations).Level = v) ∧
    (∀ v, annotations RanktableLevelAnnotation = some v → v ≠ "role" → v ≠ "group" →
      (overrideLevel resolved annotations).Level = resolved.Level) ∧
    (annotations RanktableLevelAnnotation = none →
      (overrideLevel resolved annotations).Level = resolved.Level) := by
  refine ⟨fun v hv h => ?_, fun v hv h1 h2 => ?_, fun hv => ?_⟩
  · have h' : v = RoleLevelRanktable ∨ v = GroupLevelRanktable := h
    simp [overrideLevel, hv, h']
  · have h' : ¬ (v = RoleLevelRanktable ∨ v = GroupLevelRanktable) := by
      rintro (h | h)
      · exact h1 h
      · exact h2 h
    simp [overrideLevel, hv, h']
  · simp [overrideLevel, hv]

theorem overrideLevel_valid (resolved : RanktableTemplate)
    (annotations : String → Option String)
    (h : resolved.Level = RoleLevelRanktable ∨ resolved.Level = GroupLevelRanktable) :
    (overrideLevel resolved annotations).Level = RoleLevelRanktable ∨
      (overrideLevel resolved annotations).Level = GroupLevelRanktable := by
  unfold overrideLevel
  cases annotations RanktableLevelAnnotation with
  | none => exact h
  | some v =>
    simp only []
    split_ifs with hv
    · exact hv
    · exact h

theorem EnsureRanktableConfigMap_calls {σ : Type} (K : Client σ) (s : σ) (ns name : String)
    (ownerReferences : List OwnerReference) (labels : GoMap) (filename content : String) :
    (EnsureRanktableConfigMap K s ns name ownerReferences labels filename content).calls.head? =
      some (.get ns name) ∧
    ∀ ns2 cm,
      .create ns2 cm ∈
        (EnsureRanktableConfigMap K s ns name ownerReferences labels filename content).calls →
      cm = EnsureRanktableConfigMap.cm ns name ownerReferences labels filename content := by
  unfold EnsureRanktableConfigMap
  simp only []
  constructor
  · repeat' (first | rfl | split)
  · intro ns2 cm
    repeat' (first | (intro h; simp at h; first | exact h.2 | done) | split)

/-- The hook `OnPodCreate` once the template is resolved. -/
theorem OnPodCreate_of_resolved {σ : Type} (p : RanktablePlugin) (S : SliceSorter) (now : String)
    (L : Libs) (C : WorkloadConsts) (K : Client σ) (req : HookRequest) (pod : PodSpec) (s : σ)
    (resolved : RanktableTemplate)
    (ht : GetRanktableTemplate p.templateManager req.ConfigMapLister p.cfg.Template =
      .ok resolved) :
    p.OnPodCreate S now L C K req pod s =
      match RenderRanktable L (overrideLevel resolved req.ModelServing.Annotations).RanktableTemplate
        (BuildRanktableTemplateData S now RanktableStatusInitializing none) with
      | (_, some e) =>
        { err := some (.render ("failed to render initial ranktable: " ++ e)), store := s,
          calls := [], pod := pod }
      | (ranktableJSON, none) =>
        match (EnsureRanktableConfigMap K s req.ModelServing.Namespace
            (OnPodCreate.cmName (overrideLevel resolved req.ModelServing.Annotations) req)
            [controllerRef C req.ModelServing]
            (OnPodCreate.cmLabels C (overrideLevel resolved req.ModelServing.Annotations) req)
            (overrideLevel resolved req.ModelServing.Annotations).Filename ranktableJSON).err with
        | some e =>
          { err := some (.store e),
            store := (EnsureRanktableConfigMap K s req.ModelServing.Namespace
              (OnPodCreate.cmName (overrideLevel resolved req.ModelServing.Annotations) req)
              [controllerRef C req.ModelServing]
              (OnPodCreate.cmLabels C (overrideLevel resolved req.ModelServing.Annotations) req)
              (overrideLevel resolved req.ModelServing.Annotations).Filename
              ranktableJSON).store,
            calls := (EnsureRanktableConfigMap K s req.ModelServing.Namespace
              (OnPodCreate.cmName (overrideLevel resolved req.ModelServing.Annotations) req)
              [controllerRef C req.ModelServing]
              (OnPodCreate.cmLabels C (overrideLevel resolved req.ModelServing.Annotations) req)
              (overrideLevel resolved req.ModelServing.Annotations).Filename
              ranktableJSON).calls,
            pod := pod }
        | none =>
          { err := none,
            store := (EnsureRanktableConfigMap K s req.ModelServing.Namespace
              (OnPodCreate.cmName (overrideLevel resolved req.ModelServing.Annotations) req)
              [controllerRef C req.ModelServing]
              (OnPodCreate.cmLabels C (overrideLevel resolved req.ModelServing.Annotations) req)
              (overrideLevel resolved req.ModelServing.Annotations).Filename
              ranktableJSON).store,
            calls := (EnsureRanktableConfigMap K s req.ModelServing.Namespace
              (OnPodCreate.cmName (overrideLevel resolved req.ModelServing.Annotations) req)
              [controllerRef C req.ModelServing]
              (OnPodCreate.cmLabels C (overrideLevel resolved req.ModelServing.Annotations) req)
              (overrideLevel resolved req.ModelServing.Annotations).Filename
              ranktableJSON).calls,
            pod := OnPodCreate.inject
              (OnPodCreate.cmName (overrideLevel resolved req.ModelServing.Annotations) req)
              (overrideLevel resolved req.ModelServing.Annotations) pod } := by
  unfold RanktablePlugin.OnPodCreate
  rw [ht]

/-- The pod is changed by `OnPodCreate` only when the hook returns nil. -/
theorem OnPodCreate_pod_of_error {σ : Type} (p : RanktablePlugin) (S : SliceSorter) (now : String)
    (L : Libs) (C : WorkloadConsts) (K : Client σ) (req : HookRequest) (pod : PodSpec) (s : σ)
    (h : (p.OnPodCreate S now L C K req pod s).err ≠ none) :
    (p.OnPodCreate S now L C K req pod s).pod = pod := by
  revert h
  unfold RanktablePlugin.OnPodCreate
  simp only []
  repeat' (first | (intro h; first | rfl | exact absurd rfl h) | split)

/-- The calls `OnPodCreate` issues are those of one upsert under the name and
the labels of the scope, or none. -/
theorem OnPodCreate_calls {σ : Type} (p : RanktablePlugin) (S : SliceSorter) (now : String)
    (L : Libs) (C : WorkloadConsts) (K : Client σ) (req : HookRequest) (pod : PodSpec) (s : σ)
    (resolved : RanktableTemplate)
    (ht : GetRanktableTemplate p.templateManager req.ConfigMapLister p.cfg.Template =
      .ok resolved) :
    (p.OnPodCreate S now L C K req pod s).calls = [] ∨
    ∃ json, (p.OnPodCreate S now L C K req pod s).calls =
      (EnsureRanktableConfigMap K s req.ModelServing.Namespace
        (OnPodCreate.cmName (overrideLevel resolved req.ModelServing.Annotations) req)
        [controllerRef C req.ModelServing]
        (OnPodCreate.cmLabels C (overrideLevel resolved req.ModelServing.Annotations) req)
        (overrideLevel resolved req.ModelServing.Annotations).Filename json).calls := by
  rw [OnPodCreate_of_resolved p S now L C K req pod s resolved ht]
  rcases RenderRanktable L (overrideLevel resolved req.ModelServing.Annotations).RanktableTemplate
      (BuildRanktableTemplateData S now RanktableStatusInitializing none) with ⟨out, rerr⟩
  cases rerr with
  | some e => exact Or.inl rfl
  | none =>
    right
    refine ⟨out, ?_⟩
    simp only []
    split <;> rfl

/-- The calls `OnPodReady` issues are those of one upsert under the name and
the labels of the scope, or none. -/
theorem OnPodReady_calls {σ : Type} (p : RanktablePlugin) (S : SliceSorter) (now : String)
    (L : Libs) (C : WorkloadConsts) (K : Client σ) (req : HookRequest) (s : σ)
    (resolved : RanktableTemplate)
    (ht : GetRanktableTemplate p.templateManager req.ConfigMapLister p.cfg.Template =
      .ok resolved) :
    (p.OnPodReady S now L C K req s).calls = [] ∨
    ∃ json, (p.OnPodReady S now L C K req s).calls =
      (EnsureRanktableConfigMap K s req.ModelServing.Namespace
        (OnPodReady.cmName (overrideLevel resolved req.ModelServing.Annotations) req)
        [controllerRef C req.ModelServing]
        (OnPodReady.cmLabels C (overrideLevel resolved req.ModelServing.Annotations) req)
        (overrideLevel resolved req.ModelServing.Annotations).Filename json).calls := by
  unfold RanktablePlugin.OnPodReady
  rw [ht]
  simp only []
  rcases req.PodLister req.ModelServing.Namespace
      (OnPodReady.labelSet C (overrideLevel resolved req.ModelServing.Annotations) req)
    with e | pods
  · exact Or.inl rfl
  · simp only []
    rcases RenderRanktable L
        (overrideLevel resolved req.ModelServing.Annotations).RanktableTemplate
        (OnPodReady.templateData S now (ParsePodRanktable L)
          (overrideLevel resolved req.ModelServing.Annotations) req.ModelServing.Roles
          req.RoleName pods) with ⟨out, rerr⟩
    cases rerr with
    | some e => exact Or.inl rfl
    | none => exact Or.inr ⟨out, rfl⟩

/-- C27: a failure to resolve the template or to render the document is fatal
and nothing is written. In `OnPodCreate` and in `OnPodReady`, when the
resolution fails the hook returns the error of the resolution, and when the
document does not render, the error of the renderer; in both cases no call is
issued to the store, so no create and no update, and the store is left as it
was. In `OnPodCreate` the pod is left as it was whenever the hook returns an
error, be it of the resolution, of the renderer or of the upsert. -/
theorem hooks_fail_without_write {σ : Type} (p : RanktablePlugin) (S : SliceSorter)
    (now : String) (L : Libs) (C : WorkloadConsts) (K : Client σ) (req : HookRequest)
    (pod : PodSpec) (s : σ) :
    (∀ e, GetRanktableTemplate p.templateManager req.ConfigMapLister p.cfg.Template = .error e →
      (p.OnPodCreate S now L C K req pod s).err =
        some (.template ("failed to get ranktable template: " ++ e)) ∧
      (p.OnPodCreate S now L C K req pod s).calls = [] ∧
      (p.OnPodCreate S now L C K req pod s).store = s ∧
      (p.OnPodCreate S now L C K req pod s).pod = pod) ∧
    (∀ resolved out e,
      GetRanktableTemplate p.templateManager req.ConfigMapLister p.cfg.Template = .ok resolved →
      RenderRanktable L (overrideLevel resolved req.ModelServing.Annotations).RanktableTemplate
        (BuildRanktableTemplateData S now RanktableStatusInitializing none) = (out, some e) →
      (p.OnPodCreate S now L C K req pod s).err =
        some (.render ("failed to render initial ranktable: " ++ e)) ∧
      (p.OnPodCreate S now L C K req pod s).calls = [] ∧
      (p.OnPodCreate S now L C K req pod s).store = s ∧
      (p.OnPodCreate S now L C K req pod s).pod = pod) ∧
    ((p.OnPodCreate S now L C K req pod s).err ≠ none →
      (p.OnPodCreate S now L C K req pod s).pod = pod) ∧
    (∀ e, GetRanktableTemplate p.templateManager req.ConfigMapLister p.cfg.Template = .error e →
      (p.OnPodReady S now L C K req s).err =
        some (.template ("failed to get ranktable template: " ++ e)) ∧
      (p.OnPodReady S now L C K req s).calls = [] ∧
      (p.OnPodReady S now L C K req s).store = s) ∧
    (∀ resolved pods out e,
      GetRanktableTemplate p.templateManager req.ConfigMapLister p.cfg.Template = .ok resolved →
      req.PodLister req.ModelServing.Namespace
        (OnPodReady.labelSet C (overrideLevel resolved req.ModelServing.Annotations) req) =
        .ok pods →
      RenderRanktable L (overrideLevel resolved req.ModelServing.Annotations).RanktableTemplate
        (OnPodReady.templateData S now (ParsePodRanktable L)
          (overrideLevel resolved req.ModelServing.Annotations) req.ModelServing.Roles
          req.RoleName pods) = (out, some e) →
      (p.OnPodReady S now L C K req s).err =
        some (.render ("failed to render ranktable: " ++ e)) ∧
      (p.OnPodReady S now L C K req s).calls = [] ∧
      (p.OnPodReady S now L C K req s).store = s) := by
  refine ⟨fun e ht => ?_, fun resolved out e ht hr => ?_,
    OnPodCreate_pod_of_error p S now L C K req pod s, fun e ht => ?_,
    fun resolved pods out e ht hl hr => ?_⟩
  · unfold RanktablePlugin.OnPodCreate
    rw [ht]
    exact ⟨rfl, rfl, rfl, rfl⟩
  · rw [OnPodCreate_of_resolved p S now L C K req pod s resolved ht, hr]
    exact ⟨rfl, rfl, rfl, rfl⟩
  · unfold RanktablePlugin.OnPodReady
    rw [ht]
    exact ⟨rfl, rfl, rfl⟩
  · rw [OnPodReady_of_listed p S now L C K req s resolved pods ht hl, hr]
    exact ⟨rfl, rfl, rfl⟩

/-- Witness of C27: a ranktable template whose output is not JSON makes
`OnPodCreate` fail without any call; a store that refuses the create makes it
fail after the calls, and the pod is left as it was. -/
theorem hooks_fail_without_write_witness :
    ((RanktablePlugin.OnPodCreate testPlugin goInsertionSort "t" basicLibs testConsts apiServer
        (testHookRequest (fun _ => none) (testTemplates "role" "oops")) testPodSpec
        Store.empty).err =
      some (.render ("failed to render initial ranktable: " ++
        "generated ranktable is not valid JSON: invalid character")) ∧
    (RanktablePlugin.OnPodCreate testPlugin goInsertionSort "t" basicLibs testConsts apiServer
        (testHookRequest (fun _ => none) (testTemplates "role" "oops")) testPodSpec
        Store.empty).calls = [] ∧
    (RanktablePlugin.OnPodCreate testPlugin goInsertionSort "t" basicLibs testConsts apiServer
        (testHookRequest (fun _ => none) (testTemplates "role" "oops")) testPodSpec
        Store.empty).store = Store.empty ∧
    (RanktablePlugin.OnPodCreate testPlugin goInsertionSort "t" basicLibs testConsts apiServer
        (testHookRequest (fun _ => none) (testTemplates "role" "oops")) testPodSpec
        Store.empty).pod = testPodSpec) ∧
    (RanktablePlugin.OnPodCreate testPlugin goInsertionSort "t" basicLibs testConsts
        (refusingClient (.other "forbidden"))
        (testHookRequest (fun _ => none) (testTemplates "role" "null")) testPodSpec
        Store.empty).pod = testPodSpec :=
  ⟨(hooks_fail_without_write testPlugin goInsertionSort "t" basicLibs testConsts apiServer
      (testHookRequest (fun _ => none) (testTemplates "role" "oops")) testPodSpec
      Store.empty).2.1
      { InferenceEngine := "", Level := "role", PodParserTemplate := "",
        RanktableTemplate := "oops", MountPath := "/etc/ranktable",
        Filename := "ranktable.json", PodAnnotationName := "ascend.com/ranktable" }
      "" "generated ranktable is not valid JSON: invalid character" rfl rfl,
    (hooks_fail_without_write testPlugin goInsertionSort "t" basicLibs testConsts
      (refusingClient (.other "forbidden"))
      (testHookRequest (fun _ => none) (testTemplates "role" "null")) testPodSpec
      Store.empty).2.2.1 (by decide)⟩

theorem OnRoleDelete_of_resolved {σ : Type} (p : RanktablePlugin) (delete : DeleteCall σ)
    (req : HookRequest) (s : σ) (resolved : RanktableTemplate)
    (ht : GetRanktableTemplate p.templateManager req.ConfigMapLister p.cfg.Template =
      .ok resolved) :
    ((overrideLevel resolved req.ModelServing.Annotations).Level = RoleLevelRanktable →
      (p.OnRoleDelete delete req s).deletes =
        [(req.ModelServing.Namespace, GenerateRanktableConfigMapName req.ModelServing.Name
          (req.ServingGroup ++ "-" ++ req.RoleID))] ∧
      (p.OnRoleDelete delete req s).store =
        (delete s req.ModelServing.Namespace (GenerateRanktableConfigMapName
          req.ModelServing.Name (req.ServingGroup ++ "-" ++ req.RoleID))).2 ∧
      (p.OnRoleDelete delete req s).err =
        match (delete s req.ModelServing.Namespace (GenerateRanktableConfigMapName
          req.ModelServing.Name (req.ServingGroup ++ "-" ++ req.RoleID))).1 with
        | some e => if e ≠ .notFound then some (.store e) else none
        | none => none) ∧
    ((overrideLevel resolved req.ModelServing.Annotations).Level ≠ RoleLevelRanktable →
      p.OnRoleDelete delete req s = { err := none, store := s, deletes := [] }) := by
  constructor
  · intro hlvl
    unfold RanktablePlugin.OnRoleDelete
    rw [ht]
    simp only [hlvl, if_true]
    rcases delete s req.ModelServing.Namespace (GenerateRanktableConfigMapName
        req.ModelServing.Name (req.ServingGroup ++ "-" ++ req.RoleID)) with ⟨r, s1⟩
    cases r with
    | none => exact ⟨rfl, rfl, rfl⟩
    | some e =>
      simp only []
      split_ifs <;> exact ⟨rfl, rfl, rfl⟩
  · intro hlvl
    unfold RanktablePlugin.OnRoleDelete
    rw [ht]
    simp only [hlvl, if_false]

theorem cmName_role (template : RanktableTemplate) (req : HookRequest)
    (h : template.Level = RoleLevelRanktable) :
    OnPodCreate.cmName template req =
      req.ModelServing.Name ++ "-" ++ req.ServingGroup ++ "-" ++ req.RoleID ++ "-ranktable" := by
  simp only [OnPodCreate.cmName, h, if_true, GenerateRanktableConfigMapName,
    RanktableConfigMapSuffix, String.append_assoc]
  rfl

theorem cmName_group (template : RanktableTemplate) (req : HookRequest)
    (h : template.Level ≠ RoleLevelRanktable) :
    OnPodCreate.cmName template req =
      req.ModelServing.Name ++ "-" ++ req.ServingGroup ++ "-ranktable" := by
  simp only [OnPodCreate.cmName, h, if_false, GenerateRanktableConfigMapName,
    RanktableConfigMapSuffix, String.append_assoc]
  rfl

/-- C28: the hooks of `RanktablePlugin` agree on the artifact. With the
template resolved and the level overridden, the level is `role` or `group`;
at role level the name is `<workload>-<group>-<roleID>-ranktable`, at group
level `<workload>-<group>-ranktable`, and `OnPodCreate` and `OnPodReady`
compute the same name. It is the name of the ConfigMap the volume of
`OnPodCreate` references, the name `OnPodCreate` and `OnPodReady` get first and
the name of every object they create. At role level `OnRoleDelete` issues one
delete, of that name; at group level it issues none, returns nil and leaves the
store as it is; and a NotFound on the delete makes it return nil. -/
theorem hooks_agree_on_artifact {σ : Type} (p : RanktablePlugin) (S : SliceSorter)
    (now : String) (L : Libs) (C : WorkloadConsts) (K : Client σ) (delete : DeleteCall σ)
    (req : HookRequest) (pod : PodSpec) (s : σ) (resolved : RanktableTemplate)
    (ht : GetRanktableTemplate p.templateManager req.ConfigMapLister p.cfg.Template =
      .ok resolved) :
    ((overrideLevel resolved req.ModelServing.Annotations).Level = "role" ∨
      (overrideLevel resolved req.ModelServing.Annotations).Level = "group") ∧
    ((overrideLevel resolved req.ModelServing.Annotations).Level = "role" →
      OnPodCreate.cmName (overrideLevel resolved req.ModelServing.Annotations) req =
        req.ModelServing.Name ++ "-" ++ req.ServingGroup ++ "-" ++ req.RoleID ++
          "-ranktable") ∧
    ((overrideLevel resolved req.ModelServing.Annotations).Level = "group" →
      OnPodCreate.cmName (overrideLevel resolved req.ModelServing.Annotations) req =
        req.ModelServing.Name ++ "-" ++ req.ServingGroup ++ "-ranktable") ∧
    OnPodReady.cmName (overrideLevel resolved req.ModelServing.Annotations) req =
      OnPodCreate.cmName (overrideLevel resolved req.ModelServing.Annotations) req ∧
    ((p.OnPodCreate S now L C K req pod s).err = none →
      (p.OnPodCreate S now L C K req pod s).pod.Volumes =
        pod.Volumes ++
          [{ Name := "ranktable",
             ConfigMap := some
               { Name := OnPodCreate.cmName
                   (overrideLevel resolved req.ModelServing.Annotations) req,
                 Optional := none } }] ∧
      (p.OnPodCreate S now L C K req pod s).calls.head? =
        some (.get req.ModelServing.Namespace
          (OnPodCreate.cmName (overrideLevel resolved req.ModelServing.Annotations) req))) ∧
    (∀ c ∈ (p.OnPodCreate S now L C K req pod s).calls.head?, c =
      .get req.ModelServing.Namespace
        (OnPodCreate.cmName (overrideLevel resolved req.ModelServing.Annotations) req)) ∧
    (∀ ns cm, .create ns cm ∈ (p.OnPodCreate S now L C K req pod s).calls →
      cm.Name = OnPodCreate.cmName (overrideLevel resolved req.ModelServing.Annotations) req) ∧
    (∀ c ∈ (p.OnPodReady S now L C K req s).calls.head?, c =
      .get req.ModelServing.Namespace
        (OnPodCreate.cmName (overrideLevel resolved req.ModelServing.Annotations) req)) ∧
    (∀ ns cm, .create ns cm ∈ (p.OnPodReady S now L C K req s).calls →
      cm.Name = OnPodCreate.cmName (overrideLevel resolved req.ModelServing.Annotations) req) ∧
    ((p.OnPodReady S now L C K req s).err = none →
      (p.OnPodReady S now L C K req s).calls.head? =
        some (.get req.ModelServing.Namespace
          (OnPodCreate.cmName (overrideLevel resolved req.ModelServing.Annotations) req))) ∧
    ((overrideLevel resolved req.ModelServing.Annotations).Level = "role" →
      (p.OnRoleDelete delete req s).deletes =
        [(req.ModelServing.Namespace,
          OnPodCreate.cmName (overrideLevel resolved req.ModelServing.Annotations) req)]) ∧
    ((overrideLevel resolved req.ModelServing.Annotations).Level = "group" →
      p.OnRoleDelete delete req s = { err := none, store := s, deletes := [] }) ∧
    (∀ s1, delete s req.ModelServing.Namespace
        (OnPodCreate.cmName (overrideLevel resolved req.ModelServing.Annotations) req) =
        (some .notFound, s1) →
      (p.OnRoleDelete delete req s).err = none) := by
  have hlevel := overrideLevel_valid resolved req.ModelServing.Annotations
    (GetRanktableTemplate_level _ _ _ _ ht)
  have hgr : ∀ t : RanktableTemplate, t.Level = "group" → t.Level ≠ RoleLevelRanktable := by
    intro t h1 h2
    rw [h1] at h2
    exact absurd h2 (by decide)
  have hcreate := OnPodCreate_calls p S now L C K req pod s resolved ht
  have hready := OnPodReady_calls p S now L C K req s resolved ht
  have hdel := OnRoleDelete_of_resolved p delete req s resolved ht
  refine ⟨hlevel, fun h => cmName_role _ req h, fun h => cmName_group _ req (hgr _ h), rfl,
    fun herr => ?_, ?_, ?_, ?_, ?_, fun herr => ?_, fun h => ?_, fun h => hdel.2 (hgr _ h),
    fun s1 hd => ?_⟩
  · rw [OnPodCreate_of_resolved p S now L C K req pod s resolved ht] at herr ⊢
    rcases hr : RenderRanktable L
        (overrideLevel resolved req.ModelServing.Annotations).RanktableTemplate
        (BuildRanktableTemplateData S now RanktableStatusInitializing none) with ⟨out, rerr⟩
    rw [hr] at herr
    cases rerr with
    | some e => exact absurd herr (by simp)
    | none =>
      simp only [] at herr ⊢
      cases he : (EnsureRanktableConfigMap K s req.ModelServing.Namespace
          (OnPodCreate.cmName (overrideLevel resolved req.ModelServing.Annotations) req)
          [controllerRef C req.ModelServing]
          (OnPodCreate.cmLabels C (overrideLevel resolved req.ModelServing.Annotations) req)
          (overrideLevel resolved req.ModelServing.Annotations).Filename out).err with
      | some e =>
        rw [he] at herr
        exact absurd herr (by simp)
      | none =>
        exact ⟨rfl, (EnsureRanktableConfigMap_calls K s _ _ _ _ _ _).1⟩
  · intro c hc
    rcases hcreate with h | ⟨json, h⟩
    · rw [h] at hc; cases hc
    · rw [h, (EnsureRanktableConfigMap_calls K s _ _ _ _ _ _).1] at hc
      exact (Option.mem_some_iff.1 hc).symm
  · intro ns cm hc
    rcases hcreate with h | ⟨json, h⟩
    · rw [h] at hc; cases hc
    · rw [h] at hc
      rw [(EnsureRanktableConfigMap_calls K s _ _ _ _ _ _).2 ns cm hc]
      rfl
  · intro c hc
    rcases hready with h | ⟨json, h⟩
    · rw [h] at hc; cases hc
    · rw [h, (EnsureRanktableConfigMap_calls K s _ _ _ _ _ _).1] at hc
      exact (Option.mem_some_iff.1 hc).symm
  · intro ns cm hc
    rcases hready with h | ⟨json, h⟩
    · rw [h] at hc; cases hc
    · rw [h] at hc
      rw [(EnsureRanktableConfigMap_calls K s _ _ _ _ _ _).2 ns cm hc]
      rfl
  · revert herr
    unfold RanktablePlugin.OnPodReady
    rw [ht]
    simp only []
    rcases req.PodLister req.ModelServing.Namespace
        (OnPodReady.labelSet C (overrideLevel resolved req.ModelServing.Annotations) req)
      with e | pods
    · intro herr; exact absurd herr (by simp)
    · simp only []
      rcases RenderRanktable L
          (overrideLevel resolved req.ModelServing.Annotations).RanktableTemplate
          (OnPodReady.templateData S now (ParsePodRanktable L)
            (overrideLevel resolved req.ModelServing.Annotations) req.ModelServing.Roles
            req.RoleName pods) with ⟨out, rerr⟩
      cases rerr with
      | some e => intro herr; exact absurd herr (by simp)
      | none =>
        intro _
        exact (EnsureRanktableConfigMap_calls K s _ _ _ _ _ _).1
  · have h' : (overrideLevel resolved req.ModelServing.Annotations).Level =
        RoleLevelRanktable := h
    rw [(hdel.1 h').1]
    simp only [OnPodCreate.cmName, h', if_true]
  · rcases hlevel with h | h
    · have hd2 : delete s req.ModelServing.Namespace (GenerateRanktableConfigMapName
          req.ModelServing.Name (req.ServingGroup ++ "-" ++ req.RoleID)) =
          (some .notFound, s1) := by
        simpa only [OnPodCreate.cmName, h, if_true] using hd
      rw [(hdel.1 h).2.2, hd2]
      simp
    · have hne : (overrideLevel resolved req.ModelServing.Annotations).Level ≠
          RoleLevelRanktable := by
        rw [h]; decide
      rw [hdel.2 hne]

/-- Witness of C28: the workload `llama`, serving group `llama-0`, role
instance `prefill-0`, at role level; the artifact is absent from the store, so
the delete reports NotFound. -/
theorem hooks_agree_on_artifact_witness :
    (RanktablePlugin.OnPodCreate testPlugin goInsertionSort "t" basicLibs testConsts apiServer
        (testHookRequest (fun _ => none) (testTemplates "role" "null")) testPodSpec
        Store.empty).pod.Volumes =
      [{ Name := "ranktable",
         ConfigMap := some { Name := "llama-llama-0-prefill-0-ranktable", Optional := none } }] ∧
    (RanktablePlugin.OnPodReady testPlugin goInsertionSort "t" basicLibs testConsts apiServer
        (testHookRequest (fun _ => none) (testTemplates "role" "null")) Store.empty).calls.head? =
      some (.get "default" "llama-llama-0-prefill-0-ranktable") ∧
    (RanktablePlugin.OnRoleDelete testPlugin apiServerDelete
        (testHookRequest (fun _ => none) (testTemplates "role" "null")) Store.empty).deletes =
      [("default", "llama-llama-0-prefill-0-ranktable")] ∧
    (RanktablePlugin.OnRoleDelete testPlugin apiServerDelete
        (testHookRequest (fun _ => none) (testTemplates "role" "null")) Store.empty).err = none :=
  ⟨((hooks_agree_on_artifact testPlugin goInsertionSort "t" basicLibs testConsts apiServer
      apiServerDelete (testHookRequest (fun _ => none) (testTemplates "role" "null"))
      testPodSpec Store.empty
      { InferenceEngine := "", Level := "role", PodParserTemplate := "",
        RanktableTemplate := "null", MountPath := "/etc/ranktable",
        Filename := "ranktable.json", PodAnnotationName := "ascend.com/ranktable" }
      rfl).2.2.2.2.1 (by decide)).1,
    (hooks_agree_on_artifact testPlugin goInsertionSort "t" basicLibs testConsts apiServer
      apiServerDelete (testHookRequest (fun _ => none) (testTemplates "role" "null"))
      testPodSpec Store.empty
      { InferenceEngine := "", Level := "role", PodParserTemplate := "",
        RanktableTemplate := "null", MountPath := "/etc/ranktable",
        Filename := "ranktable.json", PodAnnotationName := "ascend.com/ranktable" }
      rfl).2.2.2.2.2.2.2.2.2.1 (by decide),
    (hooks_agree_on_artifact testPlugin goInsertionSort "t" basicLibs testConsts apiServer
      apiServerDelete (testHookRequest (fun _ => none) (testTemplates "role" "null"))
      testPodSpec Store.empty
      { InferenceEngine := "", Level := "role", PodParserTemplate := "",
        RanktableTemplate := "null", MountPath := "/etc/ranktable",
        Filename := "ranktable.json", PodAnnotationName := "ascend.com/ranktable" }
      rfl).2.2.2.2.2.2.2.2.2.2.1 rfl,
    (hooks_agree_on_artifact testPlugin goInsertionSort "t" basicLibs testConsts apiServer
      apiServerDelete (testHookRequest (fun _ => none) (testTemplates "role" "null"))
      testPodSpec Store.empty
      { InferenceEngine := "", Level := "role", PodParserTemplate := "",
        RanktableTemplate := "null", MountPath := "/etc/ranktable",
        Filename := "ranktable.json", PodAnnotationName := "ascend.com/ranktable" }
      rfl).2.2.2.2.2.2.2.2.2.2.2.2 Store.empty rfl⟩

theorem cmLabels_level (C : WorkloadConsts) (template : RanktableTemplate) (req : HookRequest)
    (h : template.Level = RoleLevelRanktable ∨ template.Level = GroupLevelRanktable) :
    (OnPodCreate.cmLabels C template req).read "ranktable-level" = template.Level ∧
    (OnPodReady.cmLabels C template req).read "ranktable-level" = template.Level := by
  rcases h with h | h
  · simp only [OnPodCreate.cmLabels, OnPodReady.cmLabels, h, if_true, GoMap.read_set, and_self]
  · have hne : ¬ GroupLevelRanktable = RoleLevelRanktable := by decide
    simp only [OnPodCreate.cmLabels, OnPodReady.cmLabels, h, hne, if_false, GoMap.read_set,
      and_self]

/-- C23: the level override of the hooks. With the template resolved, the
level the hooks go on with is the value of the annotation
`kthena.io/ranktable-level` of the workload when that is `role` or `group`, and
the level resolved when the annotation is absent or has another value; no
other field of the template is changed. The level so obtained is the one the
hooks choose by: `OnPodReady` asks the pod lister for the label set of that
level and for nothing else, `OnPodCreate` and `OnPodReady` name and label the
objects they create by that level, the label `ranktable-level` carrying it,
`OnPodCreate` mounts the ConfigMap named by that level, and `OnRoleDelete`
issues a delete exactly when that level is `role`. -/
theorem hooks_level_override {σ : Type} (p : RanktablePlugin) (S : SliceSorter)
    (now : String) (L : Libs) (C : WorkloadConsts) (K : Client σ) (delete : DeleteCall σ)
    (req : HookRequest) (pod : PodSpec) (s : σ) (resolved : RanktableTemplate)
    (ht : GetRanktableTemplate p.templateManager req.ConfigMapLister p.cfg.Template =
      .ok resolved) :
    (∀ v, req.ModelServing.Annotations "kthena.io/ranktable-level" = some v →
      v = "role" ∨ v = "group" →
      (overrideLevel resolved req.ModelServing.Annotations).Level = v) ∧
    (∀ v, req.ModelServing.Annotations "kthena.io/ranktable-level" = some v →
      v ≠ "role" → v ≠ "group" →
      (overrideLevel resolved req.ModelServing.Annotations).Level = resolved.Level) ∧
    (req.ModelServing.Annotations "kthena.io/ranktable-level" = none →
      (overrideLevel resolved req.ModelServing.Annotations).Level = resolved.Level) ∧
    overrideLevel resolved req.ModelServing.Annotations =
      { resolved with Level := (overrideLevel resolved req.ModelServing.Annotations).Level } ∧
    (∀ lister : String → GoMap → Except String (List Pod),
      lister req.ModelServing.Namespace
          (OnPodReady.labelSet C (overrideLevel resolved req.ModelServing.Annotations) req) =
        req.PodLister req.ModelServing.Namespace
          (OnPodReady.labelSet C (overrideLevel resolved req.ModelServing.Annotations) req) →
      p.OnPodReady S now L C K { req with PodLister := lister } s =
        p.OnPodReady S now L C K req s) ∧
    OnPodReady.labelSet C (overrideLevel resolved req.ModelServing.Annotations) req =
      (if (overrideLevel resolved req.ModelServing.Annotations).Level = "role" then
        ((GoMap.single C.ModelServingNameLabelKey req.ModelServing.Name).set
          C.GroupNameLabelKey req.ServingGroup).set C.RoleIDKey req.RoleID
      else
        (GoMap.single C.ModelServingNameLabelKey req.ModelServing.Name).set
          C.GroupNameLabelKey req.ServingGroup) ∧
    (∀ ns cm, .create ns cm ∈ (p.OnPodReady S now L C K req s).calls →
      cm.Name = OnPodReady.cmName (overrideLevel resolved req.ModelServing.Annotations) req ∧
      cm.Labels =
        OnPodReady.cmLabels C (overrideLevel resolved req.ModelServing.Annotations) req ∧
      cm.Labels.read "ranktable-level" =
        (overrideLevel resolved req.ModelServing.Annotations).Level) ∧
    (∀ ns cm, .create ns cm ∈ (p.OnPodCreate S now L C K req pod s).calls →
      cm.Name = OnPodCreate.cmName (overrideLevel resolved req.ModelServing.Annotations) req ∧
      cm.Labels =
        OnPodCreate.cmLabels C (overrideLevel resolved req.ModelServing.Annotations) req ∧
      cm.Labels.read "ranktable-level" =
        (overrideLevel resolved req.ModelServing.Annotations).Level) ∧
    ((p.OnPodCreate S now L C K req pod s).err = none →
      (p.OnPodCreate S now L C K req pod s).pod =
        OnPodCreate.inject
          (OnPodCreate.cmName (overrideLevel resolved req.ModelServing.Annotations) req)
          (overrideLevel resolved req.ModelServing.Annotations) pod) ∧
    (OnPodCreate.cmName (overrideLevel resolved req.ModelServing.Annotations) req =
      if (overrideLevel resolved req.ModelServing.Annotations).Level = "role" then
        GenerateRanktableConfigMapName req.ModelServing.Name
          (req.ServingGroup ++ "-" ++ req.RoleID)
      else GenerateRanktableConfigMapName req.ModelServing.Name req.ServingGroup) ∧
    (p.OnRoleDelete delete req s).deletes =
      (if (overrideLevel resolved req.ModelServing.Annotations).Level = "role" then
        [(req.ModelServing.Namespace, GenerateRanktableConfigMapName req.ModelServing.Name
          (req.ServingGroup ++ "-" ++ req.RoleID))]
      else []) := by
  have hlv := overrideLevel_level resolved req.ModelServing.Annotations
  have hvalid := overrideLevel_valid resolved req.ModelServing.Annotations
    (GetRanktableTemplate_level _ _ _ _ ht)
  have hlab := cmLabels_level C (overrideLevel resolved req.ModelServing.Annotations) req hvalid
  have hcreate := OnPodCreate_calls p S now L C K req pod s resolved ht
  have hready := OnPodReady_calls p S now L C K req s resolved ht
  have hdel := OnRoleDelete_of_resolved p delete req s resolved ht
  refine ⟨hlv.1, hlv.2.1, hlv.2.2, overrideLevel_eq _ _, fun lister hl => ?_, rfl, ?_, ?_,
    fun herr => ?_, rfl, ?_⟩
  · unfold RanktablePlugin.OnPodReady
    simp only [ht]
    rw [← hl]
    rfl
  · intro ns cm hc
    rcases hready with h | ⟨json, h⟩
    · rw [h] at hc; cases hc
    · rw [h] at hc
      rw [(EnsureRanktableConfigMap_calls K s _ _ _ _ _ _).2 ns cm hc]
      exact ⟨rfl, rfl, hlab.2⟩
  · intro ns cm hc
    rcases hcreate with h | ⟨json, h⟩
    · rw [h] at hc; cases hc
    · rw [h] at hc
      rw [(EnsureRanktableConfigMap_calls K s _ _ _ _ _ _).2 ns cm hc]
      exact ⟨rfl, rfl, hlab.1⟩
  · rw [OnPodCreate_of_resolved p S now L C K req pod s resolved ht] at herr ⊢
    rcases hr : RenderRanktable L
        (overrideLevel resolved req.ModelServing.Annotations).RanktableTemplate
        (BuildRanktableTemplateData S now RanktableStatusInitializing none) with ⟨out, rerr⟩
    rw [hr] at herr
    cases rerr with
    | some e => exact absurd herr (by simp)
    | none =>
      simp only [] at herr ⊢
      cases he : (EnsureRanktableConfigMap K s req.ModelServing.Namespace
          (OnPodCreate.cmName (overrideLevel resolved req.ModelServing.Annotations) req)
          [controllerRef C req.ModelServing]
          (OnPodCreate.cmLabels C (overrideLevel resolved req.ModelServing.Annotations) req)
          (overrideLevel resolved req.ModelServing.Annotations).Filename out).err with
      | some e =>
        rw [he] at herr
        exact absurd herr (by simp)
      | none => rfl
  · by_cases h : (overrideLevel resolved req.ModelServing.Annotations).Level = RoleLevelRanktable
    · rw [(hdel.1 h).1]
      exact (if_pos h).symm
    · rw [hdel.2 h]
      exact (if_neg h).symm

/-- Witness of C23: the template says `role` and the workload carries the
annotation with the value `group`. The hooks go on at group level:
`OnRoleDelete` issues no delete and `OnPodCreate` mounts the group-level
ConfigMap. -/
theorem hooks_level_override_witness :
    (overrideLevel
        { InferenceEngine := "", Level := "role", PodParserTemplate := "",
          RanktableTemplate := "null", MountPath := "/etc/ranktable",
          Filename := "ranktable.json", PodAnnotationName := "ascend.com/ranktable" }
        (fun k => if k = "kthena.io/ranktable-level" then some "group" else none)).Level =
      "group" ∧
    (RanktablePlugin.OnRoleDelete testPlugin apiServerDelete
        (testHookRequest (fun k => if k = "kthena.io/ranktable-level" then some "group" else none)
          (testTemplates "role" "null")) Store.empty).deletes = [] ∧
    (RanktablePlugin.OnPodCreate testPlugin goInsertionSort "t" basicLibs testConsts apiServer
        (testHookRequest (fun k => if k = "kthena.io/ranktable-level" then some "group" else none)
          (testTemplates "role" "null")) testPodSpec Store.empty).pod.Volumes =
      [{ Name := "ranktable",
         ConfigMap := some { Name := "llama-llama-0-ranktable", Optional := none } }] :=
  ⟨(hooks_level_override testPlugin goInsertionSort "t" basicLibs testConsts apiServer
      apiServerDelete
      (testHookRequest (fun k => if k = "kthena.io/ranktable-level" then some "group" else none)
        (testTemplates "role" "null")) testPodSpec Store.empty
      { InferenceEngine := "", Level := "role", PodParserTemplate := "",
        RanktableTemplate := "null", MountPath := "/etc/ranktable",
        Filename := "ranktable.json", PodAnnotationName := "ascend.com/ranktable" }
      rfl).1 "group" rfl (Or.inr rfl),
    (hooks_level_override testPlugin goInsertionSort "t" basicLibs testConsts apiServer
      apiServerDelete
      (testHookRequest (fun k => if k = "kthena.io/ranktable-level" then some "group" else none)
        (testTemplates "role" "null")) testPodSpec Store.empty
      { InferenceEngine := "", Level := "role", PodParserTemplate := "",
        RanktableTemplate := "null", MountPath := "/etc/ranktable",
        Filename := "ranktable.json", PodAnnotationName := "ascend.com/ranktable" }
      rfl).2.2.2.2.2.2.2.2.2.2,
    congrArg PodSpec.Volumes
      ((hooks_level_override testPlugin goInsertionSort "t" basicLibs testConsts apiServer
        apiServerDelete
        (testHookRequest (fun k => if k = "kthena.io/ranktable-level" then some "group" else none)
          (testTemplates "role" "null")) testPodSpec Store.empty
        { InferenceEngine := "", Level := "role", PodParserTemplate := "",
          RanktableTemplate := "null", MountPath := "/etc/ranktable",
          Filename := "ranktable.json", PodAnnotationName := "ascend.com/ranktable" }
        rfl).2.2.2.2.2.2.2.2.1 (by decide))⟩

theorem EnsureRanktableConfigMap_updates {σ : Type} (K : Client σ) (s : σ) (ns name : String)
    (ownerReferences : List OwnerReference) (labels : GoMap) (filename content : String) :
    ∀ ns2 cm,
      .update ns2 cm ∈
        (EnsureRanktableConfigMap K s ns name ownerReferences labels filename content).calls →
      cm.Data = GoMap.single filename content := by
  unfold EnsureRanktableConfigMap
  simp only []
  intro ns2 cm
  repeat' (first | (intro h; simp at h; first | (rw [h.2]; rfl) | done) | split)

/-! ## The read-modify-write contract on the contents the hooks pass -/

/-- A ranktable returned by `RenderRanktable` with a nil error is never the
empty string: the empty string is not valid JSON. -/
theorem RenderRanktable_nonempty (L : Libs) (ranktableTemplate : String)
    (data : RanktableTemplateData) (json : String)
    (h : RenderRanktable L ranktableTemplate data = (json, none)) : json ≠ "" := by
  intro hj
  subst hj
  unfold RenderRanktable at h
  cases h1 : L.templateParse "ranktable" renderFuncs ranktableTemplate with
  | some e => simp [h1] at h
  | none =>
    cases h2 : L.templateExecute "ranktable" renderFuncs ranktableTemplate (.document data) with
    | error e => simp [h1, h2] at h
    | ok buf =>
      cases h3 : L.jsonUnmarshal buf with
      | some e => simp [h1, h2, h3] at h
      | none =>
        simp [h1, h2, h3] at h
        subst h
        have hv := L.json_sound "" h3
        rw [L.json_empty] at hv
        exact absurd hv (by simp)

/-- On the store `apiServer` a call with a content that is not empty returns
nil and leaves the artifact with the data `{filename: content}`. -/
theorem EnsureRanktableConfigMap_stored (s : Store) (ns name : String)
    (owners : List OwnerReference) (labels : GoMap) (filename content : String)
    (hc : content ≠ "") :
    (EnsureRanktableConfigMap apiServer s ns name owners labels filename content).err = none ∧
    ((EnsureRanktableConfigMap apiServer s ns name owners labels filename content).store
      ns name).map (fun o => o.Data) = some (GoMap.single filename content) := by
  obtain ⟨h1, h2, h3⟩ := EnsureRanktableConfigMap_contract s ns name owners labels filename
    content hc
  cases hs : s ns name with
  | none =>
    rw [h1 hs]
    exact ⟨rfl, by simp [Store.put_same]⟩
  | some o =>
    by_cases hd : o.Data = GoMap.single filename content
    · rw [h2 o hs hd]
      exact ⟨rfl, by simp [hs, hd]⟩
    · rw [h3 o hs hd]
      exact ⟨rfl, by simp [Store.put_same]⟩

/-- C13 (as amended): for every content that is not empty,
`EnsureRanktableConfigMap` follows the read-modify-write contract on the store
`apiServer`. If no artifact of the name exists, it issues one create with the
name, namespace, owner references, labels and the data `{filename: content}`;
if one exists whose data is exactly `{filename: content}`, it issues no write;
otherwise it issues one update of the object read, after which the data of the
artifact is `{filename: content}`. In all three cases it returns nil and the
artifact stored has `data[filename] = content`. The contents the hooks pass are
of that kind: a ranktable `RenderRanktable` returns with a nil error is never
empty. -/
theorem EnsureRanktableConfigMap_read_modify_write (s : Store) (ns name : String)
    (owners : List OwnerReference) (labels : GoMap) (filename content : String)
    (hc : content ≠ "") :
    (s ns name = none →
      EnsureRanktableConfigMap apiServer s ns name owners labels filename content =
        { err := none,
          store := s.put ns name
            { OwnerReferences := owners, Labels := labels, ResourceVersion := 1,
              Data := GoMap.single filename content },
          calls := [.get ns name,
            .create ns { Name := name, Namespace := ns, OwnerReferences := owners,
                         Labels := labels, ResourceVersion := 0,
                         Data := GoMap.single filename content }] }) ∧
    (∀ o, s ns name = some o → o.Data = GoMap.single filename content →
      EnsureRanktableConfigMap apiServer s ns name owners labels filename content =
        { err := none, store := s, calls := [.get ns name] }) ∧
    (∀ o, s ns name = some o → o.Data ≠ GoMap.single filename content →
      EnsureRanktableConfigMap apiServer s ns name owners labels filename content =
        { err := none,
          store := s.put ns name
            { OwnerReferences := o.OwnerReferences, Labels := o.Labels,
              ResourceVersion := o.ResourceVersion + 1,
              Data := GoMap.single filename content },
          calls := [.get ns name,
            .update ns { Name := name, Namespace := ns, OwnerReferences := o.OwnerReferences,
                         Labels := o.Labels, ResourceVersion := o.ResourceVersion,
                         Data := GoMap.single filename content }] }) ∧
    (EnsureRanktableConfigMap apiServer s ns name owners labels filename content).err = none ∧
    ((EnsureRanktableConfigMap apiServer s ns name owners labels filename content).store
      ns name).map (fun o => o.Data) = some (GoMap.single filename content) ∧
    ((EnsureRanktableConfigMap apiServer s ns name owners labels filename content).store
      ns name).map (fun o => o.Data.read filename) = some content ∧
    (∀ ns2 name2, (ns2, name2) ≠ (ns, name) →
      (EnsureRanktableConfigMap apiServer s ns name owners labels filename content).store
        ns2 name2 = s ns2 name2) ∧
    (∀ (L : Libs) (ranktableTemplate : String) (data : RanktableTemplateData) (json : String),
      RenderRanktable L ranktableTemplate data = (json, none) → json ≠ "") := by
  obtain ⟨h1, h2, h3⟩ := EnsureRanktableConfigMap_contract s ns name owners labels filename
    content hc
  have hst := EnsureRanktableConfigMap_stored s ns name owners labels filename content hc
  refine ⟨h1, h2, h3, hst.1, hst.2, ?_, ?_, RenderRanktable_nonempty⟩
  · have h := hst.2
    cases hr : (EnsureRanktableConfigMap apiServer s ns name owners labels filename
        content).store ns name with
    | none => rw [hr] at h; exact absurd h (by simp)
    | some o =>
      rw [hr] at h
      simp only [Option.map_some', Option.some.injEq] at h ⊢
      rw [h]
      simp [GoMap.single, GoMap.read, GoMap.lookup]
  · intro ns2 name2 hne
    have hne2 : ¬ (ns2 = ns ∧ name2 = name) := by
      rintro ⟨ha, hb⟩
      exact hne (by rw [ha, hb])
    cases hs : s ns name with
    | none =>
      rw [h1 hs]
      simp [Store.put, hne2]
    | some o =>
      by_cases hd : o.Data = GoMap.single filename content
      · rw [h2 o hs hd]
      · rw [h3 o hs hd]
        simp [Store.put, hne2]

/-- Witness of C13 (as amended): the two cases of the test. The artifact
`default/test-ranktable` is created with the first content on a store without
it, and a call with the second content then updates it. -/
theorem EnsureRanktableConfigMap_read_modify_write_witness :
    EnsureRanktableConfigMap apiServer Store.empty "default" "test-ranktable" []
        (GoMap.single "test" "label") "ranktable.json" "\x7b\"version\": \"1.0\"\x7d" =
      { err := none,
        store := Store.empty.put "default" "test-ranktable"
          { OwnerReferences := [], Labels := GoMap.single "test" "label", ResourceVersion := 1,
            Data := GoMap.single "ranktable.json" "\x7b\"version\": \"1.0\"\x7d" },
        calls := [.get "default" "test-ranktable",
          .create "default"
            { Name := "test-ranktable", Namespace := "default", OwnerReferences := [],
              Labels := GoMap.single "test" "label", ResourceVersion := 0,
              Data := GoMap.single "ranktable.json" "\x7b\"version\": \"1.0\"\x7d" }] } ∧
    EnsureRanktableConfigMap apiServer
        (Store.empty.put "default" "test-ranktable"
          { OwnerReferences := [], Labels := GoMap.single "test" "label", ResourceVersion := 1,
            Data := GoMap.single "ranktable.json" "\x7b\"version\": \"1.0\"\x7d" })
        "default" "test-ranktable" [] (GoMap.single "test" "label") "ranktable.json"
        "\x7b\"version\": \"2.0\"\x7d" =
      { err := none,
        store := (Store.empty.put "default" "test-ranktable"
          { OwnerReferences := [], Labels := GoMap.single "test" "label", ResourceVersion := 1,
            Data := GoMap.single "ranktable.json" "\x7b\"version\": \"1.0\"\x7d" }).put
          "default" "test-ranktable"
          { OwnerReferences := [], Labels := GoMap.single "test" "label", ResourceVersion := 2,
            Data := GoMap.single "ranktable.json" "\x7b\"version\": \"2.0\"\x7d" },
        calls := [.get "default" "test-ranktable",
          .update "default"
            { Name := "test-ranktable", Namespace := "default", OwnerReferences := [],
              Labels := GoMap.single "test" "label", ResourceVersion := 1,
              Data := GoMap.single "ranktable.json" "\x7b\"version\": \"2.0\"\x7d" }] } :=
  ⟨(EnsureRanktableConfigMap_read_modify_write Store.empty "default" "test-ranktable" []
      (GoMap.single "test" "label") "ranktable.json" "\x7b\"version\": \"1.0\"\x7d"
      (by decide)).1 rfl,
    (EnsureRanktableConfigMap_read_modify_write
      (Store.empty.put "default" "test-ranktable"
        { OwnerReferences := [], Labels := GoMap.single "test" "label", ResourceVersion := 1,
          Data := GoMap.single "ranktable.json" "\x7b\"version\": \"1.0\"\x7d" })
      "default" "test-ranktable" [] (GoMap.single "test" "label") "ranktable.json"
      "\x7b\"version\": \"2.0\"\x7d" (by decide)).2.2.1
      { OwnerReferences := [], Labels := GoMap.single "test" "label", ResourceVersion := 1,
        Data := GoMap.single "ranktable.json" "\x7b\"version\": \"1.0\"\x7d" }
      rfl (by decide)⟩

/-! ## A parse error does not stop the pass -/

theorem OnPodReady_cmName_eq (template : RanktableTemplate) (req : HookRequest) :
    OnPodReady.cmName template req =
      if template.Level = "role" then
        req.ModelServing.Name ++ "-" ++ req.ServingGroup ++ "-" ++ req.RoleID ++ "-ranktable"
      else req.ModelServing.Name ++ "-" ++ req.ServingGroup ++ "-ranktable" := by
  show OnPodCreate.cmName template req = _
  by_cases h : template.Level = RoleLevelRanktable
  · rw [cmName_role template req h]
    exact (if_pos h).symm
  · rw [cmName_group template req h]
    exact (if_neg h).symm

/-- C12: when a Running pod that is not being deleted carries an annotation
that `ParsePodRanktable` rejects, the pod contributes nothing and the status of
the pass is Initializing, with the nil contribution list. The parse error is
not returned by the hook, whose error is nil, that of the renderer or that of
the store. The pass goes on: the Initializing document is rendered, and when it
does not render the hook returns the error of the renderer without any call;
when it renders, the hook issues the upsert of the rendered text, which starts
with the get of the artifact of the scope and creates no other object than the
artifact with the rendered text under the file name. On the store `apiServer`
the hook then returns nil and leaves the artifact with the rendered text as its
data, by a create when the artifact was absent. -/
theorem OnPodReady_parse_error_not_fatal {σ : Type} (p : RanktablePlugin) (S : SliceSorter)
    (now : String) (L : Libs) (C : WorkloadConsts) (K : Client σ) (req : HookRequest) (s : σ)
    (resolved : RanktableTemplate) (pods : List Pod) (pod : Pod) (ann e : String)
    (ht : GetRanktableTemplate p.templateManager req.ConfigMapLister p.cfg.Template =
      .ok resolved)
    (hl : req.PodLister req.ModelServing.Namespace
      (OnPodReady.labelSet C (overrideLevel resolved req.ModelServing.Annotations) req) =
      .ok pods)
    (hpod : pod ∈ pods) (hnd : pod.DeletionTimestamp = none) (hrun : pod.Phase = PodRunning)
    (hann : pod.Annotations
      (overrideLevel resolved req.ModelServing.Annotations).PodAnnotationName = some ann)
    (hrej : ParsePodRanktable L
      (overrideLevel resolved req.ModelServing.Annotations).PodParserTemplate ann = .error e) :
    OnPodReady.contribution (ParsePodRanktable L)
        (overrideLevel resolved req.ModelServing.Annotations) pod = none ∧
    OnPodReady.checkReadiness (ParsePodRanktable L)
        (overrideLevel resolved req.ModelServing.Annotations) req.ModelServing.Roles
        req.RoleName pods = (RanktableStatusInitializing, none) ∧
    (∀ he, (p.OnPodReady S now L C K req s).err = some he →
      (∃ msg, he = .render msg) ∨ (∃ cause, he = .store cause)) ∧
    (∀ out re, RenderRanktable L
          (overrideLevel resolved req.ModelServing.Annotations).RanktableTemplate
          { Status := "Initializing", ServerCount := 0, TotalDevices := 0, Timestamp := now,
            Servers := some [] } = (out, some re) →
      (p.OnPodReady S now L C K req s).err =
        some (.render ("failed to render ranktable: " ++ re)) ∧
      (p.OnPodReady S now L C K req s).calls = []) ∧
    (∀ json, RenderRanktable L
          (overrideLevel resolved req.ModelServing.Annotations).RanktableTemplate
          { Status := "Initializing", ServerCount := 0, TotalDevices := 0, Timestamp := now,
            Servers := some [] } = (json, none) →
      (p.OnPodReady S now L C K req s).calls.head? =
        some (.get req.ModelServing.Namespace
          (if (overrideLevel resolved req.ModelServing.Annotations).Level = "role" then
            req.ModelServing.Name ++ "-" ++ req.ServingGroup ++ "-" ++ req.RoleID ++
              "-ranktable"
          else req.ModelServing.Name ++ "-" ++ req.ServingGroup ++ "-ranktable")) ∧
      (∀ ns cm, .create ns cm ∈ (p.OnPodReady S now L C K req s).calls →
        cm.Name =
          (if (overrideLevel resolved req.ModelServing.Annotations).Level = "role" then
            req.ModelServing.Name ++ "-" ++ req.ServingGroup ++ "-" ++ req.RoleID ++
              "-ranktable"
          else req.ModelServing.Name ++ "-" ++ req.ServingGroup ++ "-ranktable") ∧
        cm.Data = GoMap.single
          (overrideLevel resolved req.ModelServing.Annotations).Filename json) ∧
      (∀ ns cm, .update ns cm ∈ (p.OnPodReady S now L C K req s).calls →
        cm.Data = GoMap.single
          (overrideLevel resolved req.ModelServing.Annotations).Filename json)) ∧
    (∀ (st : Store) (json : String), RenderRanktable L
          (overrideLevel resolved req.ModelServing.Annotations).RanktableTemplate
          { Status := "Initializing", ServerCount := 0, TotalDevices := 0, Timestamp := now,
            Servers := some [] } = (json, none) →
      (p.OnPodReady S now L C apiServer req st).err = none ∧
      ((p.OnPodReady S now L C apiServer req st).store req.ModelServing.Namespace
          (if (overrideLevel resolved req.ModelServing.Annotations).Level = "role" then
            req.ModelServing.Name ++ "-" ++ req.ServingGroup ++ "-" ++ req.RoleID ++
              "-ranktable"
          else req.ModelServing.Name ++ "-" ++ req.ServingGroup ++ "-ranktable")).map
          (fun o => o.Data) =
        some (GoMap.single
          (overrideLevel resolved req.ModelServing.Annotations).Filename json) ∧
      (st req.ModelServing.Namespace
          (if (overrideLevel resolved req.ModelServing.Annotations).Level = "role" then
            req.ModelServing.Name ++ "-" ++ req.ServingGroup ++ "-" ++ req.RoleID ++
              "-ranktable"
          else req.ModelServing.Name ++ "-" ++ req.ServingGroup ++ "-ranktable") = none →
        (p.OnPodReady S now L C apiServer req st).calls =
          [.get req.ModelServing.Namespace
            (if (overrideLevel resolved req.ModelServing.Annotations).Level = "role" then
              req.ModelServing.Name ++ "-" ++ req.ServingGroup ++ "-" ++ req.RoleID ++
                "-ranktable"
            else req.ModelServing.Name ++ "-" ++ req.ServingGroup ++ "-ranktable"),
           .create req.ModelServing.Namespace
            { Name :=
                (if (overrideLevel resolved req.ModelServing.Annotations).Level = "role" then
                  req.ModelServing.Name ++ "-" ++ req.ServingGroup ++ "-" ++ req.RoleID ++
                    "-ranktable"
                else req.ModelServing.Name ++ "-" ++ req.ServingGroup ++ "-ranktable"),
              Namespace := req.ModelServing.Namespace,
              OwnerReferences :=
                [{ APIVersion := C.SchemeGroupVersion, Kind := "ModelServing",
                   Name := req.ModelServing.Name, UID := req.ModelServing.UID,
                   Controller := true, BlockOwnerDeletion := true }],
              Labels := OnPodReady.cmLabels C
                (overrideLevel resolved req.ModelServing.Annotations) req,
              ResourceVersion := 0,
              Data := GoMap.single
                (overrideLevel resolved req.ModelServing.Annotations).Filename json }])) := by
  have hc : OnPodReady.contribution (ParsePodRanktable L)
      (overrideLevel resolved req.ModelServing.Annotations) pod = none := by
    unfold OnPodReady.contribution
    simp [hrun, hann, hrej]
  have hcheck := checkReadiness_of_rejected (ParsePodRanktable L)
    (overrideLevel resolved req.ModelServing.Annotations) req.ModelServing.Roles req.RoleName
    pods pod hpod hnd hc
  have hdoc := templateData_initializing S now (ParsePodRanktable L)
    (overrideLevel resolved req.ModelServing.Annotations) req.ModelServing.Roles req.RoleName
    pods (by rw [hcheck])
  have hname := OnPodReady_cmName_eq (overrideLevel resolved req.ModelServing.Annotations) req
  have hhook : ∀ {τ : Type} (K2 : Client τ) (s2 : τ),
      p.OnPodReady S now L C K2 req s2 =
        match RenderRanktable L
          (overrideLevel resolved req.ModelServing.Annotations).RanktableTemplate
          { Status := "Initializing", ServerCount := 0, TotalDevices := 0, Timestamp := now,
            Servers := some [] } with
        | (_, some e) =>
          { err := some (.render ("failed to render ranktable: " ++ e)), store := s2,
            calls := [] }
        | (ranktableJSON, none) =>
          { err := (EnsureRanktableConfigMap K2 s2 req.ModelServing.Namespace
              (OnPodReady.cmName (overrideLevel resolved req.ModelServing.Annotations) req)
              [controllerRef C req.ModelServing]
              (OnPodReady.cmLabels C (overrideLevel resolved req.ModelServing.Annotations) req)
              (overrideLevel resolved req.ModelServing.Annotations).Filename
              ranktableJSON).err.map HookError.store,
            store := (EnsureRanktableConfigMap K2 s2 req.ModelServing.Namespace
              (OnPodReady.cmName (overrideLevel resolved req.ModelServing.Annotations) req)
              [controllerRef C req.ModelServing]
              (OnPodReady.cmLabels C (overrideLevel resolved req.ModelServing.Annotations) req)
              (overrideLevel resolved req.ModelServing.Annotations).Filename
              ranktableJSON).store,
            calls := (EnsureRanktableConfigMap K2 s2 req.ModelServing.Namespace
              (OnPodReady.cmName (overrideLevel resolved req.ModelServing.Annotations) req)
              [controllerRef C req.ModelServing]
              (OnPodReady.cmLabels C (overrideLevel resolved req.ModelServing.Annotations) req)
              (overrideLevel resolved req.ModelServing.Annotations).Filename
              ranktableJSON).calls } := by
    intro τ K2 s2
    rw [OnPodReady_of_listed p S now L C K2 req s2 resolved pods ht hl, hdoc]
    rfl
  refine ⟨hc, hcheck, fun he herr => ?_, fun out re hr => ?_, fun json hr => ?_,
    fun st json hr => ?_⟩
  · rw [hhook K s] at herr
    rcases hr : RenderRanktable L
        (overrideLevel resolved req.ModelServing.Annotations).RanktableTemplate
        { Status := "Initializing", ServerCount := 0, TotalDevices := 0, Timestamp := now,
          Servers := some [] } with ⟨out, rerr⟩
    rw [hr] at herr
    cases rerr with
    | some re =>
      simp only [Option.some.injEq] at herr
      exact Or.inl ⟨_, herr.symm⟩
    | none =>
      simp only [] at herr
      cases hu : (EnsureRanktableConfigMap K s req.ModelServing.Namespace
          (OnPodReady.cmName (overrideLevel resolved req.ModelServing.Annotations) req)
          [controllerRef C req.ModelServing]
          (OnPodReady.cmLabels C (overrideLevel resolved req.ModelServing.Annotations) req)
          (overrideLevel resolved req.ModelServing.Annotations).Filename out).err with
      | none => rw [hu] at herr; exact absurd herr (by simp)
      | some cause =>
        rw [hu] at herr
        simp only [Option.map_some', Option.some.injEq] at herr
        exact Or.inr ⟨cause, herr.symm⟩
  · rw [hhook K s, hr]
    exact ⟨rfl, rfl⟩
  · rw [hhook K s, hr, ← hname]
    simp only []
    have hcalls := EnsureRanktableConfigMap_calls K s req.ModelServing.Namespace
      (OnPodReady.cmName (overrideLevel resolved req.ModelServing.Annotations) req)
      [controllerRef C req.ModelServing]
      (OnPodReady.cmLabels C (overrideLevel resolved req.ModelServing.Annotations) req)
      (overrideLevel resolved req.ModelServing.Annotations).Filename json
    refine ⟨hcalls.1, fun ns cm hmem => ?_, fun ns cm hmem => ?_⟩
    · rw [hcalls.2 ns cm hmem]
      exact ⟨rfl, rfl⟩
    · exact EnsureRanktableConfigMap_updates K s _ _ _ _ _ _ ns cm hmem
  · have hne := RenderRanktable_nonempty L _ _ json hr
    rw [hhook apiServer st, hr, ← hname]
    simp only []
    have hst := EnsureRanktableConfigMap_stored st req.ModelServing.Namespace
      (OnPodReady.cmName (overrideLevel resolved req.ModelServing.Annotations) req)
      [controllerRef C req.ModelServing]
      (OnPodReady.cmLabels C (overrideLevel resolved req.ModelServing.Annotations) req)
      (overrideLevel resolved req.ModelServing.Annotations).Filename json hne
    refine ⟨by rw [hst.1]; rfl, hst.2, fun habs => ?_⟩
    rw [EnsureRanktableConfigMap_absent st _ _ _ _ _ _ habs]
    rfl

/-- Witness of C12: one Running pod whose payload is "invalid json", parsed
with the template that pipes the payload through `fromJson`, on a store
without the artifact. The parser rejects the payload; the hook returns nil and
has created the artifact of the role instance with the rendered Initializing
document under `ranktable.json`. -/
theorem OnPodReady_parse_error_not_fatal_witness :
    ParsePodRanktable basicLibs fromJsonTemplate "invalid json" =
      .error "failed to execute pod parser template: error calling fromJson" ∧
    (RanktablePlugin.OnPodReady testPlugin goInsertionSort "t" basicLibs testConsts apiServer
      testRejectedRequest Store.empty).err = none ∧
    ((RanktablePlugin.OnPodReady testPlugin goInsertionSort "t" basicLibs testConsts apiServer
      testRejectedRequest Store.empty).store "default" "ms-ms-0-worker-0-ranktable").map
        (fun o => o.Data) = some (GoMap.single "ranktable.json" "null") ∧
    (RanktablePlugin.OnPodReady testPlugin goInsertionSort "t" basicLibs testConsts apiServer
      testRejectedRequest Store.empty).calls =
      [.get "default" "ms-ms-0-worker-0-ranktable",
       .create "default"
        { Name := "ms-ms-0-worker-0-ranktable", Namespace := "default",
          OwnerReferences :=
            [{ APIVersion := "workload.serving.volcano.sh/v1alpha1", Kind := "ModelServing",
               Name := "ms", UID := "uid-1", Controller := true, BlockOwnerDeletion := true }],
          Labels := OnPodReady.cmLabels testConsts
            { InferenceEngine := "", Level := "role", PodParserTemplate := fromJsonTemplate,
              RanktableTemplate := "null", MountPath := "/etc/ranktable",
              Filename := "ranktable.json", PodAnnotationName := "ascend.com/ranktable" }
            testRejectedRequest,
          ResourceVersion := 0,
          Data := GoMap.single "ranktable.json" "null" }] :=
  ⟨rfl,
    ((OnPodReady_parse_error_not_fatal testPlugin goInsertionSort "t" basicLibs testConsts
      apiServer testRejectedRequest Store.empty
      { InferenceEngine := "", Level := "role", PodParserTemplate := fromJsonTemplate,
        RanktableTemplate := "null", MountPath := "/etc/ranktable",
        Filename := "ranktable.json", PodAnnotationName := "ascend.com/ranktable" }
      [⟨"pod-0", none, "Running", fun _ => some "invalid json"⟩]
      ⟨"pod-0", none, "Running", fun _ => some "invalid json"⟩ "invalid json"
      "failed to execute pod parser template: error calling fromJson"
      rfl rfl (List.mem_singleton.2 rfl) rfl rfl rfl rfl).2.2.2.2.2 Store.empty "null" rfl).1,
    ((OnPodReady_parse_error_not_fatal testPlugin goInsertionSort "t" basicLibs testConsts
      apiServer testRejectedRequest Store.empty
      { InferenceEngine := "", Level := "role", PodParserTemplate := fromJsonTemplate,
        RanktableTemplate := "null", MountPath := "/etc/ranktable",
        Filename := "ranktable.json", PodAnnotationName := "ascend.com/ranktable" }
      [⟨"pod-0", none, "Running", fun _ => some "invalid json"⟩]
      ⟨"pod-0", none, "Running", fun _ => some "invalid json"⟩ "invalid json"
      "failed to execute pod parser template: error calling fromJson"
      rfl rfl (List.mem_singleton.2 rfl) rfl rfl rfl rfl).2.2.2.2.2 Store.empty "null"
      rfl).2.1,
    ((OnPodReady_parse_error_not_fatal testPlugin goInsertionSort "t" basicLibs testConsts
      apiServer testRejectedRequest Store.empty
      { InferenceEngine := "", Level := "role", PodParserTemplate := fromJsonTemplate,
        RanktableTemplate := "null", MountPath := "/etc/ranktable",
        Filename := "ranktable.json", PodAnnotationName := "ascend.com/ranktable" }
      [⟨"pod-0", none, "Running", fun _ => some "invalid json"⟩]
      ⟨"pod-0", none, "Running", fun _ => some "invalid json"⟩ "invalid json"
      "failed to execute pod parser template: error calling fromJson"
      rfl rfl (List.mem_singleton.2 rfl) rfl rfl rfl rfl).2.2.2.2.2 Store.empty "null"
      rfl).2.2 rfl⟩
end Ranktable
